import Mathlib

/-!
Shallow embedding of gemmi's crystallographic symmetry engine
(`symmetry.hpp`): the `Op` operation algebra with triplet parsing and
serialization, Hall-symbol interpretation, Dimino group closure,
`GroupOps` algebra, the 554-entry space-group table with lookup, and the
reciprocal-space ASU checker.  C++ `int` arithmetic is modelled by `Int`
with truncating division (`Int.tdiv`) and truncating remainder
(`Int.tmod`), matching C++ `/` and `%`.  C++ exceptions are modelled by
`Except SymErr`; the distinct `fail` call sites of the source are mapped
to distinct `SymErr` constructors (the message payloads are dropped).
Loops whose trip count is not structurally bounded in the source carry an
explicit fuel argument; a distinguished `SymErr.fuelExhausted` value
records fuel running out, and theorems below show the fixed fuel used by
the top-level functions is never exhausted.
-/

/-- A 3-component integer vector (a translation, or a Miller-index triple). -/
structure Vec3 where
  va : Int
  vb : Int
  vc : Int
deriving DecidableEq, Repr

/-- A 3×3 integer matrix given by rows, as in `Op::Rot`. -/
structure Mat3 where
  r0 : Vec3
  r1 : Vec3
  r2 : Vec3
deriving DecidableEq, Repr

/-- `Op::DEN`: the fixed denominator 24. -/
def DEN : Int := 24

/-- `Op`: rotation matrix and translation, scaled by `DEN`. -/
structure Op where
  rot : Mat3
  tran : Vec3
deriving DecidableEq, Repr

/-- The zero vector. -/
def Vec3.zero : Vec3 := ⟨0, 0, 0⟩

/-- Vector negation. -/
def Vec3.neg (v : Vec3) : Vec3 := ⟨-v.va, -v.vb, -v.vc⟩

/-- Componentwise addition. -/
def Vec3.add (u v : Vec3) : Vec3 := ⟨u.va + v.va, u.vb + v.vb, u.vc + v.vc⟩

/-- Row `i` of a matrix (0, 1, 2; any other index returns row 2,
which never happens in the embedded code). -/
def Mat3.row (m : Mat3) : Nat → Vec3
  | 0 => m.r0
  | 1 => m.r1
  | _ => m.r2

/-- Plain (unscaled) matrix–vector product, rows acting on a column. -/
def Mat3.apply (m : Mat3) (v : Vec3) : Vec3 :=
  ⟨m.r0.va * v.va + m.r0.vb * v.vb + m.r0.vc * v.vc,
   m.r1.va * v.va + m.r1.vb * v.vb + m.r1.vc * v.vc,
   m.r2.va * v.va + m.r2.vb * v.vb + m.r2.vc * v.vc⟩

/-- Plain (unscaled) matrix product. -/
def Mat3.mul (m n : Mat3) : Mat3 :=
  ⟨⟨m.r0.va * n.r0.va + m.r0.vb * n.r1.va + m.r0.vc * n.r2.va,
    m.r0.va * n.r0.vb + m.r0.vb * n.r1.vb + m.r0.vc * n.r2.vb,
    m.r0.va * n.r0.vc + m.r0.vb * n.r1.vc + m.r0.vc * n.r2.vc⟩,
   ⟨m.r1.va * n.r0.va + m.r1.vb * n.r1.va + m.r1.vc * n.r2.va,
    m.r1.va * n.r0.vb + m.r1.vb * n.r1.vb + m.r1.vc * n.r2.vb,
    m.r1.va * n.r0.vc + m.r1.vb * n.r1.vc + m.r1.vc * n.r2.vc⟩,
   ⟨m.r2.va * n.r0.va + m.r2.vb * n.r1.va + m.r2.vc * n.r2.va,
    m.r2.va * n.r0.vb + m.r2.vb * n.r1.vb + m.r2.vc * n.r2.vb,
    m.r2.va * n.r0.vc + m.r2.vb * n.r1.vc + m.r2.vc * n.r2.vc⟩⟩

/-- Matrix transpose. -/
def Mat3.transpose (m : Mat3) : Mat3 :=
  ⟨⟨m.r0.va, m.r1.va, m.r2.va⟩,
   ⟨m.r0.vb, m.r1.vb, m.r2.vb⟩,
   ⟨m.r0.vc, m.r1.vc, m.r2.vc⟩⟩

/-- Entrywise negation, as `Op::negated_rot`. -/
def Mat3.negated (m : Mat3) : Mat3 :=
  ⟨m.r0.neg, m.r1.neg, m.r2.neg⟩

/-- Entrywise truncating division by `DEN` (used to read off the unscaled
rotation from a `DEN`-scaled one). -/
def Mat3.unscale (m : Mat3) : Mat3 :=
  ⟨⟨m.r0.va.tdiv DEN, m.r0.vb.tdiv DEN, m.r0.vc.tdiv DEN⟩,
   ⟨m.r1.va.tdiv DEN, m.r1.vb.tdiv DEN, m.r1.vc.tdiv DEN⟩,
   ⟨m.r2.va.tdiv DEN, m.r2.vb.tdiv DEN, m.r2.vc.tdiv DEN⟩⟩

/-- Error kinds of the engine; one constructor per distinct `fail`/throw
site family of the source (spec §7 groups them into `InvalidTriplet`,
`InvalidHallSymbol`, `SingularMatrix`, `GroupTooLarge`). -/
inductive SymErr where
  /-- "expected exactly two commas in triplet" (an `InvalidTriplet`). -/
  | wrongCommaCount
  /-- "wrong or unsupported triplet format" (an `InvalidTriplet`). -/
  | wrongTripletFormat
  /-- "Wrong denominator ... in ..." (an `InvalidTriplet`). -/
  | badDenominator
  /-- "unexpected character ... in ..." (an `InvalidTriplet`). -/
  | unexpectedChar
  /-- "trailing sign in ..." (an `InvalidTriplet`). -/
  | trailingSign
  /-- "cannot invert matrix ..." (`SingularMatrix`). -/
  | singularMatrix
  /-- "not a lattice symbol ..." (an `InvalidHallSymbol`). -/
  | notLatticeSymbol
  /-- "wrong n-fold order notation ..." (an `InvalidHallSymbol`). -/
  | badNFoldOrder
  /-- "two numeric subscripts" (an `InvalidHallSymbol`). -/
  | twoSubscripts
  /-- "wrong symbol ..." (diagonal marker vs order mismatch). -/
  | wrongHallSymbol
  /-- "unknown symbol ..." (bad Hall translation letter). -/
  | unknownHallTranslation
  /-- "missing axis" (an `InvalidHallSymbol`). -/
  | missingAxis
  /-- "incorrect axis definition" (an `InvalidHallSymbol`). -/
  | badAxisDefinition
  /-- "unexpected change-of-basis format ..." (an `InvalidHallSymbol`). -/
  | badChangeOfBasis
  /-- "missing ')' ..." (an `InvalidHallSymbol`). -/
  | missingClosingParen
  /-- "misplaced translation ..." (an `InvalidHallSymbol`). -/
  | misplacedTranslation
  /-- "unexpected characters after ')' ..." (an `InvalidHallSymbol`). -/
  | trailingHallCharacters
  /-- out-of-bounds translation index in `hall_matrix_symbol`
  (undefined behaviour in the C++; never reached on the data used here). -/
  | hallUndefined
  /-- "oops" in `add_missing_elements`. -/
  | oops
  /-- "1000+ elements in the group should not happen" (`GroupTooLarge`). -/
  | groupTooLarge
  /-- fuel ran out (modelling artefact; proved unreachable where used). -/
  | fuelExhausted
deriving DecidableEq, Repr

/-- `Op::wrap` on one component: C++ `%` is truncating (`Int.tmod`). -/
def wrapComp (t : Int) : Int :=
  if t ≥ DEN then t.tmod DEN
  else if t < 0 then ((t + 1).tmod DEN) + DEN - 1
  else t

/-- `Op::wrap`: wrap translation into `[0, DEN)`. -/
def Op.wrap (o : Op) : Op :=
  ⟨o.rot, ⟨wrapComp o.tran.va, wrapComp o.tran.vb, wrapComp o.tran.vc⟩⟩

/-- `Op::translate`. -/
def Op.translate (o : Op) (a : Vec3) : Op :=
  ⟨o.rot, o.tran.add a⟩

/-- `Op::add_centering`: translate then wrap. -/
def Op.addCentering (o : Op) (a : Vec3) : Op :=
  (o.translate a).wrap

/-- `Op::negated`. -/
def Op.negated (o : Op) : Op :=
  ⟨o.rot.negated, o.tran.neg⟩

/-- `Op::det_rot`: determinant of the scaled rotation (`DEN³` times the
true determinant). -/
def Op.detRot (o : Op) : Int :=
  o.rot.r0.va * (o.rot.r1.vb * o.rot.r2.vc - o.rot.r1.vc * o.rot.r2.vb)
  - o.rot.r0.vb * (o.rot.r1.va * o.rot.r2.vc - o.rot.r1.vc * o.rot.r2.va)
  + o.rot.r0.vc * (o.rot.r1.va * o.rot.r2.vb - o.rot.r1.vb * o.rot.r2.va)

/-- `Op::combine`: matrix product and translation combination, each entry
divided by `DEN` (C++ integer division → `Int.tdiv`). -/
def Op.combine (a b : Op) : Op :=
  let rrow : Vec3 → Vec3 := fun ar =>
    ⟨(ar.va * b.rot.r0.va + ar.vb * b.rot.r1.va + ar.vc * b.rot.r2.va).tdiv DEN,
     (ar.va * b.rot.r0.vb + ar.vb * b.rot.r1.vb + ar.vc * b.rot.r2.vb).tdiv DEN,
     (ar.va * b.rot.r0.vc + ar.vb * b.rot.r1.vc + ar.vc * b.rot.r2.vc).tdiv DEN⟩
  let trow : Vec3 → Int → Int := fun ar at_ =>
    (at_ * DEN + (ar.va * b.tran.va + ar.vb * b.tran.vb + ar.vc * b.tran.vc)).tdiv DEN
  ⟨⟨rrow a.rot.r0, rrow a.rot.r1, rrow a.rot.r2⟩,
   ⟨trow a.rot.r0 a.tran.va, trow a.rot.r1 a.tran.vb, trow a.rot.r2 a.tran.vc⟩⟩

/-- `Op::apply_to_hkl`: Miller indices transform by the transposed
rotation, divided by `DEN`. -/
def Op.applyToHkl (o : Op) (hkl : Vec3) : Vec3 :=
  ⟨(o.rot.r0.va * hkl.va + o.rot.r1.va * hkl.vb + o.rot.r2.va * hkl.vc).tdiv DEN,
   (o.rot.r0.vb * hkl.va + o.rot.r1.vb * hkl.vb + o.rot.r2.vb * hkl.vc).tdiv DEN,
   (o.rot.r0.vc * hkl.va + o.rot.r1.vc * hkl.vb + o.rot.r2.vc * hkl.vc).tdiv DEN⟩

/-- `Op::identity`. -/
def Op.identity : Op :=
  ⟨⟨⟨DEN, 0, 0⟩, ⟨0, DEN, 0⟩, ⟨0, 0, DEN⟩⟩, ⟨0, 0, 0⟩⟩

/-- The identity rotation (`Op::identity().rot`). -/
def idRot : Mat3 := Op.identity.rot

/-- `operator*`: combine then wrap. -/
def opMul (a b : Op) : Op := (a.combine b).wrap

/-- `Op::inverse` via the adjugate formula; fails on zero determinant. -/
def Op.inverse (o : Op) : Except SymErr Op :=
  let detr := o.detRot
  if detr = 0 then .error .singularMatrix
  else
    let d2 := DEN * DEN
    let r := o.rot
    let i00 := (d2 * (r.r1.vb * r.r2.vc - r.r2.vb * r.r1.vc)).tdiv detr
    let i01 := (d2 * (r.r0.vc * r.r2.vb - r.r0.vb * r.r2.vc)).tdiv detr
    let i02 := (d2 * (r.r0.vb * r.r1.vc - r.r0.vc * r.r1.vb)).tdiv detr
    let i10 := (d2 * (r.r1.vc * r.r2.va - r.r1.va * r.r2.vc)).tdiv detr
    let i11 := (d2 * (r.r0.va * r.r2.vc - r.r0.vc * r.r2.va)).tdiv detr
    let i12 := (d2 * (r.r1.va * r.r0.vc - r.r0.va * r.r1.vc)).tdiv detr
    let i20 := (d2 * (r.r1.va * r.r2.vb - r.r2.va * r.r1.vb)).tdiv detr
    let i21 := (d2 * (r.r2.va * r.r0.vb - r.r0.va * r.r2.vb)).tdiv detr
    let i22 := (d2 * (r.r0.va * r.r1.vb - r.r1.va * r.r0.vb)).tdiv detr
    let t0 := (-o.tran.va * i00 - o.tran.vb * i01 - o.tran.vc * i02).tdiv DEN
    let t1 := (-o.tran.va * i10 - o.tran.vb * i11 - o.tran.vc * i12).tdiv DEN
    let t2 := (-o.tran.va * i20 - o.tran.vb * i21 - o.tran.vc * i22).tdiv DEN
    .ok ⟨⟨⟨i00, i01, i02⟩, ⟨i10, i11, i12⟩, ⟨i20, i21, i22⟩⟩, ⟨t0, t1, t2⟩⟩

/-! ## Triplet parsing (`parse_triplet_part`, `parse_triplet`) -/

/-- `impl::skip_blank` of symmetry.hpp: skips spaces, tabs and `_`. -/
def skipBlank (l : List Char) : List Char :=
  match l with
  | c :: r => if c = ' ' ∨ c = '\t' ∨ c = '_' then skipBlank r else l
  | [] => []

/-- ASCII decimal digit test. -/
def isCDigit (c : Char) : Bool := '0' ≤ c ∧ c ≤ '9'

/-- C `isspace` (default locale). -/
def isCSpace (c : Char) : Bool :=
  c = ' ' ∨ c = '\t' ∨ c = '\n' ∨ c.toNat = 11 ∨ c.toNat = 12 ∨ c = '\r'

/-- Read a run of decimal digits, returning value and rest. -/
def readDigits : List Char → Nat → Nat × List Char
  | c :: r, acc =>
    if isCDigit c then readDigits r (10 * acc + (c.toNat - '0'.toNat)) else (acc, c :: r)
  | [], acc => (acc, [])

/-- `std::strtol(p, &endptr, 10)`: skip C whitespace, optional sign,
digits.  When no digits follow, the value is 0 and the returned rest is
the *original* input (C sets `endptr = nptr` on no conversion). -/
def strtol (l : List Char) : Int × List Char :=
  let l1 := l.dropWhile (fun c => isCSpace c)
  match l1 with
  | '+' :: r =>
    if (r.head?.map isCDigit).getD false then
      let (v, rest) := readDigits r 0
      ((v : Int), rest)
    else (0, l)
  | '-' :: r =>
    if (r.head?.map isCDigit).getD false then
      let (v, rest) := readDigits r 0
      (-(v : Int), rest)
    else (0, l)
  | _ =>
    if (l1.head?.map isCDigit).getD false then
      let (v, rest) := readDigits l1 0
      ((v : Int), rest)
    else (0, l)

/-- Accumulator of `parse_triplet_part`: coefficients of x, y, z and the
shift (`r[0..3]` in the source). -/
structure PartAcc where
  px : Int
  py : Int
  pz : Int
  pw : Int
deriving DecidableEq, Repr

/-- Letter classification step of `parse_triplet_part` (the `memchr`
tests), followed by continuing the loop. -/
def axisOf (c : Char) : Option Nat :=
  if c = 'x' ∨ c = 'X' ∨ c = 'h' ∨ c = 'H' ∨ c = 'a' ∨ c = 'A' then some 0
  else if c = 'y' ∨ c = 'Y' ∨ c = 'k' ∨ c = 'K' ∨ c = 'b' ∨ c = 'B' then some 1
  else if c = 'z' ∨ c = 'Z' ∨ c = 'l' ∨ c = 'L' ∨ c = 'c' ∨ c = 'C' then some 2
  else none

/-- Add `num` to the accumulator component selected by axis index. -/
def PartAcc.addAxis (r : PartAcc) (i : Nat) (num : Int) : PartAcc :=
  match i with
  | 0 => { r with px := r.px + num }
  | 1 => { r with py := r.py + num }
  | _ => { r with pz := r.pz + num }

/-- One-part parser loop of `parse_triplet_part`, with fuel.  Faithful to
the C++ pointer walk: each iteration optionally consumes a sign, then a
numeric factor (with optional `/den` and `*`), then an axis letter or a
shift.  `num` starts at `DEN` for the first term and is reset to 0 after
each term (so later terms must begin with an explicit sign). -/
def parsePartLoop : Nat → List Char → Int → PartAcc → Except SymErr PartAcc
  | 0, _, _, _ => .error .fuelExhausted
  | fuel + 1, l, num, r =>
    match skipBlank l with
    | [] => if num ≠ 0 then .error .trailingSign else .ok r
    | c :: rest =>
      let sgn := c = '+' ∨ c = '-'
      let num1 : Int := if c = '+' then DEN else if c = '-' then -DEN else num
      let l1 := if sgn then skipBlank rest else c :: rest
      if num1 = 0 then .error .wrongTripletFormat
      else
        match l1 with
        | [] => .error .unexpectedChar
        | c2 :: rest2 =>
          if isCDigit c2 then
            let (v, l2) := readDigits (c2 :: rest2) 0
            let num2 := num1 * (v : Int)
            let withDen : Except SymErr (Int × List Char) :=
              match l2 with
              | '/' :: r2 =>
                let (den, l3) := strtol r2
                if den < 1 ∨ ¬ (DEN.tmod den = 0) then .error .badDenominator
                else .ok (num2.tdiv den, l3)
              | _ => .ok (num2, l2)
            match withDen with
            | .error e => .error e
            | .ok (num3, l3) =>
              if l3.head? ≠ some '*' then
                -- is_shift: add to r[3]; c ends at endptr
                parsePartLoop fuel l3 0 { r with pw := r.pw + num3 }
              else
                match skipBlank l3.tail with
                | [] => .error .unexpectedChar
                | c3 :: rest3 =>
                  match axisOf c3 with
                  | some i => parsePartLoop fuel rest3 0 (r.addAxis i num3)
                  | none => .error .unexpectedChar
          else
            match axisOf c2 with
            | some i => parsePartLoop fuel rest2 0 (r.addAxis i num1)
            | none => .error .unexpectedChar

/-- `parse_triplet_part` on a character list. -/
def parseTripletPartL (l : List Char) : Except SymErr PartAcc :=
  parsePartLoop (l.length + 1) l DEN ⟨0, 0, 0, 0⟩

/-- `parse_triplet` on a character list: exactly two commas, split, parse
each part. -/
def parseTripletL (l : List Char) : Except SymErr Op :=
  if l.count ',' ≠ 2 then .error .wrongCommaCount
  else
    let p0 := l.takeWhile (· ≠ ',')
    let r1 := (l.dropWhile (· ≠ ',')).tail
    let p1 := r1.takeWhile (· ≠ ',')
    let p2 := (r1.dropWhile (· ≠ ',')).tail
    match parseTripletPartL p0, parseTripletPartL p1, parseTripletPartL p2 with
    | .ok a, .ok b, .ok c =>
      .ok ⟨⟨⟨a.px, a.py, a.pz⟩, ⟨b.px, b.py, b.pz⟩, ⟨c.px, c.py, c.pz⟩⟩,
           ⟨a.pw, b.pw, c.pw⟩⟩
    | .error e, _, _ => .error e
    | .ok _, .error e, _ => .error e
    | .ok _, .ok _, .error e => .error e

/-- `parse_triplet` on a string. -/
def parseTriplet (s : String) : Except SymErr Op := parseTripletL s.data

/-! ## Triplet serialization (`Op::triplet`) -/

/-- `impl::append_small_number` (we only reach the fast paths for
`0 ≤ n < 100`; larger or negative values go through `toString`). -/
def appendSmallNumber (s : List Char) (n : Int) : List Char :=
  if n < 0 ∨ n ≥ 100 then s ++ (toString n).data
  else if n < 10 then s ++ [Char.ofNat ('0'.toNat + n.toNat)]
  else s ++ [Char.ofNat ('0'.toNat + (n.tdiv 10).toNat),
             Char.ofNat ('0'.toNat + (n - 10 * n.tdiv 10).toNat)]

/-- `impl::append_sign_of`. -/
def appendSignOf (s : List Char) (n : Int) : List Char :=
  if n < 0 then s ++ ['-']
  else if s ≠ [] then s ++ ['+']
  else s

/-- One halving step of `append_op_fraction`. -/
def halveStep (p : Int × Int) : Int × Int :=
  if p.1.tmod 2 = 0 then (p.1.tdiv 2, p.2) else (p.1, p.2 * 2)

/-- `impl::append_op_fraction`: append `w/DEN` reduced to lowest terms. -/
def appendOpFraction (s : List Char) (w : Int) : List Char :=
  let p := halveStep (halveStep (halveStep (w, 1)))
  let p2 := if p.1.tmod 3 = 0 then (p.1.tdiv 3, p.2) else (p.1, p.2 * 3)
  let s1 := appendSmallNumber s p2.1
  if p2.2 ≠ 1 then appendSmallNumber (s1 ++ ['/']) p2.2 else s1

/-- One `xyz[i]` term of `make_triplet_part`. -/
def makeTripletTerm (s : List Char) (xi : Int) (i : Nat) : List Char :=
  if xi ≠ 0 then
    let s1 := appendSignOf s xi
    let a : Int := Int.natAbs xi
    let s2 := if a ≠ DEN then appendOpFraction s1 a ++ ['*'] else s1
    s2 ++ [Char.ofNat ('x'.toNat + i)]
  else s

/-- `make_triplet_part` (with the default style `'x'`). -/
def makeTripletPart (x y z w : Int) : List Char :=
  let s := makeTripletTerm (makeTripletTerm (makeTripletTerm [] x 0) y 1) z 2
  if w ≠ 0 then appendOpFraction (appendSignOf s w) (Int.natAbs w) else s

/-- `Op::triplet` as a character list. -/
def Op.tripletL (o : Op) : List Char :=
  makeTripletPart o.rot.r0.va o.rot.r0.vb o.rot.r0.vc o.tran.va ++ [','] ++
  makeTripletPart o.rot.r1.va o.rot.r1.vb o.rot.r1.vc o.tran.vb ++ [','] ++
  makeTripletPart o.rot.r2.va o.rot.r2.vb o.rot.r2.vc o.tran.vc

/-- `Op::triplet` as a string. -/
def Op.triplet (o : Op) : String := ⟨o.tripletL⟩

/-! ## Centering vectors and `GroupOps` -/

/-- Uppercase a byte as the C++ `& ~0x20` does. -/
def upMask (c : Char) : Nat := c.toNat &&& 0xDF

/-- `centring_vectors`: Table A1.4.2.2 lattice translations. -/
def centringVectors (latticeSymbol : Char) : Except SymErr (List Vec3) :=
  let h : Int := 12
  let t : Int := 8
  let d : Int := 16
  let u := upMask latticeSymbol
  if u = 'P'.toNat then .ok [⟨0, 0, 0⟩]
  else if u = 'A'.toNat then .ok [⟨0, 0, 0⟩, ⟨0, h, h⟩]
  else if u = 'B'.toNat then .ok [⟨0, 0, 0⟩, ⟨h, 0, h⟩]
  else if u = 'C'.toNat then .ok [⟨0, 0, 0⟩, ⟨h, h, 0⟩]
  else if u = 'I'.toNat then .ok [⟨0, 0, 0⟩, ⟨h, h, h⟩]
  else if u = 'R'.toNat then .ok [⟨0, 0, 0⟩, ⟨t, d, d⟩, ⟨d, t, t⟩]
  else if u = 'S'.toNat then .ok [⟨0, 0, 0⟩, ⟨t, t, d⟩, ⟨d, t, d⟩]
  else if u = 'T'.toNat then .ok [⟨0, 0, 0⟩, ⟨t, d, t⟩, ⟨d, t, d⟩]
  else if u = 'H'.toNat then .ok [⟨0, 0, 0⟩, ⟨t, d, 0⟩, ⟨d, t, 0⟩]
  else if u = 'F'.toNat then .ok [⟨0, 0, 0⟩, ⟨0, h, h⟩, ⟨h, 0, h⟩, ⟨h, h, 0⟩]
  else .error .notLatticeSymbol

/-- `GroupOps`: symmetry operations and centering vectors. -/
structure GroupOps where
  symOps : List Op
  cenOps : List Vec3
deriving DecidableEq, Repr

/-- `GroupOps::order`. -/
def GroupOps.order (g : GroupOps) : Nat := g.symOps.length * g.cenOps.length

/-- `GroupOps::find_by_rotation` (first match). -/
def findByRotation (ops : List Op) (r : Mat3) : Option Op :=
  ops.find? (fun o => o.rot = r)

/-- `GroupOps::is_centric`. -/
def GroupOps.isCentric (g : GroupOps) : Bool :=
  (findByRotation g.symOps
    ⟨⟨-DEN, 0, 0⟩, ⟨0, -DEN, 0⟩, ⟨0, 0, -DEN⟩⟩).isSome

/-- Lexicographic key of an `Op`, matching `std::tie(rot, tran)` on
nested `std::array`s. -/
def Op.key (o : Op) : List Int :=
  [o.rot.r0.va, o.rot.r0.vb, o.rot.r0.vc,
   o.rot.r1.va, o.rot.r1.vb, o.rot.r1.vc,
   o.rot.r2.va, o.rot.r2.vb, o.rot.r2.vc,
   o.tran.va, o.tran.vb, o.tran.vc]

/-- Strict lexicographic comparison of integer lists. -/
def listLt : List Int → List Int → Bool
  | _, [] => false
  | [], _ :: _ => true
  | a :: as_, b :: bs => if a < b then true else if b < a then false else listLt as_ bs

/-- `Op::operator<`. -/
def opLt (a b : Op) : Bool := listLt a.key b.key

/-- Insert into a sorted list (used to model `std::sort`: for a strict
total order the sorted sequence of values is unique, so any sort gives
the same list). -/
def insertSorted (a : Op) : List Op → List Op
  | [] => [a]
  | b :: bs => if opLt b a then b :: insertSorted a bs else a :: b :: bs

/-- Insertion sort by `Op::operator<`. -/
def sortOps (l : List Op) : List Op := l.foldr insertSorted []

/-- `GroupOps::all_ops_sorted`: every `sym_op` with every centering
vector applied (`add_centering`), sorted. -/
def GroupOps.allOpsSorted (g : GroupOps) : List Op :=
  sortOps (g.symOps.flatMap (fun so => g.cenOps.map (fun co => so.addCentering co)))

/-- The unsorted full operation list (same multiset as `allOpsSorted`). -/
def GroupOps.fullOps (g : GroupOps) : List Op :=
  g.symOps.flatMap (fun so => g.cenOps.map (fun co => so.addCentering co))

/-- `GroupOps::is_same_as`. -/
def GroupOps.isSameAs (g other : GroupOps) : Bool :=
  if g.cenOps.length ≠ other.cenOps.length ∨ g.symOps.length ≠ other.symOps.length
  then false
  else g.allOpsSorted = other.allOpsSorted

/-- Keep-first deduplication, as the pairwise erase loop at the end of
`change_basis` (removes every element equal to an earlier one). -/
def dedupKeepFirst (l : List Vec3) : List Vec3 :=
  (l.foldl (fun acc v => if acc.contains v then acc else acc ++ [v]) [])

/-- `GroupOps::change_basis`. -/
def GroupOps.changeBasis (g : GroupOps) (cob : Op) : Except SymErr GroupOps :=
  match g.symOps, g.cenOps with
  | [], _ => .ok g
  | _, [] => .ok g
  | s0 :: srest, c0 :: crest =>
    match cob.inverse with
    | .error e => .error e
    | .ok inv =>
      let symOps' := s0 :: srest.map (fun op => ((cob.combine op).combine inv).wrap)
      let idet := (inv.detRot).tdiv (DEN * DEN * DEN)
      let cen1 : List Vec3 :=
        if idet > 1 then
          (List.range idet.toNat).flatMap (fun i =>
            (List.range idet.toNat).flatMap (fun j =>
              (List.range idet.toNat).flatMap (fun k =>
                (c0 :: crest).map (fun cen =>
                  (⟨(i : Int) * DEN + cen.va, (j : Int) * DEN + cen.vb,
                    (k : Int) * DEN + cen.vc⟩ : Vec3)))))
        else c0 :: crest
      let cen2 : List Vec3 :=
        match cen1 with
        | [] => []
        | d0 :: drest =>
          d0 :: drest.map (fun tr =>
            (((cob.combine ⟨Op.identity.rot, tr⟩).combine inv).wrap).tran)
      .ok ⟨symOps', dedupKeepFirst cen2⟩

/-! ## Dimino closure (`GroupOps::add_missing_elements`) -/

/-- The cyclic-subgroup loop of `add_missing_elements`:
`for (Op g = s1*s1; g.rot != idrot; g *= s1) { push; size check }`. -/
def cyclicLoop : Nat → List Op → Op → Op → Except SymErr (List Op)
  | 0, _, _, _ => .error .fuelExhausted
  | fuel + 1, ops, g, s1 =>
    if g.rot = idRot then .ok ops
    else
      let ops' := ops ++ [g]
      if ops'.length > 1023 then .error .groupTooLarge
      else cyclicLoop fuel ops' (opMul g s1) s1

/-- Inner body for one coset representative `cj`: try each generator of
the current prefix, pushing unseen rotations together with their coset
(`sg` and `sg * sym_ops[k]` for `k < init_size`). -/
def dimInner (genPre : List Op) (initTail : List Op) (cj : Op)
    (st : List Op × List Op) : List Op × List Op :=
  genPre.foldl
    (fun st gn =>
      let sg := opMul gn cj
      match findByRotation st.1 sg.rot with
      | some _ => st
      | none =>
        (st.1 ++ [sg] ++ initTail.map (fun k => opMul sg k), st.2 ++ [sg]))
    st

/-- One full pass of the `for(;;)` loop: iterate `j` over the snapshot of
coset representatives taken at pass start. -/
def dimPass (genPre initTail snapshot : List Op) (ops : List Op) :
    List Op × List Op :=
  snapshot.foldl (fun st cj => dimInner genPre initTail cj st) (ops, snapshot)

/-- The `for(;;)` loop: run passes until one adds no coset
representative; check the size cap after each productive pass. -/
def dimRepeat : Nat → List Op → List Op → List Op → List Op →
    Except SymErr (List Op)
  | 0, _, _, _, _ => .error .fuelExhausted
  | fuel + 1, genPre, initTail, cr, ops =>
    let len := cr.length
    let p := dimPass genPre initTail cr ops
    if p.2.length = len then .ok p.1
    else if p.1.length > 1023 then .error .groupTooLarge
    else dimRepeat fuel genPre initTail p.2 p.1

/-- The outer generator loop (`for (size_t i = 1; i < gen.size(); ++i)`). -/
def genLoop : List Op → List Op → List Op → Except SymErr (List Op)
  | ops, _, [] => .ok ops
  | ops, donePre, gnext :: grest =>
    let genPre := donePre ++ [gnext]
    let initTail := ops.tail
    match dimRepeat 1026 genPre initTail [Op.identity] ops with
    | .error e => .error e
    | .ok ops' => genLoop ops' genPre grest

/-- `GroupOps::add_missing_elements` on the `sym_ops` list.  The two
unbounded loops carry fuel 1026, which is proved sufficient below (each
iteration grows the list, and lists beyond 1023 elements abort). -/
def addMissingList (sym : List Op) : Except SymErr (List Op) :=
  match sym with
  | s0 :: s1 :: srest =>
    if s0 ≠ Op.identity then .error .oops
    else
      let ops0 := [s0, s1]
      match cyclicLoop 1026 ops0 (opMul s1 s1) s1 with
      | .error e => .error e
      | .ok ops1 => genLoop ops1 [s1] srest
  | [s0] => if s0 ≠ Op.identity then .error .oops else .ok [s0]
  | [] => .error .oops

/-- `GroupOps::add_missing_elements`. -/
def GroupOps.addMissingElements (g : GroupOps) : Except SymErr GroupOps :=
  match addMissingList g.symOps with
  | .error e => .error e
  | .ok so => .ok ⟨so, g.cenOps⟩

/-! ## Hall symbols -/

/-- Blank characters of the Hall parser (`' '`, `'\t'`, `'_'`). -/
def isHallBlank (c : Char) : Bool := c = ' ' ∨ c = '\t' ∨ c = '_'

/-- `hall_rotation_z`; the argument is the C++ `int` switch value —
either a rotation order or a promoted character code. -/
def hallRotationZ (n : Nat) : Except SymErr Mat3 :=
  let d : Int := DEN
  if n = 1 then .ok ⟨⟨d, 0, 0⟩, ⟨0, d, 0⟩, ⟨0, 0, d⟩⟩
  else if n = 2 then .ok ⟨⟨-d, 0, 0⟩, ⟨0, -d, 0⟩, ⟨0, 0, d⟩⟩
  else if n = 3 then .ok ⟨⟨0, -d, 0⟩, ⟨d, -d, 0⟩, ⟨0, 0, d⟩⟩
  else if n = 4 then .ok ⟨⟨0, -d, 0⟩, ⟨d, 0, 0⟩, ⟨0, 0, d⟩⟩
  else if n = 6 then .ok ⟨⟨d, -d, 0⟩, ⟨d, 0, 0⟩, ⟨0, 0, d⟩⟩
  else if n = '\''.toNat then .ok ⟨⟨0, -d, 0⟩, ⟨-d, 0, 0⟩, ⟨0, 0, -d⟩⟩
  else if n = '"'.toNat then .ok ⟨⟨0, d, 0⟩, ⟨d, 0, 0⟩, ⟨0, 0, -d⟩⟩
  else if n = '*'.toNat then .ok ⟨⟨0, 0, d⟩, ⟨d, 0, 0⟩, ⟨0, d, 0⟩⟩
  else .error .badAxisDefinition

/-- `hall_translation_from_symbol`. -/
def hallTranslationFromSymbol (c : Char) : Except SymErr Vec3 :=
  let h : Int := 12
  let q : Int := 6
  if c = 'a' then .ok ⟨h, 0, 0⟩
  else if c = 'b' then .ok ⟨0, h, 0⟩
  else if c = 'c' then .ok ⟨0, 0, h⟩
  else if c = 'n' then .ok ⟨h, h, h⟩
  else if c = 'u' then .ok ⟨q, 0, 0⟩
  else if c = 'v' then .ok ⟨0, q, 0⟩
  else if c = 'w' then .ok ⟨0, 0, q⟩
  else if c = 'd' then .ok ⟨q, q, q⟩
  else .error .unknownHallTranslation

/-- State accumulated by the modifier loop of `hall_matrix_symbol`. -/
structure HallState where
  fracTran : Nat
  principal : Char
  diagonal : Char
  tran : Vec3
deriving DecidableEq, Repr

/-- The modifier loop of `hall_matrix_symbol` over the token characters
after the order digit. -/
def hallModLoop (n : Nat) : List Char → HallState → Except SymErr HallState
  | [], st => .ok st
  | p :: rest, st =>
    if '1' ≤ p ∧ p ≤ '5' then
      if st.fracTran ≠ 0 then .error .twoSubscripts
      else hallModLoop n rest { st with fracTran := p.toNat - '0'.toNat }
    else if p = '\'' ∨ p = '"' ∨ p = '*' then
      if n ≠ (if p = '*' then 3 else 2) then .error .wrongHallSymbol
      else hallModLoop n rest { st with diagonal := p }
    else if p = 'x' ∨ p = 'y' ∨ p = 'z' then
      hallModLoop n rest { st with principal := p }
    else
      match hallTranslationFromSymbol p with
      | .error e => .error e
      | .ok v => hallModLoop n rest { st with tran := st.tran.add v }

/-- `hall_matrix_symbol` on one whitespace-delimited token (the
`alter_order` row/column permutations are written out inline below). -/
def hallMatrixSymbol (tok : List Char) (pos : Nat) (prev : Nat) :
    Except SymErr (Op × Nat) :=
  let neg := tok.head? = some '-'
  let p := if neg then tok.tail else tok
  match p with
  | [] => .error .badNFoldOrder
  | c :: rest =>
    if c < '1' ∨ c = '5' ∨ c > '6' then .error .badNFoldOrder
    else
      let n := c.toNat - '0'.toNat
      match hallModLoop n rest ⟨0, '\x00', '\x00', ⟨0, 0, 0⟩⟩ with
      | .error e => .error e
      | .ok st0 =>
        -- fill in implicit values
        let st : Except SymErr HallState :=
          if st0.principal = '\x00' ∧ st0.diagonal = '\x00' then
            if pos = 1 then .ok { st0 with principal := 'z' }
            else if pos = 2 ∧ n = 2 then
              if prev = 2 ∨ prev = 4 then .ok { st0 with principal := 'x' }
              else if prev = 3 ∨ prev = 6 then .ok { st0 with diagonal := '\'' }
              else .ok st0
            else if pos = 3 ∧ n = 3 then .ok { st0 with diagonal := '*' }
            else if n ≠ 1 then .error .missingAxis
            else .ok st0
          else .ok st0
        match st with
        | .error e => .error e
        | .ok st =>
          let code := if st.diagonal ≠ '\x00' then st.diagonal.toNat else n
          match hallRotationZ code with
          | .error e => .error e
          | .ok rot0 =>
            let rot1 := if neg then rot0.negated else rot0
            let rot2 :=
              if st.principal = 'x' then
                ⟨⟨rot1.r2.vc, rot1.r2.va, rot1.r2.vb⟩,
                 ⟨rot1.r0.vc, rot1.r0.va, rot1.r0.vb⟩,
                 ⟨rot1.r1.vc, rot1.r1.va, rot1.r1.vb⟩⟩
              else if st.principal = 'y' then
                (⟨⟨rot1.r1.vb, rot1.r1.vc, rot1.r1.va⟩,
                  ⟨rot1.r2.vb, rot1.r2.vc, rot1.r2.va⟩,
                  ⟨rot1.r0.vb, rot1.r0.vc, rot1.r0.va⟩⟩ : Mat3)
              else rot1
            if st.fracTran ≠ 0 then
              let add : Int := (DEN.tdiv (n : Int)) * (st.fracTran : Int)
              if st.principal = 'x' then
                .ok (⟨rot2, ⟨st.tran.va + add, st.tran.vb, st.tran.vc⟩⟩, n)
              else if st.principal = 'y' then
                .ok (⟨rot2, ⟨st.tran.va, st.tran.vb + add, st.tran.vc⟩⟩, n)
              else if st.principal = 'z' then
                .ok (⟨rot2, ⟨st.tran.va, st.tran.vb, st.tran.vc + add⟩⟩, n)
              else .error .hallUndefined
            else .ok (⟨rot2, st.tran⟩, n)

/-- `parse_hall_change_of_basis` on the characters between parentheses. -/
def parseHallChangeOfBasis (inner : List Char) : Except SymErr Op :=
  if inner.contains ',' then parseTripletL inner
  else
    let (v0, l1) := strtol inner
    let (v1, l2) := strtol l1
    let (v2, l3) := strtol l2
    if l3 ≠ [] then .error .badChangeOfBasis
    else .ok ⟨Op.identity.rot,
      ⟨v0.tmod 12 * 2, v1.tmod 12 * 2, v2.tmod 12 * 2⟩⟩

/-- The matrix-symbol token loop of `generators_from_hall`, with fuel
(each iteration consumes at least one character). -/
def hallTokLoop : Nat → List Char → Nat → Nat → GroupOps →
    Except SymErr GroupOps
  | 0, _, _, _, _ => .error .fuelExhausted
  | fuel + 1, l, counter, prev, g =>
    match l with
    | [] => .ok g
    | '(' :: restP =>
      let inner := restP.takeWhile (· ≠ ')')
      let afterAll := restP.dropWhile (· ≠ ')')
      match afterAll with
      | [] => .error .missingClosingParen
      | _ :: afterRb =>
        if g.symOps = [] then .error .misplacedTranslation
        else
          match parseHallChangeOfBasis inner with
          | .error e => .error e
          | .ok cob =>
            match g.changeBasis cob with
            | .error e => .error e
            | .ok g' =>
              let t := skipBlank (afterRb.dropWhile (fun c => ¬ isHallBlank c))
              if t ≠ [] then .error .trailingHallCharacters else .ok g'
    | c :: rest =>
      let tok := (c :: rest).takeWhile (fun d => ¬ isHallBlank d)
      let after := (c :: rest).dropWhile (fun d => ¬ isHallBlank d)
      let counter' := counter + 1
      if c = '1' ∧ (rest.head? = some ' ' ∨ rest = []) then
        hallTokLoop fuel (skipBlank after) counter' prev g
      else
        match hallMatrixSymbol tok counter' prev with
        | .error e => .error e
        | .ok (op, prev') =>
          hallTokLoop fuel (skipBlank after) counter' prev'
            { g with symOps := g.symOps ++ [op] }

/-- `generators_from_hall`. -/
def generatorsFromHall (hall : String) : Except SymErr GroupOps :=
  let l := skipBlank hall.data
  let centrosym := l.head? = some '-'
  let sym0 := if centrosym then [Op.identity, Op.identity.negated] else [Op.identity]
  let latl := if centrosym then skipBlank l.tail else l
  match latl with
  | [] => .error .notLatticeSymbol
  | lc :: afterLat =>
    match centringVectors lc with
    | .error e => .error e
    | .ok cen =>
      hallTokLoop (afterLat.length + 1) (skipBlank afterLat) 0 0 ⟨sym0, cen⟩

/-- `symops_from_hall`. -/
def symopsFromHall (hall : String) : Except SymErr GroupOps :=
  match generatorsFromHall hall with
  | .error e => .error e
  | .ok g => g.addMissingElements

/-! ## The space-group table -/

/-- A `SpaceGroup` table entry. -/
structure SpaceGroup where
  number : Nat
  ccp4 : Int
  hm : String
  ext : Char
  qualifier : String
  hall : String
  basisopIdx : Nat
deriving DecidableEq, Repr

/-- A `SpaceGroupAltName` entry. -/
structure SpaceGroupAltName where
  hm : String
  ext : Char
  pos : Nat
deriving DecidableEq, Repr

/-- `get_basisop`'s table of 49 change-of-basis triplets. -/
def basisops : List String := [
  "x,y,z",
  "z,x,y",
  "y,z,x",
  "z,y,-x",
  "x,y,-x+z",
  "-x,z,y",
  "-x+z,x,y",
  "y,-x,z",
  "y,-x+z,x",
  "x-z,y,z",
  "z,x-z,y",
  "y,z,x-z",
  "z,y,-x+z",
  "x+z,y,-x",
  "x+1/4,y+1/4,z",
  "-x+z,z,y",
  "-x,x+z,y",
  "y,-x+z,z",
  "y,-x,x+z",
  "x+1/4,y-1/4,z",
  "x-1/4,y-1/4,z-1/4",
  "x-1/4,y-1/4,z",
  "z,x-1/4,y-1/4",
  "y-1/4,z,x-1/4",
  "x-1/2,y-1/4,z+1/4",
  "z+1/4,x-1/2,y-1/4",
  "y-1/4,z+1/4,x-1/2",
  "x+1/8,y+1/8,z+1/8",
  "x+1/4,y-1/4,z+1/4",
  "x-1/4,y+1/4,z",
  "x+1/4,y+1/4,z+1/4",
  "x,y+1/4,z+1/8",
  "x-1/4,y+1/4,z+1/4",
  "x-1/4,y+1/4,z-1/4",
  "x-1/2,y+1/4,z+1/8",
  "x-1/2,y+1/4,z-3/8",
  "-y+z,x+z,-x+y+z",
  "x-1/8,y-1/8,z-1/8",
  "x+1/4,y+1/4,-x+z-1/4",
  "x+1/4,y,z",
  "x,y,z+1/4",
  "-x,-1/2*y+1/2*z,1/2*y+1/2*z",
  "-1/2*x+1/2*z,-y,1/2*x+1/2*z",
  "1/2*x+1/2*y,1/2*x-1/2*y,-z",
  "1/2*y+1/2*z,1/2*x+1/2*z,1/2*x+1/2*y",
  "-1/2*x+1/2*y+1/2*z,1/2*x-1/2*y+1/2*z,1/2*x+1/2*y-1/2*z",
  "-1/2*x+z,1/2*x,y",
  "x-1/2*z,y,1/2*z",
  "1/2*x+1/2*y,-1/2*x+1/2*y,z"]

/-- `SpaceGroup::basisop_str`. -/
def SpaceGroup.basisopStr (sg : SpaceGroup) : String :=
  basisops.getD sg.basisopIdx ""

/-- `SpaceGroup::basisop`. -/
def SpaceGroup.basisop (sg : SpaceGroup) : Except SymErr Op :=
  parseTriplet sg.basisopStr

/-- `SpaceGroup::operations`. -/
def SpaceGroup.operations (sg : SpaceGroup) : Except SymErr GroupOps :=
  symopsFromHall sg.hall
/-- Entries 0-49 of the main space-group table. -/
def sgT0 : List SpaceGroup := [
  SpaceGroup.mk 1 1 "P 1" '\x00' "" "P 1" 0,
  SpaceGroup.mk 2 2 "P -1" '\x00' "" "-P 1" 0,
  SpaceGroup.mk 3 3 "P 1 2 1" '\x00' "b" "P 2y" 0,
  SpaceGroup.mk 3 1003 "P 1 1 2" '\x00' "c" "P 2" 1,
  SpaceGroup.mk 3 0 "P 2 1 1" '\x00' "a" "P 2x" 2,
  SpaceGroup.mk 4 4 "P 1 21 1" '\x00' "b" "P 2yb" 0,
  SpaceGroup.mk 4 1004 "P 1 1 21" '\x00' "c" "P 2c" 1,
  SpaceGroup.mk 4 0 "P 21 1 1" '\x00' "a" "P 2xa" 2,
  SpaceGroup.mk 5 5 "C 1 2 1" '\x00' "b1" "C 2y" 0,
  SpaceGroup.mk 5 2005 "A 1 2 1" '\x00' "b2" "A 2y" 3,
  SpaceGroup.mk 5 4005 "I 1 2 1" '\x00' "b3" "I 2y" 4,
  SpaceGroup.mk 5 0 "A 1 1 2" '\x00' "c1" "A 2" 1,
  SpaceGroup.mk 5 1005 "B 1 1 2" '\x00' "c2" "B 2" 5,
  SpaceGroup.mk 5 0 "I 1 1 2" '\x00' "c3" "I 2" 6,
  SpaceGroup.mk 5 0 "B 2 1 1" '\x00' "a1" "B 2x" 2,
  SpaceGroup.mk 5 0 "C 2 1 1" '\x00' "a2" "C 2x" 7,
  SpaceGroup.mk 5 0 "I 2 1 1" '\x00' "a3" "I 2x" 8,
  SpaceGroup.mk 6 6 "P 1 m 1" '\x00' "b" "P -2y" 0,
  SpaceGroup.mk 6 1006 "P 1 1 m" '\x00' "c" "P -2" 1,
  SpaceGroup.mk 6 0 "P m 1 1" '\x00' "a" "P -2x" 2,
  SpaceGroup.mk 7 7 "P 1 c 1" '\x00' "b1" "P -2yc" 0,
  SpaceGroup.mk 7 0 "P 1 n 1" '\x00' "b2" "P -2yac" 9,
  SpaceGroup.mk 7 0 "P 1 a 1" '\x00' "b3" "P -2ya" 3,
  SpaceGroup.mk 7 0 "P 1 1 a" '\x00' "c1" "P -2a" 1,
  SpaceGroup.mk 7 0 "P 1 1 n" '\x00' "c2" "P -2ab" 10,
  SpaceGroup.mk 7 1007 "P 1 1 b" '\x00' "c3" "P -2b" 5,
  SpaceGroup.mk 7 0 "P b 1 1" '\x00' "a1" "P -2xb" 2,
  SpaceGroup.mk 7 0 "P n 1 1" '\x00' "a2" "P -2xbc" 11,
  SpaceGroup.mk 7 0 "P c 1 1" '\x00' "a3" "P -2xc" 7,
  SpaceGroup.mk 8 8 "C 1 m 1" '\x00' "b1" "C -2y" 0,
  SpaceGroup.mk 8 0 "A 1 m 1" '\x00' "b2" "A -2y" 3,
  SpaceGroup.mk 8 0 "I 1 m 1" '\x00' "b3" "I -2y" 4,
  SpaceGroup.mk 8 0 "A 1 1 m" '\x00' "c1" "A -2" 1,
  SpaceGroup.mk 8 1008 "B 1 1 m" '\x00' "c2" "B -2" 5,
  SpaceGroup.mk 8 0 "I 1 1 m" '\x00' "c3" "I -2" 6,
  SpaceGroup.mk 8 0 "B m 1 1" '\x00' "a1" "B -2x" 2,
  SpaceGroup.mk 8 0 "C m 1 1" '\x00' "a2" "C -2x" 7,
  SpaceGroup.mk 8 0 "I m 1 1" '\x00' "a3" "I -2x" 8,
  SpaceGroup.mk 9 9 "C 1 c 1" '\x00' "b1" "C -2yc" 0,
  SpaceGroup.mk 9 0 "A 1 n 1" '\x00' "b2" "A -2yab" 12,
  SpaceGroup.mk 9 0 "I 1 a 1" '\x00' "b3" "I -2ya" 13,
  SpaceGroup.mk 9 0 "A 1 a 1" '\x00' "-b1" "A -2ya" 3,
  SpaceGroup.mk 9 0 "C 1 n 1" '\x00' "-b2" "C -2yac" 14,
  SpaceGroup.mk 9 0 "I 1 c 1" '\x00' "-b3" "I -2yc" 4,
  SpaceGroup.mk 9 0 "A 1 1 a" '\x00' "c1" "A -2a" 1,
  SpaceGroup.mk 9 0 "B 1 1 n" '\x00' "c2" "B -2ab" 15,
  SpaceGroup.mk 9 0 "I 1 1 b" '\x00' "c3" "I -2b" 16,
  SpaceGroup.mk 9 1009 "B 1 1 b" '\x00' "-c1" "B -2b" 5,
  SpaceGroup.mk 9 0 "A 1 1 n" '\x00' "-c2" "A -2ab" 10,
  SpaceGroup.mk 9 0 "I 1 1 a" '\x00' "-c3" "I -2a" 6]

/-- Entries 50-99 of the main space-group table. -/
def sgT1 : List SpaceGroup := [
  SpaceGroup.mk 9 0 "B b 1 1" '\x00' "a1" "B -2xb" 2,
  SpaceGroup.mk 9 0 "C n 1 1" '\x00' "a2" "C -2xac" 17,
  SpaceGroup.mk 9 0 "I c 1 1" '\x00' "a3" "I -2xc" 18,
  SpaceGroup.mk 9 0 "C c 1 1" '\x00' "-a1" "C -2xc" 7,
  SpaceGroup.mk 9 0 "B n 1 1" '\x00' "-a2" "B -2xab" 11,
  SpaceGroup.mk 9 0 "I b 1 1" '\x00' "-a3" "I -2xb" 8,
  SpaceGroup.mk 10 10 "P 1 2/m 1" '\x00' "b" "-P 2y" 0,
  SpaceGroup.mk 10 1010 "P 1 1 2/m" '\x00' "c" "-P 2" 1,
  SpaceGroup.mk 10 0 "P 2/m 1 1" '\x00' "a" "-P 2x" 2,
  SpaceGroup.mk 11 11 "P 1 21/m 1" '\x00' "b" "-P 2yb" 0,
  SpaceGroup.mk 11 1011 "P 1 1 21/m" '\x00' "c" "-P 2c" 1,
  SpaceGroup.mk 11 0 "P 21/m 1 1" '\x00' "a" "-P 2xa" 2,
  SpaceGroup.mk 12 12 "C 1 2/m 1" '\x00' "b1" "-C 2y" 0,
  SpaceGroup.mk 12 0 "A 1 2/m 1" '\x00' "b2" "-A 2y" 3,
  SpaceGroup.mk 12 0 "I 1 2/m 1" '\x00' "b3" "-I 2y" 4,
  SpaceGroup.mk 12 0 "A 1 1 2/m" '\x00' "c1" "-A 2" 1,
  SpaceGroup.mk 12 1012 "B 1 1 2/m" '\x00' "c2" "-B 2" 5,
  SpaceGroup.mk 12 0 "I 1 1 2/m" '\x00' "c3" "-I 2" 6,
  SpaceGroup.mk 12 0 "B 2/m 1 1" '\x00' "a1" "-B 2x" 2,
  SpaceGroup.mk 12 0 "C 2/m 1 1" '\x00' "a2" "-C 2x" 7,
  SpaceGroup.mk 12 0 "I 2/m 1 1" '\x00' "a3" "-I 2x" 8,
  SpaceGroup.mk 13 13 "P 1 2/c 1" '\x00' "b1" "-P 2yc" 0,
  SpaceGroup.mk 13 0 "P 1 2/n 1" '\x00' "b2" "-P 2yac" 9,
  SpaceGroup.mk 13 0 "P 1 2/a 1" '\x00' "b3" "-P 2ya" 3,
  SpaceGroup.mk 13 0 "P 1 1 2/a" '\x00' "c1" "-P 2a" 1,
  SpaceGroup.mk 13 0 "P 1 1 2/n" '\x00' "c2" "-P 2ab" 10,
  SpaceGroup.mk 13 1013 "P 1 1 2/b" '\x00' "c3" "-P 2b" 5,
  SpaceGroup.mk 13 0 "P 2/b 1 1" '\x00' "a1" "-P 2xb" 2,
  SpaceGroup.mk 13 0 "P 2/n 1 1" '\x00' "a2" "-P 2xbc" 11,
  SpaceGroup.mk 13 0 "P 2/c 1 1" '\x00' "a3" "-P 2xc" 7,
  SpaceGroup.mk 14 14 "P 1 21/c 1" '\x00' "b1" "-P 2ybc" 0,
  SpaceGroup.mk 14 2014 "P 1 21/n 1" '\x00' "b2" "-P 2yn" 9,
  SpaceGroup.mk 14 3014 "P 1 21/a 1" '\x00' "b3" "-P 2yab" 3,
  SpaceGroup.mk 14 0 "P 1 1 21/a" '\x00' "c1" "-P 2ac" 1,
  SpaceGroup.mk 14 0 "P 1 1 21/n" '\x00' "c2" "-P 2n" 10,
  SpaceGroup.mk 14 1014 "P 1 1 21/b" '\x00' "c3" "-P 2bc" 5,
  SpaceGroup.mk 14 0 "P 21/b 1 1" '\x00' "a1" "-P 2xab" 2,
  SpaceGroup.mk 14 0 "P 21/n 1 1" '\x00' "a2" "-P 2xn" 11,
  SpaceGroup.mk 14 0 "P 21/c 1 1" '\x00' "a3" "-P 2xac" 7,
  SpaceGroup.mk 15 15 "C 1 2/c 1" '\x00' "b1" "-C 2yc" 0,
  SpaceGroup.mk 15 0 "A 1 2/n 1" '\x00' "b2" "-A 2yab" 12,
  SpaceGroup.mk 15 0 "I 1 2/a 1" '\x00' "b3" "-I 2ya" 13,
  SpaceGroup.mk 15 0 "A 1 2/a 1" '\x00' "-b1" "-A 2ya" 3,
  SpaceGroup.mk 15 0 "C 1 2/n 1" '\x00' "-b2" "-C 2yac" 19,
  SpaceGroup.mk 15 0 "I 1 2/c 1" '\x00' "-b3" "-I 2yc" 4,
  SpaceGroup.mk 15 0 "A 1 1 2/a" '\x00' "c1" "-A 2a" 1,
  SpaceGroup.mk 15 0 "B 1 1 2/n" '\x00' "c2" "-B 2ab" 15,
  SpaceGroup.mk 15 0 "I 1 1 2/b" '\x00' "c3" "-I 2b" 16,
  SpaceGroup.mk 15 1015 "B 1 1 2/b" '\x00' "-c1" "-B 2b" 5,
  SpaceGroup.mk 15 0 "A 1 1 2/n" '\x00' "-c2" "-A 2ab" 10]

/-- Entries 100-149 of the main space-group table. -/
def sgT2 : List SpaceGroup := [
  SpaceGroup.mk 15 0 "I 1 1 2/a" '\x00' "-c3" "-I 2a" 6,
  SpaceGroup.mk 15 0 "B 2/b 1 1" '\x00' "a1" "-B 2xb" 2,
  SpaceGroup.mk 15 0 "C 2/n 1 1" '\x00' "a2" "-C 2xac" 17,
  SpaceGroup.mk 15 0 "I 2/c 1 1" '\x00' "a3" "-I 2xc" 18,
  SpaceGroup.mk 15 0 "C 2/c 1 1" '\x00' "-a1" "-C 2xc" 7,
  SpaceGroup.mk 15 0 "B 2/n 1 1" '\x00' "-a2" "-B 2xab" 11,
  SpaceGroup.mk 15 0 "I 2/b 1 1" '\x00' "-a3" "-I 2xb" 8,
  SpaceGroup.mk 16 16 "P 2 2 2" '\x00' "" "P 2 2" 0,
  SpaceGroup.mk 17 17 "P 2 2 21" '\x00' "" "P 2c 2" 0,
  SpaceGroup.mk 17 1017 "P 21 2 2" '\x00' "cab" "P 2a 2a" 1,
  SpaceGroup.mk 17 2017 "P 2 21 2" '\x00' "bca" "P 2 2b" 2,
  SpaceGroup.mk 18 18 "P 21 21 2" '\x00' "" "P 2 2ab" 0,
  SpaceGroup.mk 18 3018 "P 2 21 21" '\x00' "cab" "P 2bc 2" 1,
  SpaceGroup.mk 18 2018 "P 21 2 21" '\x00' "bca" "P 2ac 2ac" 2,
  SpaceGroup.mk 19 19 "P 21 21 21" '\x00' "" "P 2ac 2ab" 0,
  SpaceGroup.mk 20 20 "C 2 2 21" '\x00' "" "C 2c 2" 0,
  SpaceGroup.mk 20 0 "A 21 2 2" '\x00' "cab" "A 2a 2a" 1,
  SpaceGroup.mk 20 0 "B 2 21 2" '\x00' "bca" "B 2 2b" 2,
  SpaceGroup.mk 21 21 "C 2 2 2" '\x00' "" "C 2 2" 0,
  SpaceGroup.mk 21 0 "A 2 2 2" '\x00' "cab" "A 2 2" 1,
  SpaceGroup.mk 21 0 "B 2 2 2" '\x00' "bca" "B 2 2" 2,
  SpaceGroup.mk 22 22 "F 2 2 2" '\x00' "" "F 2 2" 0,
  SpaceGroup.mk 23 23 "I 2 2 2" '\x00' "" "I 2 2" 0,
  SpaceGroup.mk 24 24 "I 21 21 21" '\x00' "" "I 2b 2c" 0,
  SpaceGroup.mk 25 25 "P m m 2" '\x00' "" "P 2 -2" 0,
  SpaceGroup.mk 25 0 "P 2 m m" '\x00' "cab" "P -2 2" 1,
  SpaceGroup.mk 25 0 "P m 2 m" '\x00' "bca" "P -2 -2" 2,
  SpaceGroup.mk 26 26 "P m c 21" '\x00' "" "P 2c -2" 0,
  SpaceGroup.mk 26 0 "P c m 21" '\x00' "ba-c" "P 2c -2c" 7,
  SpaceGroup.mk 26 0 "P 21 m a" '\x00' "cab" "P -2a 2a" 1,
  SpaceGroup.mk 26 0 "P 21 a m" '\x00' "-cba" "P -2 2a" 3,
  SpaceGroup.mk 26 0 "P b 21 m" '\x00' "bca" "P -2 -2b" 2,
  SpaceGroup.mk 26 0 "P m 21 b" '\x00' "a-cb" "P -2b -2" 5,
  SpaceGroup.mk 27 27 "P c c 2" '\x00' "" "P 2 -2c" 0,
  SpaceGroup.mk 27 0 "P 2 a a" '\x00' "cab" "P -2a 2" 1,
  SpaceGroup.mk 27 0 "P b 2 b" '\x00' "bca" "P -2b -2b" 2,
  SpaceGroup.mk 28 28 "P m a 2" '\x00' "" "P 2 -2a" 0,
  SpaceGroup.mk 28 0 "P b m 2" '\x00' "ba-c" "P 2 -2b" 7,
  SpaceGroup.mk 28 0 "P 2 m b" '\x00' "cab" "P -2b 2" 1,
  SpaceGroup.mk 28 0 "P 2 c m" '\x00' "-cba" "P -2c 2" 3,
  SpaceGroup.mk 28 0 "P c 2 m" '\x00' "bca" "P -2c -2c" 2,
  SpaceGroup.mk 28 0 "P m 2 a" '\x00' "a-cb" "P -2a -2a" 5,
  SpaceGroup.mk 29 29 "P c a 21" '\x00' "" "P 2c -2ac" 0,
  SpaceGroup.mk 29 0 "P b c 21" '\x00' "ba-c" "P 2c -2b" 7,
  SpaceGroup.mk 29 0 "P 21 a b" '\x00' "cab" "P -2b 2a" 1,
  SpaceGroup.mk 29 0 "P 21 c a" '\x00' "-cba" "P -2ac 2a" 3,
  SpaceGroup.mk 29 0 "P c 21 b" '\x00' "bca" "P -2bc -2c" 2,
  SpaceGroup.mk 29 0 "P b 21 a" '\x00' "a-cb" "P -2a -2ab" 5,
  SpaceGroup.mk 30 30 "P n c 2" '\x00' "" "P 2 -2bc" 0,
  SpaceGroup.mk 30 0 "P c n 2" '\x00' "ba-c" "P 2 -2ac" 7]

/-- Entries 150-199 of the main space-group table. -/
def sgT3 : List SpaceGroup := [
  SpaceGroup.mk 30 0 "P 2 n a" '\x00' "cab" "P -2ac 2" 1,
  SpaceGroup.mk 30 0 "P 2 a n" '\x00' "-cba" "P -2ab 2" 3,
  SpaceGroup.mk 30 0 "P b 2 n" '\x00' "bca" "P -2ab -2ab" 2,
  SpaceGroup.mk 30 0 "P n 2 b" '\x00' "a-cb" "P -2bc -2bc" 5,
  SpaceGroup.mk 31 31 "P m n 21" '\x00' "" "P 2ac -2" 0,
  SpaceGroup.mk 31 0 "P n m 21" '\x00' "ba-c" "P 2bc -2bc" 7,
  SpaceGroup.mk 31 0 "P 21 m n" '\x00' "cab" "P -2ab 2ab" 1,
  SpaceGroup.mk 31 0 "P 21 n m" '\x00' "-cba" "P -2 2ac" 3,
  SpaceGroup.mk 31 0 "P n 21 m" '\x00' "bca" "P -2 -2bc" 2,
  SpaceGroup.mk 31 0 "P m 21 n" '\x00' "a-cb" "P -2ab -2" 5,
  SpaceGroup.mk 32 32 "P b a 2" '\x00' "" "P 2 -2ab" 0,
  SpaceGroup.mk 32 0 "P 2 c b" '\x00' "cab" "P -2bc 2" 1,
  SpaceGroup.mk 32 0 "P c 2 a" '\x00' "bca" "P -2ac -2ac" 2,
  SpaceGroup.mk 33 33 "P n a 21" '\x00' "" "P 2c -2n" 0,
  SpaceGroup.mk 33 0 "P b n 21" '\x00' "ba-c" "P 2c -2ab" 7,
  SpaceGroup.mk 33 0 "P 21 n b" '\x00' "cab" "P -2bc 2a" 1,
  SpaceGroup.mk 33 0 "P 21 c n" '\x00' "-cba" "P -2n 2a" 3,
  SpaceGroup.mk 33 0 "P c 21 n" '\x00' "bca" "P -2n -2ac" 2,
  SpaceGroup.mk 33 0 "P n 21 a" '\x00' "a-cb" "P -2ac -2n" 5,
  SpaceGroup.mk 34 34 "P n n 2" '\x00' "" "P 2 -2n" 0,
  SpaceGroup.mk 34 0 "P 2 n n" '\x00' "cab" "P -2n 2" 1,
  SpaceGroup.mk 34 0 "P n 2 n" '\x00' "bca" "P -2n -2n" 2,
  SpaceGroup.mk 35 35 "C m m 2" '\x00' "" "C 2 -2" 0,
  SpaceGroup.mk 35 0 "A 2 m m" '\x00' "cab" "A -2 2" 1,
  SpaceGroup.mk 35 0 "B m 2 m" '\x00' "bca" "B -2 -2" 2,
  SpaceGroup.mk 36 36 "C m c 21" '\x00' "" "C 2c -2" 0,
  SpaceGroup.mk 36 0 "C c m 21" '\x00' "ba-c" "C 2c -2c" 7,
  SpaceGroup.mk 36 0 "A 21 m a" '\x00' "cab" "A -2a 2a" 1,
  SpaceGroup.mk 36 0 "A 21 a m" '\x00' "-cba" "A -2 2a" 3,
  SpaceGroup.mk 36 0 "B b 21 m" '\x00' "bca" "B -2 -2b" 2,
  SpaceGroup.mk 36 0 "B m 21 b" '\x00' "a-cb" "B -2b -2" 5,
  SpaceGroup.mk 37 37 "C c c 2" '\x00' "" "C 2 -2c" 0,
  SpaceGroup.mk 37 0 "A 2 a a" '\x00' "cab" "A -2a 2" 1,
  SpaceGroup.mk 37 0 "B b 2 b" '\x00' "bca" "B -2b -2b" 2,
  SpaceGroup.mk 38 38 "A m m 2" '\x00' "" "A 2 -2" 0,
  SpaceGroup.mk 38 0 "B m m 2" '\x00' "ba-c" "B 2 -2" 7,
  SpaceGroup.mk 38 0 "B 2 m m" '\x00' "cab" "B -2 2" 1,
  SpaceGroup.mk 38 0 "C 2 m m" '\x00' "-cba" "C -2 2" 3,
  SpaceGroup.mk 38 0 "C m 2 m" '\x00' "bca" "C -2 -2" 2,
  SpaceGroup.mk 38 0 "A m 2 m" '\x00' "a-cb" "A -2 -2" 5,
  SpaceGroup.mk 39 39 "A b m 2" '\x00' "" "A 2 -2b" 0,
  SpaceGroup.mk 39 0 "B m a 2" '\x00' "ba-c" "B 2 -2a" 7,
  SpaceGroup.mk 39 0 "B 2 c m" '\x00' "cab" "B -2a 2" 1,
  SpaceGroup.mk 39 0 "C 2 m b" '\x00' "-cba" "C -2a 2" 3,
  SpaceGroup.mk 39 0 "C m 2 a" '\x00' "bca" "C -2a -2a" 2,
  SpaceGroup.mk 39 0 "A c 2 m" '\x00' "a-cb" "A -2b -2b" 5,
  SpaceGroup.mk 40 40 "A m a 2" '\x00' "" "A 2 -2a" 0,
  SpaceGroup.mk 40 0 "B b m 2" '\x00' "ba-c" "B 2 -2b" 7,
  SpaceGroup.mk 40 0 "B 2 m b" '\x00' "cab" "B -2b 2" 1,
  SpaceGroup.mk 40 0 "C 2 c m" '\x00' "-cba" "C -2c 2" 3]

/-- Entries 200-249 of the main space-group table. -/
def sgT4 : List SpaceGroup := [
  SpaceGroup.mk 40 0 "C c 2 m" '\x00' "bca" "C -2c -2c" 2,
  SpaceGroup.mk 40 0 "A m 2 a" '\x00' "a-cb" "A -2a -2a" 5,
  SpaceGroup.mk 41 41 "A b a 2" '\x00' "" "A 2 -2ab" 0,
  SpaceGroup.mk 41 0 "B b a 2" '\x00' "ba-c" "B 2 -2ab" 7,
  SpaceGroup.mk 41 0 "B 2 c b" '\x00' "cab" "B -2ab 2" 1,
  SpaceGroup.mk 41 0 "C 2 c b" '\x00' "-cba" "C -2ac 2" 3,
  SpaceGroup.mk 41 0 "C c 2 a" '\x00' "bca" "C -2ac -2ac" 2,
  SpaceGroup.mk 41 0 "A c 2 a" '\x00' "a-cb" "A -2ab -2ab" 5,
  SpaceGroup.mk 42 42 "F m m 2" '\x00' "" "F 2 -2" 0,
  SpaceGroup.mk 42 0 "F 2 m m" '\x00' "cab" "F -2 2" 1,
  SpaceGroup.mk 42 0 "F m 2 m" '\x00' "bca" "F -2 -2" 2,
  SpaceGroup.mk 43 43 "F d d 2" '\x00' "" "F 2 -2d" 0,
  SpaceGroup.mk 43 0 "F 2 d d" '\x00' "cab" "F -2d 2" 1,
  SpaceGroup.mk 43 0 "F d 2 d" '\x00' "bca" "F -2d -2d" 2,
  SpaceGroup.mk 44 44 "I m m 2" '\x00' "" "I 2 -2" 0,
  SpaceGroup.mk 44 0 "I 2 m m" '\x00' "cab" "I -2 2" 1,
  SpaceGroup.mk 44 0 "I m 2 m" '\x00' "bca" "I -2 -2" 2,
  SpaceGroup.mk 45 45 "I b a 2" '\x00' "" "I 2 -2c" 0,
  SpaceGroup.mk 45 0 "I 2 c b" '\x00' "cab" "I -2a 2" 1,
  SpaceGroup.mk 45 0 "I c 2 a" '\x00' "bca" "I -2b -2b" 2,
  SpaceGroup.mk 46 46 "I m a 2" '\x00' "" "I 2 -2a" 0,
  SpaceGroup.mk 46 0 "I b m 2" '\x00' "ba-c" "I 2 -2b" 7,
  SpaceGroup.mk 46 0 "I 2 m b" '\x00' "cab" "I -2b 2" 1,
  SpaceGroup.mk 46 0 "I 2 c m" '\x00' "-cba" "I -2c 2" 3,
  SpaceGroup.mk 46 0 "I c 2 m" '\x00' "bca" "I -2c -2c" 2,
  SpaceGroup.mk 46 0 "I m 2 a" '\x00' "a-cb" "I -2a -2a" 5,
  SpaceGroup.mk 47 47 "P m m m" '\x00' "" "-P 2 2" 0,
  SpaceGroup.mk 48 48 "P n n n" '1' "" "P 2 2 -1n" 20,
  SpaceGroup.mk 48 0 "P n n n" '2' "" "-P 2ab 2bc" 0,
  SpaceGroup.mk 49 49 "P c c m" '\x00' "" "-P 2 2c" 0,
  SpaceGroup.mk 49 0 "P m a a" '\x00' "cab" "-P 2a 2" 1,
  SpaceGroup.mk 49 0 "P b m b" '\x00' "bca" "-P 2b 2b" 2,
  SpaceGroup.mk 50 50 "P b a n" '1' "" "P 2 2 -1ab" 21,
  SpaceGroup.mk 50 0 "P b a n" '2' "" "-P 2ab 2b" 0,
  SpaceGroup.mk 50 0 "P n c b" '1' "cab" "P 2 2 -1bc" 22,
  SpaceGroup.mk 50 0 "P n c b" '2' "cab" "-P 2b 2bc" 1,
  SpaceGroup.mk 50 0 "P c n a" '1' "bca" "P 2 2 -1ac" 23,
  SpaceGroup.mk 50 0 "P c n a" '2' "bca" "-P 2a 2c" 2,
  SpaceGroup.mk 51 51 "P m m a" '\x00' "" "-P 2a 2a" 0,
  SpaceGroup.mk 51 0 "P m m b" '\x00' "ba-c" "-P 2b 2" 7,
  SpaceGroup.mk 51 0 "P b m m" '\x00' "cab" "-P 2 2b" 1,
  SpaceGroup.mk 51 0 "P c m m" '\x00' "-cba" "-P 2c 2c" 3,
  SpaceGroup.mk 51 0 "P m c m" '\x00' "bca" "-P 2c 2" 2,
  SpaceGroup.mk 51 0 "P m a m" '\x00' "a-cb" "-P 2 2a" 5,
  SpaceGroup.mk 52 52 "P n n a" '\x00' "" "-P 2a 2bc" 0,
  SpaceGroup.mk 52 0 "P n n b" '\x00' "ba-c" "-P 2b 2n" 7,
  SpaceGroup.mk 52 0 "P b n n" '\x00' "cab" "-P 2n 2b" 1,
  SpaceGroup.mk 52 0 "P c n n" '\x00' "-cba" "-P 2ab 2c" 3,
  SpaceGroup.mk 52 0 "P n c n" '\x00' "bca" "-P 2ab 2n" 2,
  SpaceGroup.mk 52 0 "P n a n" '\x00' "a-cb" "-P 2n 2bc" 5]

/-- Entries 250-299 of the main space-group table. -/
def sgT5 : List SpaceGroup := [
  SpaceGroup.mk 53 53 "P m n a" '\x00' "" "-P 2ac 2" 0,
  SpaceGroup.mk 53 0 "P n m b" '\x00' "ba-c" "-P 2bc 2bc" 7,
  SpaceGroup.mk 53 0 "P b m n" '\x00' "cab" "-P 2ab 2ab" 1,
  SpaceGroup.mk 53 0 "P c n m" '\x00' "-cba" "-P 2 2ac" 3,
  SpaceGroup.mk 53 0 "P n c m" '\x00' "bca" "-P 2 2bc" 2,
  SpaceGroup.mk 53 0 "P m a n" '\x00' "a-cb" "-P 2ab 2" 5,
  SpaceGroup.mk 54 54 "P c c a" '\x00' "" "-P 2a 2ac" 0,
  SpaceGroup.mk 54 0 "P c c b" '\x00' "ba-c" "-P 2b 2c" 7,
  SpaceGroup.mk 54 0 "P b a a" '\x00' "cab" "-P 2a 2b" 1,
  SpaceGroup.mk 54 0 "P c a a" '\x00' "-cba" "-P 2ac 2c" 3,
  SpaceGroup.mk 54 0 "P b c b" '\x00' "bca" "-P 2bc 2b" 2,
  SpaceGroup.mk 54 0 "P b a b" '\x00' "a-cb" "-P 2b 2ab" 5,
  SpaceGroup.mk 55 55 "P b a m" '\x00' "" "-P 2 2ab" 0,
  SpaceGroup.mk 55 0 "P m c b" '\x00' "cab" "-P 2bc 2" 1,
  SpaceGroup.mk 55 0 "P c m a" '\x00' "bca" "-P 2ac 2ac" 2,
  SpaceGroup.mk 56 56 "P c c n" '\x00' "" "-P 2ab 2ac" 0,
  SpaceGroup.mk 56 0 "P n a a" '\x00' "cab" "-P 2ac 2bc" 1,
  SpaceGroup.mk 56 0 "P b n b" '\x00' "bca" "-P 2bc 2ab" 2,
  SpaceGroup.mk 57 57 "P b c m" '\x00' "" "-P 2c 2b" 0,
  SpaceGroup.mk 57 0 "P c a m" '\x00' "ba-c" "-P 2c 2ac" 7,
  SpaceGroup.mk 57 0 "P m c a" '\x00' "cab" "-P 2ac 2a" 1,
  SpaceGroup.mk 57 0 "P m a b" '\x00' "-cba" "-P 2b 2a" 3,
  SpaceGroup.mk 57 0 "P b m a" '\x00' "bca" "-P 2a 2ab" 2,
  SpaceGroup.mk 57 0 "P c m b" '\x00' "a-cb" "-P 2bc 2c" 5,
  SpaceGroup.mk 58 58 "P n n m" '\x00' "" "-P 2 2n" 0,
  SpaceGroup.mk 58 0 "P m n n" '\x00' "cab" "-P 2n 2" 1,
  SpaceGroup.mk 58 0 "P n m n" '\x00' "bca" "-P 2n 2n" 2,
  SpaceGroup.mk 59 59 "P m m n" '1' "" "P 2 2ab -1ab" 21,
  SpaceGroup.mk 59 1059 "P m m n" '2' "" "-P 2ab 2a" 0,
  SpaceGroup.mk 59 0 "P n m m" '1' "cab" "P 2bc 2 -1bc" 22,
  SpaceGroup.mk 59 0 "P n m m" '2' "cab" "-P 2c 2bc" 1,
  SpaceGroup.mk 59 0 "P m n m" '1' "bca" "P 2ac 2ac -1ac" 23,
  SpaceGroup.mk 59 0 "P m n m" '2' "bca" "-P 2c 2a" 2,
  SpaceGroup.mk 60 60 "P b c n" '\x00' "" "-P 2n 2ab" 0,
  SpaceGroup.mk 60 0 "P c a n" '\x00' "ba-c" "-P 2n 2c" 7,
  SpaceGroup.mk 60 0 "P n c a" '\x00' "cab" "-P 2a 2n" 1,
  SpaceGroup.mk 60 0 "P n a b" '\x00' "-cba" "-P 2bc 2n" 3,
  SpaceGroup.mk 60 0 "P b n a" '\x00' "bca" "-P 2ac 2b" 2,
  SpaceGroup.mk 60 0 "P c n b" '\x00' "a-cb" "-P 2b 2ac" 5,
  SpaceGroup.mk 61 61 "P b c a" '\x00' "" "-P 2ac 2ab" 0,
  SpaceGroup.mk 61 0 "P c a b" '\x00' "ba-c" "-P 2bc 2ac" 3,
  SpaceGroup.mk 62 62 "P n m a" '\x00' "" "-P 2ac 2n" 0,
  SpaceGroup.mk 62 0 "P m n b" '\x00' "ba-c" "-P 2bc 2a" 7,
  SpaceGroup.mk 62 0 "P b n m" '\x00' "cab" "-P 2c 2ab" 1,
  SpaceGroup.mk 62 0 "P c m n" '\x00' "-cba" "-P 2n 2ac" 3,
  SpaceGroup.mk 62 0 "P m c n" '\x00' "bca" "-P 2n 2a" 2,
  SpaceGroup.mk 62 0 "P n a m" '\x00' "a-cb" "-P 2c 2n" 5,
  SpaceGroup.mk 63 63 "C m c m" '\x00' "" "-C 2c 2" 0,
  SpaceGroup.mk 63 0 "C c m m" '\x00' "ba-c" "-C 2c 2c" 7,
  SpaceGroup.mk 63 0 "A m m a" '\x00' "cab" "-A 2a 2a" 1]

/-- Entries 300-349 of the main space-group table. -/
def sgT6 : List SpaceGroup := [
  SpaceGroup.mk 63 0 "A m a m" '\x00' "-cba" "-A 2 2a" 3,
  SpaceGroup.mk 63 0 "B b m m" '\x00' "bca" "-B 2 2b" 2,
  SpaceGroup.mk 63 0 "B m m b" '\x00' "a-cb" "-B 2b 2" 5,
  SpaceGroup.mk 64 64 "C m c a" '\x00' "" "-C 2ac 2" 0,
  SpaceGroup.mk 64 0 "C c m b" '\x00' "ba-c" "-C 2ac 2ac" 7,
  SpaceGroup.mk 64 0 "A b m a" '\x00' "cab" "-A 2ab 2ab" 1,
  SpaceGroup.mk 64 0 "A c a m" '\x00' "-cba" "-A 2 2ab" 3,
  SpaceGroup.mk 64 0 "B b c m" '\x00' "bca" "-B 2 2ab" 2,
  SpaceGroup.mk 64 0 "B m a b" '\x00' "a-cb" "-B 2ab 2" 5,
  SpaceGroup.mk 65 65 "C m m m" '\x00' "" "-C 2 2" 0,
  SpaceGroup.mk 65 0 "A m m m" '\x00' "cab" "-A 2 2" 1,
  SpaceGroup.mk 65 0 "B m m m" '\x00' "bca" "-B 2 2" 2,
  SpaceGroup.mk 66 66 "C c c m" '\x00' "" "-C 2 2c" 0,
  SpaceGroup.mk 66 0 "A m a a" '\x00' "cab" "-A 2a 2" 1,
  SpaceGroup.mk 66 0 "B b m b" '\x00' "bca" "-B 2b 2b" 2,
  SpaceGroup.mk 67 67 "C m m a" '\x00' "" "-C 2a 2" 0,
  SpaceGroup.mk 67 0 "C m m b" '\x00' "ba-c" "-C 2a 2a" 14,
  SpaceGroup.mk 67 0 "A b m m" '\x00' "cab" "-A 2b 2b" 1,
  SpaceGroup.mk 67 0 "A c m m" '\x00' "-cba" "-A 2 2b" 3,
  SpaceGroup.mk 67 0 "B m c m" '\x00' "bca" "-B 2 2a" 2,
  SpaceGroup.mk 67 0 "B m a m" '\x00' "a-cb" "-B 2a 2" 5,
  SpaceGroup.mk 68 68 "C c c a" '1' "" "C 2 2 -1ac" 24,
  SpaceGroup.mk 68 0 "C c c a" '2' "" "-C 2a 2ac" 0,
  SpaceGroup.mk 68 0 "C c c b" '1' "ba-c" "C 2 2 -1ac" 24,
  SpaceGroup.mk 68 0 "C c c b" '2' "ba-c" "-C 2a 2c" 21,
  SpaceGroup.mk 68 0 "A b a a" '1' "cab" "A 2 2 -1ab" 25,
  SpaceGroup.mk 68 0 "A b a a" '2' "cab" "-A 2a 2b" 1,
  SpaceGroup.mk 68 0 "A c a a" '1' "-cba" "A 2 2 -1ab" 25,
  SpaceGroup.mk 68 0 "A c a a" '2' "-cba" "-A 2ab 2b" 3,
  SpaceGroup.mk 68 0 "B b c b" '1' "bca" "B 2 2 -1ab" 26,
  SpaceGroup.mk 68 0 "B b c b" '2' "bca" "-B 2ab 2b" 2,
  SpaceGroup.mk 68 0 "B b a b" '1' "a-cb" "B 2 2 -1ab" 26,
  SpaceGroup.mk 68 0 "B b a b" '2' "a-cb" "-B 2b 2ab" 5,
  SpaceGroup.mk 69 69 "F m m m" '\x00' "" "-F 2 2" 0,
  SpaceGroup.mk 70 70 "F d d d" '1' "" "F 2 2 -1d" 27,
  SpaceGroup.mk 70 0 "F d d d" '2' "" "-F 2uv 2vw" 0,
  SpaceGroup.mk 71 71 "I m m m" '\x00' "" "-I 2 2" 0,
  SpaceGroup.mk 72 72 "I b a m" '\x00' "" "-I 2 2c" 0,
  SpaceGroup.mk 72 0 "I m c b" '\x00' "cab" "-I 2a 2" 1,
  SpaceGroup.mk 72 0 "I c m a" '\x00' "bca" "-I 2b 2b" 2,
  SpaceGroup.mk 73 73 "I b c a" '\x00' "" "-I 2b 2c" 0,
  SpaceGroup.mk 73 0 "I c a b" '\x00' "ba-c" "-I 2a 2b" 28,
  SpaceGroup.mk 74 74 "I m m a" '\x00' "" "-I 2b 2" 0,
  SpaceGroup.mk 74 0 "I m m b" '\x00' "ba-c" "-I 2a 2a" 28,
  SpaceGroup.mk 74 0 "I b m m" '\x00' "cab" "-I 2c 2c" 1,
  SpaceGroup.mk 74 0 "I c m m" '\x00' "-cba" "-I 2 2b" 3,
  SpaceGroup.mk 74 0 "I m c m" '\x00' "bca" "-I 2 2a" 2,
  SpaceGroup.mk 74 0 "I m a m" '\x00' "a-cb" "-I 2c 2" 5,
  SpaceGroup.mk 75 75 "P 4" '\x00' "" "P 4" 0,
  SpaceGroup.mk 76 76 "P 41" '\x00' "" "P 4w" 0]

/-- Entries 350-399 of the main space-group table. -/
def sgT7 : List SpaceGroup := [
  SpaceGroup.mk 77 77 "P 42" '\x00' "" "P 4c" 0,
  SpaceGroup.mk 78 78 "P 43" '\x00' "" "P 4cw" 0,
  SpaceGroup.mk 79 79 "I 4" '\x00' "" "I 4" 0,
  SpaceGroup.mk 80 80 "I 41" '\x00' "" "I 4bw" 0,
  SpaceGroup.mk 81 81 "P -4" '\x00' "" "P -4" 0,
  SpaceGroup.mk 82 82 "I -4" '\x00' "" "I -4" 0,
  SpaceGroup.mk 83 83 "P 4/m" '\x00' "" "-P 4" 0,
  SpaceGroup.mk 84 84 "P 42/m" '\x00' "" "-P 4c" 0,
  SpaceGroup.mk 85 85 "P 4/n" '1' "" "P 4ab -1ab" 29,
  SpaceGroup.mk 85 0 "P 4/n" '2' "" "-P 4a" 0,
  SpaceGroup.mk 86 86 "P 42/n" '1' "" "P 4n -1n" 30,
  SpaceGroup.mk 86 0 "P 42/n" '2' "" "-P 4bc" 0,
  SpaceGroup.mk 87 87 "I 4/m" '\x00' "" "-I 4" 0,
  SpaceGroup.mk 88 88 "I 41/a" '1' "" "I 4bw -1bw" 31,
  SpaceGroup.mk 88 0 "I 41/a" '2' "" "-I 4ad" 0,
  SpaceGroup.mk 89 89 "P 4 2 2" '\x00' "" "P 4 2" 0,
  SpaceGroup.mk 90 90 "P 4 21 2" '\x00' "" "P 4ab 2ab" 0,
  SpaceGroup.mk 91 91 "P 41 2 2" '\x00' "" "P 4w 2c" 0,
  SpaceGroup.mk 92 92 "P 41 21 2" '\x00' "" "P 4abw 2nw" 0,
  SpaceGroup.mk 93 93 "P 42 2 2" '\x00' "" "P 4c 2" 0,
  SpaceGroup.mk 94 94 "P 42 21 2" '\x00' "" "P 4n 2n" 0,
  SpaceGroup.mk 95 95 "P 43 2 2" '\x00' "" "P 4cw 2c" 0,
  SpaceGroup.mk 96 96 "P 43 21 2" '\x00' "" "P 4nw 2abw" 0,
  SpaceGroup.mk 97 97 "I 4 2 2" '\x00' "" "I 4 2" 0,
  SpaceGroup.mk 98 98 "I 41 2 2" '\x00' "" "I 4bw 2bw" 0,
  SpaceGroup.mk 99 99 "P 4 m m" '\x00' "" "P 4 -2" 0,
  SpaceGroup.mk 100 100 "P 4 b m" '\x00' "" "P 4 -2ab" 0,
  SpaceGroup.mk 101 101 "P 42 c m" '\x00' "" "P 4c -2c" 0,
  SpaceGroup.mk 102 102 "P 42 n m" '\x00' "" "P 4n -2n" 0,
  SpaceGroup.mk 103 103 "P 4 c c" '\x00' "" "P 4 -2c" 0,
  SpaceGroup.mk 104 104 "P 4 n c" '\x00' "" "P 4 -2n" 0,
  SpaceGroup.mk 105 105 "P 42 m c" '\x00' "" "P 4c -2" 0,
  SpaceGroup.mk 106 106 "P 42 b c" '\x00' "" "P 4c -2ab" 0,
  SpaceGroup.mk 107 107 "I 4 m m" '\x00' "" "I 4 -2" 0,
  SpaceGroup.mk 108 108 "I 4 c m" '\x00' "" "I 4 -2c" 0,
  SpaceGroup.mk 109 109 "I 41 m d" '\x00' "" "I 4bw -2" 0,
  SpaceGroup.mk 110 110 "I 41 c d" '\x00' "" "I 4bw -2c" 0,
  SpaceGroup.mk 111 111 "P -4 2 m" '\x00' "" "P -4 2" 0,
  SpaceGroup.mk 112 112 "P -4 2 c" '\x00' "" "P -4 2c" 0,
  SpaceGroup.mk 113 113 "P -4 21 m" '\x00' "" "P -4 2ab" 0,
  SpaceGroup.mk 114 114 "P -4 21 c" '\x00' "" "P -4 2n" 0,
  SpaceGroup.mk 115 115 "P -4 m 2" '\x00' "" "P -4 -2" 0,
  SpaceGroup.mk 116 116 "P -4 c 2" '\x00' "" "P -4 -2c" 0,
  SpaceGroup.mk 117 117 "P -4 b 2" '\x00' "" "P -4 -2ab" 0,
  SpaceGroup.mk 118 118 "P -4 n 2" '\x00' "" "P -4 -2n" 0,
  SpaceGroup.mk 119 119 "I -4 m 2" '\x00' "" "I -4 -2" 0,
  SpaceGroup.mk 120 120 "I -4 c 2" '\x00' "" "I -4 -2c" 0,
  SpaceGroup.mk 121 121 "I -4 2 m" '\x00' "" "I -4 2" 0,
  SpaceGroup.mk 122 122 "I -4 2 d" '\x00' "" "I -4 2bw" 0,
  SpaceGroup.mk 123 123 "P 4/m m m" '\x00' "" "-P 4 2" 0]

/-- Entries 400-449 of the main space-group table. -/
def sgT8 : List SpaceGroup := [
  SpaceGroup.mk 124 124 "P 4/m c c" '\x00' "" "-P 4 2c" 0,
  SpaceGroup.mk 125 125 "P 4/n b m" '1' "" "P 4 2 -1ab" 21,
  SpaceGroup.mk 125 0 "P 4/n b m" '2' "" "-P 4a 2b" 0,
  SpaceGroup.mk 126 126 "P 4/n n c" '1' "" "P 4 2 -1n" 20,
  SpaceGroup.mk 126 0 "P 4/n n c" '2' "" "-P 4a 2bc" 0,
  SpaceGroup.mk 127 127 "P 4/m b m" '\x00' "" "-P 4 2ab" 0,
  SpaceGroup.mk 128 128 "P 4/m n c" '\x00' "" "-P 4 2n" 0,
  SpaceGroup.mk 129 129 "P 4/n m m" '1' "" "P 4ab 2ab -1ab" 29,
  SpaceGroup.mk 129 0 "P 4/n m m" '2' "" "-P 4a 2a" 0,
  SpaceGroup.mk 130 130 "P 4/n c c" '1' "" "P 4ab 2n -1ab" 29,
  SpaceGroup.mk 130 0 "P 4/n c c" '2' "" "-P 4a 2ac" 0,
  SpaceGroup.mk 131 131 "P 42/m m c" '\x00' "" "-P 4c 2" 0,
  SpaceGroup.mk 132 132 "P 42/m c m" '\x00' "" "-P 4c 2c" 0,
  SpaceGroup.mk 133 133 "P 42/n b c" '1' "" "P 4n 2c -1n" 32,
  SpaceGroup.mk 133 0 "P 42/n b c" '2' "" "-P 4ac 2b" 0,
  SpaceGroup.mk 134 134 "P 42/n n m" '1' "" "P 4n 2 -1n" 33,
  SpaceGroup.mk 134 0 "P 42/n n m" '2' "" "-P 4ac 2bc" 0,
  SpaceGroup.mk 135 135 "P 42/m b c" '\x00' "" "-P 4c 2ab" 0,
  SpaceGroup.mk 136 136 "P 42/m n m" '\x00' "" "-P 4n 2n" 0,
  SpaceGroup.mk 137 137 "P 42/n m c" '1' "" "P 4n 2n -1n" 32,
  SpaceGroup.mk 137 0 "P 42/n m c" '2' "" "-P 4ac 2a" 0,
  SpaceGroup.mk 138 138 "P 42/n c m" '1' "" "P 4n 2ab -1n" 33,
  SpaceGroup.mk 138 0 "P 42/n c m" '2' "" "-P 4ac 2ac" 0,
  SpaceGroup.mk 139 139 "I 4/m m m" '\x00' "" "-I 4 2" 0,
  SpaceGroup.mk 140 140 "I 4/m c m" '\x00' "" "-I 4 2c" 0,
  SpaceGroup.mk 141 141 "I 41/a m d" '1' "" "I 4bw 2bw -1bw" 34,
  SpaceGroup.mk 141 0 "I 41/a m d" '2' "" "-I 4bd 2" 0,
  SpaceGroup.mk 142 142 "I 41/a c d" '1' "" "I 4bw 2aw -1bw" 35,
  SpaceGroup.mk 142 0 "I 41/a c d" '2' "" "-I 4bd 2c" 0,
  SpaceGroup.mk 143 143 "P 3" '\x00' "" "P 3" 0,
  SpaceGroup.mk 144 144 "P 31" '\x00' "" "P 31" 0,
  SpaceGroup.mk 145 145 "P 32" '\x00' "" "P 32" 0,
  SpaceGroup.mk 146 146 "R 3" 'H' "" "R 3" 0,
  SpaceGroup.mk 146 1146 "R 3" 'R' "" "P 3*" 36,
  SpaceGroup.mk 147 147 "P -3" '\x00' "" "-P 3" 0,
  SpaceGroup.mk 148 148 "R -3" 'H' "" "-R 3" 0,
  SpaceGroup.mk 148 1148 "R -3" 'R' "" "-P 3*" 36,
  SpaceGroup.mk 149 149 "P 3 1 2" '\x00' "" "P 3 2" 0,
  SpaceGroup.mk 150 150 "P 3 2 1" '\x00' "" "P 3 2\"" 0,
  SpaceGroup.mk 151 151 "P 31 1 2" '\x00' "" "P 31 2 (0 0 4)" 0,
  SpaceGroup.mk 152 152 "P 31 2 1" '\x00' "" "P 31 2\"" 0,
  SpaceGroup.mk 153 153 "P 32 1 2" '\x00' "" "P 32 2 (0 0 2)" 0,
  SpaceGroup.mk 154 154 "P 32 2 1" '\x00' "" "P 32 2\"" 0,
  SpaceGroup.mk 155 155 "R 3 2" 'H' "" "R 3 2\"" 0,
  SpaceGroup.mk 155 1155 "R 3 2" 'R' "" "P 3* 2" 36,
  SpaceGroup.mk 156 156 "P 3 m 1" '\x00' "" "P 3 -2\"" 0,
  SpaceGroup.mk 157 157 "P 3 1 m" '\x00' "" "P 3 -2" 0,
  SpaceGroup.mk 158 158 "P 3 c 1" '\x00' "" "P 3 -2\"c" 0,
  SpaceGroup.mk 159 159 "P 3 1 c" '\x00' "" "P 3 -2c" 0,
  SpaceGroup.mk 160 160 "R 3 m" 'H' "" "R 3 -2\"" 0]

/-- Entries 450-499 of the main space-group table. -/
def sgT9 : List SpaceGroup := [
  SpaceGroup.mk 160 1160 "R 3 m" 'R' "" "P 3* -2" 36,
  SpaceGroup.mk 161 161 "R 3 c" 'H' "" "R 3 -2\"c" 0,
  SpaceGroup.mk 161 1161 "R 3 c" 'R' "" "P 3* -2n" 36,
  SpaceGroup.mk 162 162 "P -3 1 m" '\x00' "" "-P 3 2" 0,
  SpaceGroup.mk 163 163 "P -3 1 c" '\x00' "" "-P 3 2c" 0,
  SpaceGroup.mk 164 164 "P -3 m 1" '\x00' "" "-P 3 2\"" 0,
  SpaceGroup.mk 165 165 "P -3 c 1" '\x00' "" "-P 3 2\"c" 0,
  SpaceGroup.mk 166 166 "R -3 m" 'H' "" "-R 3 2\"" 0,
  SpaceGroup.mk 166 1166 "R -3 m" 'R' "" "-P 3* 2" 36,
  SpaceGroup.mk 167 167 "R -3 c" 'H' "" "-R 3 2\"c" 0,
  SpaceGroup.mk 167 1167 "R -3 c" 'R' "" "-P 3* 2n" 36,
  SpaceGroup.mk 168 168 "P 6" '\x00' "" "P 6" 0,
  SpaceGroup.mk 169 169 "P 61" '\x00' "" "P 61" 0,
  SpaceGroup.mk 170 170 "P 65" '\x00' "" "P 65" 0,
  SpaceGroup.mk 171 171 "P 62" '\x00' "" "P 62" 0,
  SpaceGroup.mk 172 172 "P 64" '\x00' "" "P 64" 0,
  SpaceGroup.mk 173 173 "P 63" '\x00' "" "P 6c" 0,
  SpaceGroup.mk 174 174 "P -6" '\x00' "" "P -6" 0,
  SpaceGroup.mk 175 175 "P 6/m" '\x00' "" "-P 6" 0,
  SpaceGroup.mk 176 176 "P 63/m" '\x00' "" "-P 6c" 0,
  SpaceGroup.mk 177 177 "P 6 2 2" '\x00' "" "P 6 2" 0,
  SpaceGroup.mk 178 178 "P 61 2 2" '\x00' "" "P 61 2 (0 0 5)" 0,
  SpaceGroup.mk 179 179 "P 65 2 2" '\x00' "" "P 65 2 (0 0 1)" 0,
  SpaceGroup.mk 180 180 "P 62 2 2" '\x00' "" "P 62 2 (0 0 4)" 0,
  SpaceGroup.mk 181 181 "P 64 2 2" '\x00' "" "P 64 2 (0 0 2)" 0,
  SpaceGroup.mk 182 182 "P 63 2 2" '\x00' "" "P 6c 2c" 0,
  SpaceGroup.mk 183 183 "P 6 m m" '\x00' "" "P 6 -2" 0,
  SpaceGroup.mk 184 184 "P 6 c c" '\x00' "" "P 6 -2c" 0,
  SpaceGroup.mk 185 185 "P 63 c m" '\x00' "" "P 6c -2" 0,
  SpaceGroup.mk 186 186 "P 63 m c" '\x00' "" "P 6c -2c" 0,
  SpaceGroup.mk 187 187 "P -6 m 2" '\x00' "" "P -6 2" 0,
  SpaceGroup.mk 188 188 "P -6 c 2" '\x00' "" "P -6c 2" 0,
  SpaceGroup.mk 189 189 "P -6 2 m" '\x00' "" "P -6 -2" 0,
  SpaceGroup.mk 190 190 "P -6 2 c" '\x00' "" "P -6c -2c" 0,
  SpaceGroup.mk 191 191 "P 6/m m m" '\x00' "" "-P 6 2" 0,
  SpaceGroup.mk 192 192 "P 6/m c c" '\x00' "" "-P 6 2c" 0,
  SpaceGroup.mk 193 193 "P 63/m c m" '\x00' "" "-P 6c 2" 0,
  SpaceGroup.mk 194 194 "P 63/m m c" '\x00' "" "-P 6c 2c" 0,
  SpaceGroup.mk 195 195 "P 2 3" '\x00' "" "P 2 2 3" 0,
  SpaceGroup.mk 196 196 "F 2 3" '\x00' "" "F 2 2 3" 0,
  SpaceGroup.mk 197 197 "I 2 3" '\x00' "" "I 2 2 3" 0,
  SpaceGroup.mk 198 198 "P 21 3" '\x00' "" "P 2ac 2ab 3" 0,
  SpaceGroup.mk 199 199 "I 21 3" '\x00' "" "I 2b 2c 3" 0,
  SpaceGroup.mk 200 200 "P m -3" '\x00' "" "-P 2 2 3" 0,
  SpaceGroup.mk 201 201 "P n -3" '1' "" "P 2 2 3 -1n" 20,
  SpaceGroup.mk 201 0 "P n -3" '2' "" "-P 2ab 2bc 3" 0,
  SpaceGroup.mk 202 202 "F m -3" '\x00' "" "-F 2 2 3" 0,
  SpaceGroup.mk 203 203 "F d -3" '1' "" "F 2 2 3 -1d" 27,
  SpaceGroup.mk 203 0 "F d -3" '2' "" "-F 2uv 2vw 3" 0,
  SpaceGroup.mk 204 204 "I m -3" '\x00' "" "-I 2 2 3" 0]

/-- Entries 500-549 of the main space-group table. -/
def sgT10 : List SpaceGroup := [
  SpaceGroup.mk 205 205 "P a -3" '\x00' "" "-P 2ac 2ab 3" 0,
  SpaceGroup.mk 206 206 "I a -3" '\x00' "" "-I 2b 2c 3" 0,
  SpaceGroup.mk 207 207 "P 4 3 2" '\x00' "" "P 4 2 3" 0,
  SpaceGroup.mk 208 208 "P 42 3 2" '\x00' "" "P 4n 2 3" 0,
  SpaceGroup.mk 209 209 "F 4 3 2" '\x00' "" "F 4 2 3" 0,
  SpaceGroup.mk 210 210 "F 41 3 2" '\x00' "" "F 4d 2 3" 0,
  SpaceGroup.mk 211 211 "I 4 3 2" '\x00' "" "I 4 2 3" 0,
  SpaceGroup.mk 212 212 "P 43 3 2" '\x00' "" "P 4acd 2ab 3" 0,
  SpaceGroup.mk 213 213 "P 41 3 2" '\x00' "" "P 4bd 2ab 3" 0,
  SpaceGroup.mk 214 214 "I 41 3 2" '\x00' "" "I 4bd 2c 3" 0,
  SpaceGroup.mk 215 215 "P -4 3 m" '\x00' "" "P -4 2 3" 0,
  SpaceGroup.mk 216 216 "F -4 3 m" '\x00' "" "F -4 2 3" 0,
  SpaceGroup.mk 217 217 "I -4 3 m" '\x00' "" "I -4 2 3" 0,
  SpaceGroup.mk 218 218 "P -4 3 n" '\x00' "" "P -4n 2 3" 0,
  SpaceGroup.mk 219 219 "F -4 3 c" '\x00' "" "F -4a 2 3" 0,
  SpaceGroup.mk 220 220 "I -4 3 d" '\x00' "" "I -4bd 2c 3" 0,
  SpaceGroup.mk 221 221 "P m -3 m" '\x00' "" "-P 4 2 3" 0,
  SpaceGroup.mk 222 222 "P n -3 n" '1' "" "P 4 2 3 -1n" 20,
  SpaceGroup.mk 222 0 "P n -3 n" '2' "" "-P 4a 2bc 3" 0,
  SpaceGroup.mk 223 223 "P m -3 n" '\x00' "" "-P 4n 2 3" 0,
  SpaceGroup.mk 224 224 "P n -3 m" '1' "" "P 4n 2 3 -1n" 30,
  SpaceGroup.mk 224 0 "P n -3 m" '2' "" "-P 4bc 2bc 3" 0,
  SpaceGroup.mk 225 225 "F m -3 m" '\x00' "" "-F 4 2 3" 0,
  SpaceGroup.mk 226 226 "F m -3 c" '\x00' "" "-F 4a 2 3" 0,
  SpaceGroup.mk 227 227 "F d -3 m" '1' "" "F 4d 2 3 -1d" 27,
  SpaceGroup.mk 227 0 "F d -3 m" '2' "" "-F 4vw 2vw 3" 0,
  SpaceGroup.mk 228 228 "F d -3 c" '1' "" "F 4d 2 3 -1ad" 37,
  SpaceGroup.mk 228 0 "F d -3 c" '2' "" "-F 4ud 2vw 3" 0,
  SpaceGroup.mk 229 229 "I m -3 m" '\x00' "" "-I 4 2 3" 0,
  SpaceGroup.mk 230 230 "I a -3 d" '\x00' "" "-I 4bd 2c 3" 0,
  SpaceGroup.mk 5 5005 "I 1 21 1" '\x00' "" "I 2yb" 38,
  SpaceGroup.mk 5 3005 "C 1 21 1" '\x00' "" "C 2yb" 14,
  SpaceGroup.mk 18 1018 "P 21212(a)" '\x00' "" "P 2ab 2a" 14,
  SpaceGroup.mk 20 1020 "C 2 2 21a)" '\x00' "" "C 2ac 2" 39,
  SpaceGroup.mk 21 1021 "C 2 2 2a" '\x00' "" "C 2ab 2b" 14,
  SpaceGroup.mk 22 1022 "F 2 2 2a" '\x00' "" "F 2 2c" 40,
  SpaceGroup.mk 23 1023 "I 2 2 2a" '\x00' "" "I 2ab 2bc" 33,
  SpaceGroup.mk 94 1094 "P 42 21 2a" '\x00' "" "P 4bc 2a" 20,
  SpaceGroup.mk 197 1197 "I 2 3a" '\x00' "" "I 2ab 2bc 3" 30,
  SpaceGroup.mk 1 0 "A 1" '\x00' "" "A 1" 41,
  SpaceGroup.mk 1 0 "B 1" '\x00' "" "B 1" 42,
  SpaceGroup.mk 1 0 "C 1" '\x00' "" "C 1" 43,
  SpaceGroup.mk 1 0 "F 1" '\x00' "" "F 1" 44,
  SpaceGroup.mk 1 0 "I 1" '\x00' "" "I 1" 45,
  SpaceGroup.mk 2 0 "A -1" '\x00' "" "-A 1" 41,
  SpaceGroup.mk 2 0 "B -1" '\x00' "" "-B 1" 42,
  SpaceGroup.mk 2 0 "C -1" '\x00' "" "-C 1" 43,
  SpaceGroup.mk 2 0 "F -1" '\x00' "" "-F 1" 44,
  SpaceGroup.mk 2 0 "I -1" '\x00' "" "-I 1" 45,
  SpaceGroup.mk 4 0 "C 1 1 21" '\x00' "" "C 2c" 46]

/-- Entries 550-553 of the main space-group table. -/
def sgT11 : List SpaceGroup := [
  SpaceGroup.mk 12 0 "F 1 2/m 1" '\x00' "" "-F 2y" 47,
  SpaceGroup.mk 64 0 "A b a m" '\x00' "" "-A 2 2ab" 3,
  SpaceGroup.mk 117 0 "C -4 2 b" '\x00' "" "C -4 2ya" 48,
  SpaceGroup.mk 139 0 "F 4/m m m" '\x00' "" "-F 4 2" 48]

/-- The main space-group table (554 entries), split into chunks of 50
for tractable elaboration. -/
def sgTable : List SpaceGroup :=
  sgT0 ++ sgT1 ++ sgT2 ++ sgT3 ++ sgT4 ++ sgT5 ++ sgT6 ++ sgT7 ++ sgT8 ++ sgT9 ++ sgT10 ++ sgT11

/-- The 27-entry alternate-name table. -/
def altNames : List SpaceGroupAltName := [
  SpaceGroupAltName.mk "A e m 2" '\x00' 190,
  SpaceGroupAltName.mk "B m e 2" '\x00' 191,
  SpaceGroupAltName.mk "B 2 e m" '\x00' 192,
  SpaceGroupAltName.mk "C 2 m e" '\x00' 193,
  SpaceGroupAltName.mk "C m 2 e" '\x00' 194,
  SpaceGroupAltName.mk "A e 2 m" '\x00' 195,
  SpaceGroupAltName.mk "A e a 2" '\x00' 202,
  SpaceGroupAltName.mk "B b e 2" '\x00' 203,
  SpaceGroupAltName.mk "B 2 e b" '\x00' 204,
  SpaceGroupAltName.mk "C 2 c e" '\x00' 205,
  SpaceGroupAltName.mk "C c 2 e" '\x00' 206,
  SpaceGroupAltName.mk "A e 2 a" '\x00' 207,
  SpaceGroupAltName.mk "C m c e" '\x00' 303,
  SpaceGroupAltName.mk "C c m e" '\x00' 304,
  SpaceGroupAltName.mk "A e m a" '\x00' 305,
  SpaceGroupAltName.mk "A e a m" '\x00' 306,
  SpaceGroupAltName.mk "B b e m" '\x00' 307,
  SpaceGroupAltName.mk "B m e b" '\x00' 308,
  SpaceGroupAltName.mk "C m m e" '\x00' 315,
  SpaceGroupAltName.mk "A e m m" '\x00' 317,
  SpaceGroupAltName.mk "B m e m" '\x00' 319,
  SpaceGroupAltName.mk "C c c e" '1' 321,
  SpaceGroupAltName.mk "C c c e" '2' 322,
  SpaceGroupAltName.mk "A e a a" '1' 325,
  SpaceGroupAltName.mk "A e a a" '2' 326,
  SpaceGroupAltName.mk "B b e b" '1' 329,
  SpaceGroupAltName.mk "B b e b" '2' 330]

/-- `ccp4_hkl_asu`: reciprocal-space ASU index per space-group number. -/
def ccp4HklAsu : List Nat := [0, 0, 1, 1, 1, 1, 1, 1, 1, 1, 1, 1, 1, 1, 1, 2, 2, 2, 2, 2, 2, 2, 2, 2, 2, 2, 2, 2, 2, 2, 2, 2, 2, 2, 2, 2, 2, 2, 2, 2, 2, 2, 2, 2, 2, 2, 2, 2, 2, 2, 2, 2, 2, 2, 2, 2, 2, 2, 2, 2, 2, 2, 2, 2, 2, 2, 2, 2, 2, 2, 2, 2, 2, 2, 3, 3, 3, 3, 3, 3, 3, 3, 3, 3, 3, 3, 3, 3, 4, 4, 4, 4, 4, 4, 4, 4, 4, 4, 4, 4, 4, 4, 4, 4, 4, 4, 4, 4, 4, 4, 4, 4, 4, 4, 4, 4, 4, 4, 4, 4, 4, 4, 4, 4, 4, 4, 4, 4, 4, 4, 4, 4, 4, 4, 4, 4, 4, 4, 4, 4, 4, 4, 5, 5, 5, 5, 5, 5, 6, 7, 6, 7, 6, 7, 7, 7, 6, 7, 6, 7, 7, 6, 6, 7, 7, 7, 7, 3, 3, 3, 3, 3, 3, 3, 3, 3, 4, 4, 4, 4, 4, 4, 4, 4, 4, 4, 4, 4, 4, 4, 4, 4, 4, 4, 8, 8, 8, 8, 8, 8, 8, 8, 8, 8, 8, 8, 9, 9, 9, 9, 9, 9, 9, 9, 9, 9, 9, 9, 9, 9, 9, 9, 9, 9, 9, 9, 9, 9, 9, 9]

/-- `find_spacegroup_by_number`: first entry with the given ccp4 number. -/
def findSpacegroupByNumber (ccp4 : Int) : Option SpaceGroup :=
  sgTable.find? (fun sg => sg.ccp4 = ccp4)

/-! ## Reciprocal-space ASU checker -/

/-- The ten reference-setting conditions of
`HklAsuChecker::is_in_reference_setting`. -/
def asuCond (idx : Nat) (h k l : Int) : Bool :=
  match idx with
  | 0 => l > 0 ∨ (l = 0 ∧ (h > 0 ∨ (h = 0 ∧ k ≥ 0)))
  | 1 => k ≥ 0 ∧ (l > 0 ∨ (l = 0 ∧ h ≥ 0))
  | 2 => h ≥ 0 ∧ k ≥ 0 ∧ l ≥ 0
  | 3 => l ≥ 0 ∧ ((h ≥ 0 ∧ k > 0) ∨ (h = 0 ∧ k = 0))
  | 4 => h ≥ k ∧ k ≥ 0 ∧ l ≥ 0
  | 5 => (h ≥ 0 ∧ k > 0) ∨ (h = 0 ∧ k = 0 ∧ l ≥ 0)
  | 6 => h ≥ k ∧ k ≥ 0 ∧ (k > 0 ∨ l ≥ 0)
  | 7 => h ≥ k ∧ k ≥ 0 ∧ (h > k ∨ l ≥ 0)
  | 8 => h ≥ 0 ∧ ((l ≥ h ∧ k > h) ∨ (l = h ∧ k = h))
  | 9 => k ≥ l ∧ l ≥ h ∧ h ≥ 0
  | _ => false

/-- `HklAsuChecker`: basis-inverse rotation and condition index. -/
structure HklAsuChecker where
  idx : Nat
  rot : Mat3
deriving DecidableEq, Repr

/-- The `HklAsuChecker` constructor (from a non-null space group). -/
def mkHklAsuChecker (sg : SpaceGroup) : Except SymErr HklAsuChecker :=
  match sg.basisop with
  | .error e => .error e
  | .ok b =>
    match b.inverse with
    | .error e => .error e
    | .ok inv => .ok ⟨ccp4HklAsu.getD (sg.number - 1) 0, inv.rot⟩

/-- `HklAsuChecker::is_in`. -/
def HklAsuChecker.isIn (ch : HklAsuChecker) (h k l : Int) : Bool :=
  asuCond ch.idx
    (ch.rot.r0.va * h + ch.rot.r0.vb * k + ch.rot.r0.vc * l)
    (ch.rot.r1.va * h + ch.rot.r1.vb * k + ch.rot.r1.vc * l)
    (ch.rot.r2.va * h + ch.rot.r2.vb * k + ch.rot.r2.vc * l)

/-! ## Name lookup (`find_spacegroup_by_name`) -/

/-- The character a C pointer sees: head of the list, or NUL at the end. -/
def c0 (l : List Char) : Char := l.headD '\x00'

/-- Indexing into a NUL-terminated character array. -/
def cAt (l : List Char) (i : Nat) : Char := l.getD i '\x00'

/-- The inner comparison loop of `find_spacegroup_by_name`:
`while (*a == *b && *b != '\0') { a = skip_blank(a+1); b = skip_blank(b+1); }`.
Fuel is the length of `b` plus one (both sides shrink every iteration). -/
def hmMatchLoop : Nat → List Char → List Char → List Char × List Char
  | 0, a, b => (a, b)
  | f + 1, a, b =>
    if c0 a = c0 b ∧ c0 b ≠ '\x00' then
      hmMatchLoop f (skipBlank a.tail) (skipBlank b.tail)
    else (a, b)

/-- The monoclinic short-name loop:
`while (*a == *b && *b != ' ') { a = skip_blank(a+1); ++b; }`. -/
def monoMatchLoop : Nat → List Char → List Char → List Char × List Char
  | 0, a, b => (a, b)
  | f + 1, a, b =>
    if c0 a = c0 b ∧ c0 b ≠ ' ' then
      monoMatchLoop f (skipBlank a.tail) b.tail
    else (a, b)

/-- One main-table candidate test of `find_spacegroup_by_name`; `first`
is the case-folded first letter and `p` points at the second token. -/
def matchMain (hm : List Char) (ext : Char) (first : Char) (p : List Char) : Bool :=
  if c0 hm = first ∧ cAt hm 2 = c0 p then
    let ab := hmMatchLoop (hm.length + 1) (skipBlank p.tail) (skipBlank (hm.drop 3))
    c0 ab.2 = '\x00' ∧
      (c0 ab.1 = '\x00' ∨ (c0 ab.1 = ':' ∧ c0 (skipBlank ab.1.tail) = ext))
  else if c0 hm = first ∧ cAt hm 2 = '1' ∧ cAt hm 3 = ' ' ∧ cAt hm 4 ≠ '1' then
    let ab := monoMatchLoop (hm.length + 1) (skipBlank p) (hm.drop 4)
    c0 ab.1 = '\x00' ∧ c0 ab.2 = ' '
  else false

/-- `find_spacegroup_by_name`. -/
def findSpacegroupByName (name : String) : Option SpaceGroup :=
  let nm : List Char :=
    match name.data with
    | 'H' :: r => 'R' :: r
    | l => l
  let p0 := skipBlank nm
  if isCDigit (c0 p0) then
    let nr := strtol p0
    if nr.2 = [] then findSpacegroupByNumber nr.1 else none
  else
    let first := Char.ofNat (upMask (c0 p0))
    if first = '\x00' then none
    else
      let p := skipBlank p0.tail
      match sgTable.find? (fun sg => matchMain sg.hm.data sg.ext first p) with
      | some sg => some sg
      | none =>
        match altNames.find? (fun alt => matchMain alt.hm.data alt.ext first p) with
        | some alt => sgTable.get? alt.pos
        | none => none

/-! ## Claims: basic operation algebra and error surfaces -/

/-- Decidable equality on `Except` results. -/
instance instDecEqExcept {e a : Type} [DecidableEq e] [DecidableEq a] :
    DecidableEq (Except e a) := fun x y =>
  match x, y with
  | .ok v, .ok w =>
    if h : v = w then isTrue (by rw [h]) else isFalse (fun he => by cases he; exact h rfl)
  | .error v, .error w =>
    if h : v = w then isTrue (by rw [h]) else isFalse (fun he => by cases he; exact h rfl)
  | .ok _, .error _ => isFalse (fun he => by cases he)
  | .error _, .ok _ => isFalse (fun he => by cases he)

/-- Component of a `Vec3` selected by a `Fin 3` index. -/
def Vec3.comp (v : Vec3) : Fin 3 → Int
  | 0 => v.va
  | 1 => v.vb
  | 2 => v.vc

/-- `(-(m : Int)).tmod 24 = -((m : Int).tmod 24)` for natural `m`. -/
theorem neg_tmod_24 (m : Nat) : (-(m : Int)).tmod 24 = -((m : Int).tmod 24) := by
  cases m with
  | zero => rfl
  | succ k => rfl

/-- Behaviour of one `wrap` component: lands in `[0, 24)` and is
congruent to the input mod 24. -/
theorem wrapComp_spec (t : Int) :
    0 ≤ wrapComp t ∧ wrapComp t < 24 ∧ wrapComp t % 24 = t % 24 := by
  unfold wrapComp DEN
  rcases t with m | m
  · have h1 : (Int.ofNat m).tmod 24 = (m : Int) % 24 :=
      Int.tmod_eq_emod (Int.ofNat_nonneg m) (by decide)
    have h2 : (Int.ofNat m) = (m : Int) := rfl
    split_ifs <;> omega
  · have he : Int.negSucc m = -((m : Int) + 1) := Int.negSucc_eq m
    have ha : Int.negSucc m + 1 = -(m : Int) := by rw [he]; ring
    have h2 : (Int.negSucc m + 1).tmod 24 = -((m : Int).tmod 24) := by
      rw [ha]; exact neg_tmod_24 m
    have h3 : (m : Int).tmod 24 = ((m % 24 : Nat) : Int) := (Int.ofNat_tmod m 24).symm
    split_ifs <;> omega

/-- C6: `Op::wrap` leaves the rotation unchanged and puts every
translation component into `[0, DEN)`, congruent to its old value modulo
`DEN` (negative values wrap forward). -/
theorem claim_C6_wrap (o : Op) (i : Fin 3) :
    o.wrap.rot = o.rot ∧
    0 ≤ o.wrap.tran.comp i ∧ o.wrap.tran.comp i < DEN ∧
    o.wrap.tran.comp i % DEN = o.tran.comp i % DEN := by
  refine ⟨rfl, ?_⟩
  fin_cases i <;> exact wrapComp_spec _

/-- C7: `parse_triplet("x,y")` fails with the wrong-comma-count error
(the `InvalidTriplet` family), and `symops_from_hall("P 7 2")` fails with
the bad-rotation-order error (the `InvalidHallSymbol` family); neither
returns a value. -/
theorem claim_C7_errors :
    parseTriplet "x,y" = .error .wrongCommaCount ∧
    symopsFromHall "P 7 2" = .error .badNFoldOrder := by
  constructor
  · decide
  · decide

/-- C9: `find_spacegroup_by_number(0)` is not "not found": it returns the
first entry whose `ccp4` field is 0, the alternative setting `P 2 1 1` of
space group number 3 (table index 4). -/
theorem claim_C9_number0 :
    findSpacegroupByNumber 0 =
      some (SpaceGroup.mk 3 0 "P 2 1 1" '\x00' "a" "P 2x" 2) ∧
    sgTable.get? 4 = some (SpaceGroup.mk 3 0 "P 2 1 1" '\x00' "a" "P 2x" 2) := by
  constructor
  · decide
  · decide

/-- C3: `symops_from_hall("P 4w 2c")` yields a group of order 8, not
centric, whose operations `is_same_as` the `operations()` of the table
entry with space-group number 91. -/
theorem claim_C3_hall_example :
    (symopsFromHall "P 4w 2c").map GroupOps.order = .ok 8 ∧
    (symopsFromHall "P 4w 2c").map GroupOps.isCentric = .ok false ∧
    ((sgTable.find? fun s => s.number == 91).map fun e =>
      (symopsFromHall "P 4w 2c").map fun g =>
        e.operations.map fun h => g.isSameAs h) =
      some (.ok (.ok true)) := by
  refine ⟨by decide, by decide, by decide⟩

/-- C5: the group of Hall symbol `I 2y`, after `change_basis` with the
triplet `x,y,x+z`, `is_same_as` the tabulated operations of `C 1 2 1`. -/
theorem claim_C5_change_basis :
    ((sgTable.find? fun s => s.hm == "C 1 2 1").map fun e =>
      (do
        let g ← symopsFromHall "I 2y"
        let cob ← parseTriplet "x,y,x+z"
        let g2 ← g.changeBasis cob
        let h ← e.operations
        return g2.isSameAs h : Except SymErr Bool)) = some (.ok true) := by
  decide

/-! ## Claim C4: termination and postconditions of `add_missing_elements` -/

/-- Extension relation between Dimino states `(sym_ops, coset_repr)`:
both lists only grow, `sym_ops` grows at least as much as `coset_repr`,
and if `coset_repr` did not grow then `sym_ops` is unchanged. -/
def StExt (s t : List Op × List Op) : Prop :=
  (∃ e1, t.1 = s.1 ++ e1) ∧ (∃ e2, t.2 = s.2 ++ e2) ∧
  s.1.length + t.2.length ≤ t.1.length + s.2.length ∧
  (t.2.length = s.2.length → t.1 = s.1)

theorem stExt_refl (s : List Op × List Op) : StExt s s :=
  ⟨⟨[], by simp⟩, ⟨[], by simp⟩, le_refl _, fun _ => rfl⟩

theorem stExt_trans {s t u : List Op × List Op} (h1 : StExt s t) (h2 : StExt t u) :
    StExt s u := by
  obtain ⟨⟨a1, ha1⟩, ⟨a2, ha2⟩, hle1, heq1⟩ := h1
  obtain ⟨⟨b1, hb1⟩, ⟨b2, hb2⟩, hle2, heq2⟩ := h2
  refine ⟨⟨a1 ++ b1, by rw [hb1, ha1, List.append_assoc]⟩,
          ⟨a2 ++ b2, by rw [hb2, ha2, List.append_assoc]⟩, ?_, ?_⟩
  · omega
  · intro h
    have l2 : t.2.length = s.2.length + a2.length := by rw [ha2]; simp
    have l3 : u.2.length = t.2.length + b2.length := by rw [hb2]; simp
    have h1' : t.1 = s.1 := heq1 (by omega)
    have h2' : u.1 = t.1 := heq2 (by omega)
    rw [h2', h1']

theorem foldl_stExt (f : (List Op × List Op) → Op → (List Op × List Op))
    (hf : ∀ st x, StExt st (f st x)) :
    ∀ (l : List Op) (st), StExt st (List.foldl f st l) := by
  intro l
  induction l with
  | nil => intro st; exact stExt_refl st
  | cons x xs ih =>
    intro st
    exact stExt_trans (hf st x) (ih (f st x))

theorem dimInner_step_ext (genPre initTail : List Op) (cj : Op) :
    ∀ st gn, StExt st
      ((fun st gn =>
        let sg := opMul gn cj
        match findByRotation st.1 sg.rot with
        | some _ => st
        | none =>
          (st.1 ++ [sg] ++ initTail.map (fun k => opMul sg k), st.2 ++ [sg]))
        st gn) := by
  intro st gn
  simp only
  cases findByRotation st.1 (opMul gn cj).rot with
  | some _ => exact stExt_refl st
  | none =>
    refine ⟨⟨[opMul gn cj] ++ initTail.map (fun k => opMul (opMul gn cj) k),
             by simp [List.append_assoc]⟩,
            ⟨[opMul gn cj], rfl⟩, ?_, by simp⟩
    simp
    omega

theorem dimInner_ext (genPre initTail : List Op) (cj : Op) (st : List Op × List Op) :
    StExt st (dimInner genPre initTail cj st) := by
  unfold dimInner
  exact foldl_stExt _ (dimInner_step_ext genPre initTail cj) genPre st

theorem dimPass_ext (genPre initTail snapshot ops : List Op) :
    StExt (ops, snapshot) (dimPass genPre initTail snapshot ops) := by
  unfold dimPass
  exact foldl_stExt _ (fun st cj => dimInner_ext genPre initTail cj st) snapshot
    (ops, snapshot)

/-- Unfolding equation for `cyclicLoop` at positive fuel. -/
theorem cyclicLoop_succ (fuel : Nat) (ops : List Op) (g s1 : Op) :
    cyclicLoop (fuel + 1) ops g s1 =
      if g.rot = idRot then .ok ops
      else if (ops ++ [g]).length > 1023 then .error .groupTooLarge
      else cyclicLoop fuel (ops ++ [g]) (opMul g s1) s1 := rfl

/-- `cyclicLoop` result: extends the input, stays within the size cap. -/
theorem cyclicLoop_ok (fuel : Nat) :
    ∀ (ops : List Op) (g s1 : Op) (l : List Op), ops.length ≤ 1023 →
      cyclicLoop fuel ops g s1 = .ok l →
      l.length ≤ 1023 ∧ ∃ ext, l = ops ++ ext := by
  induction fuel with
  | zero => intro ops g s1 l _ h; exact absurd h (by simp [cyclicLoop])
  | succ fuel ih =>
    intro ops g s1 l hlen h
    rw [cyclicLoop_succ] at h
    by_cases hg : g.rot = idRot
    · rw [if_pos hg] at h
      cases h
      exact ⟨hlen, ⟨[], by simp⟩⟩
    · rw [if_neg hg] at h
      by_cases hsz : (ops ++ [g]).length > 1023
      · rw [if_pos hsz] at h; cases h
      · rw [if_neg hsz] at h
        obtain ⟨h1, ext, h2⟩ := ih (ops ++ [g]) (opMul g s1) s1 l
          (by simp at hsz ⊢; omega) h
        exact ⟨h1, ⟨[g] ++ ext, by rw [h2, List.append_assoc]⟩⟩

/-- `cyclicLoop` never exhausts fuel `≥ 1025 - |ops|` while within cap. -/
theorem cyclicLoop_no_fuel (fuel : Nat) :
    ∀ (ops : List Op) (g s1 : Op), ops.length ≤ 1023 → 1025 ≤ fuel + ops.length →
      cyclicLoop fuel ops g s1 ≠ .error .fuelExhausted := by
  induction fuel with
  | zero => intro ops g s1 hlen hf; omega
  | succ fuel ih =>
    intro ops g s1 hlen hf
    rw [cyclicLoop_succ]
    by_cases hg : g.rot = idRot
    · rw [if_pos hg]; simp
    · rw [if_neg hg]
      by_cases hsz : (ops ++ [g]).length > 1023
      · rw [if_pos hsz]; simp
      · rw [if_neg hsz]
        exact ih (ops ++ [g]) (opMul g s1) s1 (by simp at hsz ⊢; omega)
          (by simp; omega)

/-- `cyclicLoop` errors are only the size cap or fuel. -/
theorem cyclicLoop_err (fuel : Nat) :
    ∀ (ops : List Op) (g s1 : Op) (e : SymErr),
      cyclicLoop fuel ops g s1 = .error e →
      e = .groupTooLarge ∨ e = .fuelExhausted := by
  induction fuel with
  | zero =>
    intro ops g s1 e h
    simp [cyclicLoop] at h
    exact Or.inr h.symm
  | succ fuel ih =>
    intro ops g s1 e h
    rw [cyclicLoop_succ] at h
    by_cases hg : g.rot = idRot
    · rw [if_pos hg] at h; cases h
    · rw [if_neg hg] at h
      by_cases hsz : (ops ++ [g]).length > 1023
      · rw [if_pos hsz] at h
        cases h
        exact Or.inl rfl
      · rw [if_neg hsz] at h
        exact ih _ _ _ _ h

/-- Unfolding equation for `dimRepeat` at positive fuel. -/
theorem dimRepeat_succ (fuel : Nat) (genPre initTail cr ops : List Op) :
    dimRepeat (fuel + 1) genPre initTail cr ops =
      if (dimPass genPre initTail cr ops).2.length = cr.length
      then .ok (dimPass genPre initTail cr ops).1
      else if (dimPass genPre initTail cr ops).1.length > 1023
      then .error .groupTooLarge
      else dimRepeat fuel genPre initTail (dimPass genPre initTail cr ops).2
        (dimPass genPre initTail cr ops).1 := rfl

/-- `dimRepeat` result: extends the input, stays within the size cap. -/
theorem dimRepeat_ok (fuel : Nat) :
    ∀ (genPre initTail cr ops l : List Op), ops.length ≤ 1023 →
      dimRepeat fuel genPre initTail cr ops = .ok l →
      l.length ≤ 1023 ∧ ∃ ext, l = ops ++ ext := by
  induction fuel with
  | zero => intro _ _ _ _ _ _ h; exact absurd h (by simp [dimRepeat])
  | succ fuel ih =>
    intro genPre initTail cr ops l hlen h
    rw [dimRepeat_succ] at h
    obtain ⟨⟨e1, he1⟩, ⟨e2, he2⟩, hle, heq⟩ := dimPass_ext genPre initTail cr ops
    by_cases hbr : (dimPass genPre initTail cr ops).2.length = cr.length
    · rw [if_pos hbr] at h
      cases h
      have hre : (dimPass genPre initTail cr ops).1 = ops := heq hbr
      rw [hre]
      exact ⟨hlen, ⟨[], by simp⟩⟩
    · rw [if_neg hbr] at h
      by_cases hsz : (dimPass genPre initTail cr ops).1.length > 1023
      · rw [if_pos hsz] at h; cases h
      · rw [if_neg hsz] at h
        obtain ⟨h1, ext, h2⟩ := ih genPre initTail
          (dimPass genPre initTail cr ops).2 (dimPass genPre initTail cr ops).1 l
          (by omega) h
        exact ⟨h1, ⟨e1 ++ ext, by rw [h2, he1, List.append_assoc]⟩⟩

/-- `dimRepeat` never exhausts fuel `≥ 1025 - |ops|` while within cap. -/
theorem dimRepeat_no_fuel (fuel : Nat) :
    ∀ (genPre initTail cr ops : List Op),
      ops.length ≤ 1023 → 1025 ≤ fuel + ops.length →
      dimRepeat fuel genPre initTail cr ops ≠ .error .fuelExhausted := by
  induction fuel with
  | zero => intro _ _ _ ops hlen hf; omega
  | succ fuel ih =>
    intro genPre initTail cr ops hlen hf
    rw [dimRepeat_succ]
    obtain ⟨⟨e1, he1⟩, ⟨e2, he2⟩, hle, heq⟩ := dimPass_ext genPre initTail cr ops
    have hle' : ops.length + (dimPass genPre initTail cr ops).2.length ≤
        (dimPass genPre initTail cr ops).1.length + cr.length := hle
    have hg2 : (dimPass genPre initTail cr ops).2.length =
        cr.length + e2.length := by rw [he2]; simp
    have hg1 : (dimPass genPre initTail cr ops).1.length =
        ops.length + e1.length := by rw [he1]; simp
    by_cases hbr : (dimPass genPre initTail cr ops).2.length = cr.length
    · rw [if_pos hbr]; simp
    · rw [if_neg hbr]
      by_cases hsz : (dimPass genPre initTail cr ops).1.length > 1023
      · rw [if_pos hsz]; simp
      · rw [if_neg hsz]
        exact ih genPre initTail _ _ (by omega) (by omega)

/-- `dimRepeat` errors are only the size cap or fuel. -/
theorem dimRepeat_err (fuel : Nat) :
    ∀ (genPre initTail cr ops : List Op) (e : SymErr),
      dimRepeat fuel genPre initTail cr ops = .error e →
      e = .groupTooLarge ∨ e = .fuelExhausted := by
  induction fuel with
  | zero =>
    intro _ _ _ _ e h
    simp [dimRepeat] at h
    exact Or.inr h.symm
  | succ fuel ih =>
    intro genPre initTail cr ops e h
    rw [dimRepeat_succ] at h
    by_cases hbr : (dimPass genPre initTail cr ops).2.length = cr.length
    · rw [if_pos hbr] at h; cases h
    · rw [if_neg hbr] at h
      by_cases hsz : (dimPass genPre initTail cr ops).1.length > 1023
      · rw [if_pos hsz] at h
        cases h
        exact Or.inl rfl
      · rw [if_neg hsz] at h
        exact ih _ _ _ _ _ h

/-- Unfolding equation for `genLoop` on a cons cell. -/
theorem genLoop_cons (ops donePre : List Op) (gnext : Op) (grest : List Op) :
    genLoop ops donePre (gnext :: grest) =
      match dimRepeat 1026 (donePre ++ [gnext]) ops.tail [Op.identity] ops with
      | .error e => .error e
      | .ok ops' => genLoop ops' (donePre ++ [gnext]) grest := rfl

/-- `genLoop` outcome: either a within-cap extension of the input, or
the `GroupTooLarge` failure. -/
theorem genLoop_spec :
    ∀ (grest ops donePre : List Op), ops.length ≤ 1023 →
      (∃ l, genLoop ops donePre grest = .ok l ∧ l.length ≤ 1023 ∧
        ∃ ext, l = ops ++ ext) ∨
      genLoop ops donePre grest = .error .groupTooLarge := by
  intro grest
  induction grest with
  | nil =>
    intro ops donePre hlen
    exact Or.inl ⟨ops, rfl, hlen, ⟨[], by simp⟩⟩
  | cons gnext grest ih =>
    intro ops donePre hlen
    rw [genLoop_cons]
    cases hrep : dimRepeat 1026 (donePre ++ [gnext]) ops.tail [Op.identity] ops with
    | error e =>
      rcases dimRepeat_err 1026 _ _ _ _ e hrep with he | he
      · subst he
        exact Or.inr rfl
      · subst he
        exact absurd hrep (dimRepeat_no_fuel 1026 _ _ _ _ hlen (by omega))
    | ok ops' =>
      obtain ⟨h1, ext, h2⟩ := dimRepeat_ok 1026 _ _ _ _ _ hlen hrep
      rcases ih ops' (donePre ++ [gnext]) h1 with ⟨l, hl, hlen', ext', h3⟩ | herr
      · exact Or.inl ⟨l, hl, hlen',
          ⟨ext ++ ext', by rw [h3, h2, List.append_assoc]⟩⟩
      · exact Or.inr herr

/-- C4 as stated is false: the generator list `[identity, identity]`
has the identity first, `add_missing_elements` returns it unchanged, and
the resulting `sym_ops` does *not* have pairwise distinct rotations. -/
theorem claim_C4_counterexample :
    addMissingList [Op.identity, Op.identity] = .ok [Op.identity, Op.identity] ∧
    ¬ List.Pairwise (fun a b : Op => a.rot ≠ b.rot)
        [Op.identity, Op.identity] := by
  constructor
  · decide
  · decide

/-- C4 (amended): for every generator list headed by the identity,
`add_missing_elements` terminates — it returns normally or fails with the
group-too-large error (in the fuelled model, fuel is never exhausted) —
and a normal return has at most 1023 elements with the identity still
first.  (The pairwise-distinct-rotations conjunct of the original claim
is dropped: see `claim_C4_counterexample`.) -/
theorem claim_C4_amended (gens : List Op) (h : gens.head? = some Op.identity) :
    (∃ l, addMissingList gens = .ok l ∧ l.length ≤ 1023 ∧
      l.head? = some Op.identity) ∨
    addMissingList gens = .error .groupTooLarge := by
  cases gens with
  | nil => simp at h
  | cons s0 rest =>
    have hs0 : s0 = Op.identity := by simpa using h
    subst hs0
    cases rest with
    | nil =>
      exact Or.inl ⟨[Op.identity], by simp [addMissingList], by simp, rfl⟩
    | cons s1 srest =>
      have hbody : addMissingList (Op.identity :: s1 :: srest) =
          match cyclicLoop 1026 [Op.identity, s1] (opMul s1 s1) s1 with
          | .error e => .error e
          | .ok ops1 => genLoop ops1 [s1] srest := by
        show (if Op.identity ≠ Op.identity then Except.error SymErr.oops
          else match cyclicLoop 1026 [Op.identity, s1] (opMul s1 s1) s1 with
               | .error e => .error e
               | .ok ops1 => genLoop ops1 [s1] srest) = _
        rw [if_neg (by simp)]
      rw [hbody]
      cases hcyc : cyclicLoop 1026 [Op.identity, s1] (opMul s1 s1) s1 with
      | error e =>
        rcases cyclicLoop_err 1026 _ _ _ e hcyc with he | he
        · subst he
          exact Or.inr rfl
        · subst he
          exact absurd hcyc (cyclicLoop_no_fuel 1026 _ _ _ (by simp) (by simp))
      | ok ops1 =>
        obtain ⟨h1, ext, h2⟩ := cyclicLoop_ok 1026 _ _ _ _ (by simp) hcyc
        rcases genLoop_spec srest ops1 [s1] h1 with ⟨l, hl, hlen, ext', h3⟩ | herr
        · refine Or.inl ⟨l, hl, hlen, ?_⟩
          rw [h3, h2]
          simp
        · exact Or.inr herr

/-- Witness for `claim_C4_amended` at the concrete generator list
`[identity]`. -/
theorem claim_C4_amended_witness :
    ([Op.identity] : List Op).head? = some Op.identity ∧
    ((∃ l, addMissingList [Op.identity] = .ok l ∧ l.length ≤ 1023 ∧
      l.head? = some Op.identity) ∨
    addMissingList [Op.identity] = .error .groupTooLarge) :=
  ⟨rfl, claim_C4_amended [Op.identity] rfl⟩

/-! ## Claim C1: canonical reciprocal-space ASU sets

For each ASU condition index, the (unscaled, transposed, Friedel-
extended) rotation sets of the tabulated groups, conjugated by the
basis-change rotation, fall into one of the fixed matrix sets below
(derived from the reference settings; verified entry-by-entry). -/

/-- Shorthand matrix constructor. -/
def sm (a b c d e f g h i : Int) : Mat3 := ⟨⟨a, b, c⟩, ⟨d, e, f⟩, ⟨g, h, i⟩⟩

def canonSet0 : List Mat3 := -- idx 0, order 2
[sm (-1) 0 0 0 (-1) 0 0 0 (-1),
 sm 1 0 0 0 1 0 0 0 1]

def canonSet1 : List Mat3 := -- idx 1, order 4
[sm (-1) 0 0 0 (-1) 0 0 0 (-1),
 sm (-1) 0 0 0 1 0 0 0 (-1),
 sm 1 0 0 0 (-1) 0 0 0 1,
 sm 1 0 0 0 1 0 0 0 1]

def canonSet2 : List Mat3 := -- idx 2, order 8
[sm (-1) 0 0 0 (-1) 0 0 0 (-1),
 sm (-1) 0 0 0 (-1) 0 0 0 1,
 sm (-1) 0 0 0 1 0 0 0 (-1),
 sm (-1) 0 0 0 1 0 0 0 1,
 sm 1 0 0 0 (-1) 0 0 0 (-1),
 sm 1 0 0 0 (-1) 0 0 0 1,
 sm 1 0 0 0 1 0 0 0 (-1),
 sm 1 0 0 0 1 0 0 0 1]

def canonSet3 : List Mat3 := -- idx 3, order 8
[sm (-1) 0 0 0 (-1) 0 0 0 (-1),
 sm (-1) 0 0 0 (-1) 0 0 0 1,
 sm 0 (-1) 0 1 0 0 0 0 (-1),
 sm 0 (-1) 0 1 0 0 0 0 1,
 sm 0 1 0 (-1) 0 0 0 0 (-1),
 sm 0 1 0 (-1) 0 0 0 0 1,
 sm 1 0 0 0 1 0 0 0 (-1),
 sm 1 0 0 0 1 0 0 0 1]

def canonSet4 : List Mat3 := -- idx 4, order 16
[sm (-1) 0 0 0 (-1) 0 0 0 (-1),
 sm (-1) 0 0 0 (-1) 0 0 0 1,
 sm (-1) 0 0 0 1 0 0 0 (-1),
 sm (-1) 0 0 0 1 0 0 0 1,
 sm 0 (-1) 0 (-1) 0 0 0 0 (-1),
 sm 0 (-1) 0 (-1) 0 0 0 0 1,
 sm 0 (-1) 0 1 0 0 0 0 (-1),
 sm 0 (-1) 0 1 0 0 0 0 1,
 sm 0 1 0 (-1) 0 0 0 0 (-1),
 sm 0 1 0 (-1) 0 0 0 0 1,
 sm 0 1 0 1 0 0 0 0 (-1),
 sm 0 1 0 1 0 0 0 0 1,
 sm 1 0 0 0 (-1) 0 0 0 (-1),
 sm 1 0 0 0 (-1) 0 0 0 1,
 sm 1 0 0 0 1 0 0 0 (-1),
 sm 1 0 0 0 1 0 0 0 1]

def canonSet5 : List Mat3 := -- idx 5, order 6
[sm (-1) (-1) 0 1 0 0 0 0 1,
 sm (-1) 0 0 0 (-1) 0 0 0 (-1),
 sm 0 (-1) 0 1 1 0 0 0 (-1),
 sm 0 1 0 (-1) (-1) 0 0 0 1,
 sm 1 0 0 0 1 0 0 0 1,
 sm 1 1 0 (-1) 0 0 0 0 (-1)]

def canonSet6 : List Mat3 := -- idx 5, order 6
[sm (-1) 0 0 0 (-1) 0 0 0 (-1),
 sm (-1) 1 0 (-1) 0 0 0 0 1,
 sm 0 (-1) 0 1 (-1) 0 0 0 1,
 sm 0 1 0 (-1) 1 0 0 0 (-1),
 sm 1 (-1) 0 1 0 0 0 0 (-1),
 sm 1 0 0 0 1 0 0 0 1]

def canonSet7 : List Mat3 := -- idx 6, order 12
[sm (-1) (-1) 0 0 1 0 0 0 1,
 sm (-1) (-1) 0 1 0 0 0 0 1,
 sm (-1) 0 0 0 (-1) 0 0 0 (-1),
 sm (-1) 0 0 1 1 0 0 0 (-1),
 sm 0 (-1) 0 (-1) 0 0 0 0 (-1),
 sm 0 (-1) 0 1 1 0 0 0 (-1),
 sm 0 1 0 (-1) (-1) 0 0 0 1,
 sm 0 1 0 1 0 0 0 0 1,
 sm 1 0 0 (-1) (-1) 0 0 0 1,
 sm 1 0 0 0 1 0 0 0 1,
 sm 1 1 0 (-1) 0 0 0 0 (-1),
 sm 1 1 0 0 (-1) 0 0 0 (-1)]

def canonSet8 : List Mat3 := -- idx 7, order 12
[sm (-1) (-1) 0 0 1 0 0 0 (-1),
 sm (-1) (-1) 0 1 0 0 0 0 1,
 sm (-1) 0 0 0 (-1) 0 0 0 (-1),
 sm (-1) 0 0 1 1 0 0 0 1,
 sm 0 (-1) 0 (-1) 0 0 0 0 1,
 sm 0 (-1) 0 1 1 0 0 0 (-1),
 sm 0 1 0 (-1) (-1) 0 0 0 1,
 sm 0 1 0 1 0 0 0 0 (-1),
 sm 1 0 0 (-1) (-1) 0 0 0 (-1),
 sm 1 0 0 0 1 0 0 0 1,
 sm 1 1 0 (-1) 0 0 0 0 (-1),
 sm 1 1 0 0 (-1) 0 0 0 1]

def canonSet9 : List Mat3 := -- idx 7, order 12
[sm (-1) 0 0 (-1) 1 0 0 0 (-1),
 sm (-1) 0 0 0 (-1) 0 0 0 (-1),
 sm (-1) 1 0 (-1) 0 0 0 0 1,
 sm (-1) 1 0 0 1 0 0 0 1,
 sm 0 (-1) 0 (-1) 0 0 0 0 1,
 sm 0 (-1) 0 1 (-1) 0 0 0 1,
 sm 0 1 0 (-1) 1 0 0 0 (-1),
 sm 0 1 0 1 0 0 0 0 (-1),
 sm 1 (-1) 0 0 (-1) 0 0 0 (-1),
 sm 1 (-1) 0 1 0 0 0 0 (-1),
 sm 1 0 0 0 1 0 0 0 1,
 sm 1 0 0 1 (-1) 0 0 0 1]

def canonSet10 : List Mat3 := -- idx 3, order 12
[sm (-1) (-1) 0 1 0 0 0 0 (-1),
 sm (-1) (-1) 0 1 0 0 0 0 1,
 sm (-1) 0 0 0 (-1) 0 0 0 (-1),
 sm (-1) 0 0 0 (-1) 0 0 0 1,
 sm 0 (-1) 0 1 1 0 0 0 (-1),
 sm 0 (-1) 0 1 1 0 0 0 1,
 sm 0 1 0 (-1) (-1) 0 0 0 (-1),
 sm 0 1 0 (-1) (-1) 0 0 0 1,
 sm 1 0 0 0 1 0 0 0 (-1),
 sm 1 0 0 0 1 0 0 0 1,
 sm 1 1 0 (-1) 0 0 0 0 (-1),
 sm 1 1 0 (-1) 0 0 0 0 1]

def canonSet11 : List Mat3 := -- idx 4, order 24
[sm (-1) (-1) 0 0 1 0 0 0 (-1),
 sm (-1) (-1) 0 0 1 0 0 0 1,
 sm (-1) (-1) 0 1 0 0 0 0 (-1),
 sm (-1) (-1) 0 1 0 0 0 0 1,
 sm (-1) 0 0 0 (-1) 0 0 0 (-1),
 sm (-1) 0 0 0 (-1) 0 0 0 1,
 sm (-1) 0 0 1 1 0 0 0 (-1),
 sm (-1) 0 0 1 1 0 0 0 1,
 sm 0 (-1) 0 (-1) 0 0 0 0 (-1),
 sm 0 (-1) 0 (-1) 0 0 0 0 1,
 sm 0 (-1) 0 1 1 0 0 0 (-1),
 sm 0 (-1) 0 1 1 0 0 0 1,
 sm 0 1 0 (-1) (-1) 0 0 0 (-1),
 sm 0 1 0 (-1) (-1) 0 0 0 1,
 sm 0 1 0 1 0 0 0 0 (-1),
 sm 0 1 0 1 0 0 0 0 1,
 sm 1 0 0 (-1) (-1) 0 0 0 (-1),
 sm 1 0 0 (-1) (-1) 0 0 0 1,
 sm 1 0 0 0 1 0 0 0 (-1),
 sm 1 0 0 0 1 0 0 0 1,
 sm 1 1 0 (-1) 0 0 0 0 (-1),
 sm 1 1 0 (-1) 0 0 0 0 1,
 sm 1 1 0 0 (-1) 0 0 0 (-1),
 sm 1 1 0 0 (-1) 0 0 0 1]

def canonSet12 : List Mat3 := -- idx 8, order 24
[sm (-1) 0 0 0 (-1) 0 0 0 (-1),
 sm (-1) 0 0 0 (-1) 0 0 0 1,
 sm (-1) 0 0 0 1 0 0 0 (-1),
 sm (-1) 0 0 0 1 0 0 0 1,
 sm 0 (-1) 0 0 0 (-1) (-1) 0 0,
 sm 0 (-1) 0 0 0 (-1) 1 0 0,
 sm 0 (-1) 0 0 0 1 (-1) 0 0,
 sm 0 (-1) 0 0 0 1 1 0 0,
 sm 0 0 (-1) (-1) 0 0 0 (-1) 0,
 sm 0 0 (-1) (-1) 0 0 0 1 0,
 sm 0 0 (-1) 1 0 0 0 (-1) 0,
 sm 0 0 (-1) 1 0 0 0 1 0,
 sm 0 0 1 (-1) 0 0 0 (-1) 0,
 sm 0 0 1 (-1) 0 0 0 1 0,
 sm 0 0 1 1 0 0 0 (-1) 0,
 sm 0 0 1 1 0 0 0 1 0,
 sm 0 1 0 0 0 (-1) (-1) 0 0,
 sm 0 1 0 0 0 (-1) 1 0 0,
 sm 0 1 0 0 0 1 (-1) 0 0,
 sm 0 1 0 0 0 1 1 0 0,
 sm 1 0 0 0 (-1) 0 0 0 (-1),
 sm 1 0 0 0 (-1) 0 0 0 1,
 sm 1 0 0 0 1 0 0 0 (-1),
 sm 1 0 0 0 1 0 0 0 1]

def canonSet13 : List Mat3 := -- idx 9, order 48
[sm (-1) 0 0 0 (-1) 0 0 0 (-1),
 sm (-1) 0 0 0 (-1) 0 0 0 1,
 sm (-1) 0 0 0 0 (-1) 0 (-1) 0,
 sm (-1) 0 0 0 0 (-1) 0 1 0,
 sm (-1) 0 0 0 0 1 0 (-1) 0,
 sm (-1) 0 0 0 0 1 0 1 0,
 sm (-1) 0 0 0 1 0 0 0 (-1),
 sm (-1) 0 0 0 1 0 0 0 1,
 sm 0 (-1) 0 (-1) 0 0 0 0 (-1),
 sm 0 (-1) 0 (-1) 0 0 0 0 1,
 sm 0 (-1) 0 0 0 (-1) (-1) 0 0,
 sm 0 (-1) 0 0 0 (-1) 1 0 0,
 sm 0 (-1) 0 0 0 1 (-1) 0 0,
 sm 0 (-1) 0 0 0 1 1 0 0,
 sm 0 (-1) 0 1 0 0 0 0 (-1),
 sm 0 (-1) 0 1 0 0 0 0 1,
 sm 0 0 (-1) (-1) 0 0 0 (-1) 0,
 sm 0 0 (-1) (-1) 0 0 0 1 0,
 sm 0 0 (-1) 0 (-1) 0 (-1) 0 0,
 sm 0 0 (-1) 0 (-1) 0 1 0 0,
 sm 0 0 (-1) 0 1 0 (-1) 0 0,
 sm 0 0 (-1) 0 1 0 1 0 0,
 sm 0 0 (-1) 1 0 0 0 (-1) 0,
 sm 0 0 (-1) 1 0 0 0 1 0,
 sm 0 0 1 (-1) 0 0 0 (-1) 0,
 sm 0 0 1 (-1) 0 0 0 1 0,
 sm 0 0 1 0 (-1) 0 (-1) 0 0,
 sm 0 0 1 0 (-1) 0 1 0 0,
 sm 0 0 1 0 1 0 (-1) 0 0,
 sm 0 0 1 0 1 0 1 0 0,
 sm 0 0 1 1 0 0 0 (-1) 0,
 sm 0 0 1 1 0 0 0 1 0,
 sm 0 1 0 (-1) 0 0 0 0 (-1),
 sm 0 1 0 (-1) 0 0 0 0 1,
 sm 0 1 0 0 0 (-1) (-1) 0 0,
 sm 0 1 0 0 0 (-1) 1 0 0,
 sm 0 1 0 0 0 1 (-1) 0 0,
 sm 0 1 0 0 0 1 1 0 0,
 sm 0 1 0 1 0 0 0 0 (-1),
 sm 0 1 0 1 0 0 0 0 1,
 sm 1 0 0 0 (-1) 0 0 0 (-1),
 sm 1 0 0 0 (-1) 0 0 0 1,
 sm 1 0 0 0 0 (-1) 0 (-1) 0,
 sm 1 0 0 0 0 (-1) 0 1 0,
 sm 1 0 0 0 0 1 0 (-1) 0,
 sm 1 0 0 0 0 1 0 1 0,
 sm 1 0 0 0 1 0 0 0 (-1),
 sm 1 0 0 0 1 0 0 0 1]

/-- The candidate canonical matrix sets for each ASU condition index
(for the entries other than the seven rhombohedral-axes settings). -/
def canonVariants : Nat → List (List Mat3)
  | 0 => [canonSet0]
  | 1 => [canonSet1]
  | 2 => [canonSet2]
  | 3 => [canonSet3, canonSet10]
  | 4 => [canonSet4, canonSet11]
  | 5 => [canonSet5]
  | 6 => [canonSet7]
  | 7 => [canonSet8]
  | 8 => [canonSet12]
  | 9 => [canonSet13]
  | _ => []

/-- The ASU condition on a vector. -/
def condVec (i : Nat) (v : Vec3) : Bool := asuCond i v.va v.vb v.vc

/-- Determinant of a plain matrix. -/
def detM (m : Mat3) : Int :=
  m.r0.va * (m.r1.vb * m.r2.vc - m.r1.vc * m.r2.vb)
  - m.r0.vb * (m.r1.va * m.r2.vc - m.r1.vc * m.r2.va)
  + m.r0.vc * (m.r1.va * m.r2.vb - m.r1.vb * m.r2.va)

/-- Adjugate of a plain matrix. -/
def adjugate (m : Mat3) : Mat3 :=
  ⟨⟨m.r1.vb * m.r2.vc - m.r1.vc * m.r2.vb,
    m.r0.vc * m.r2.vb - m.r0.vb * m.r2.vc,
    m.r0.vb * m.r1.vc - m.r0.vc * m.r1.vb⟩,
   ⟨m.r1.vc * m.r2.va - m.r1.va * m.r2.vc,
    m.r0.va * m.r2.vc - m.r0.vc * m.r2.va,
    m.r0.vc * m.r1.va - m.r0.va * m.r1.vc⟩,
   ⟨m.r1.va * m.r2.vb - m.r1.vb * m.r2.va,
    m.r0.vb * m.r2.va - m.r0.va * m.r2.vb,
    m.r0.va * m.r1.vb - m.r0.vb * m.r1.va⟩⟩

/-- Scalar action on a vector. -/
def Vec3.smul (d : Int) (v : Vec3) : Vec3 := ⟨d * v.va, d * v.vb, d * v.vc⟩

theorem mul_apply (a b : Mat3) (v : Vec3) :
    (a.mul b).apply v = a.apply (b.apply v) := by
  simp only [Mat3.mul, Mat3.apply, Vec3.mk.injEq]
  refine ⟨by ring, by ring, by ring⟩

theorem adjugate_apply (m : Mat3) (v : Vec3) :
    (adjugate m).apply (m.apply v) = Vec3.smul (detM m) v := by
  simp only [adjugate, detM, Mat3.apply, Vec3.smul, Vec3.mk.injEq]
  refine ⟨by ring, by ring, by ring⟩

/-- A matrix with nonzero determinant acts injectively on vectors. -/
theorem apply_injective (m : Mat3) (hdet : detM m ≠ 0) {u v : Vec3}
    (h : m.apply u = m.apply v) : u = v := by
  have h2 : Vec3.smul (detM m) u = Vec3.smul (detM m) v := by
    rw [← adjugate_apply, ← adjugate_apply, h]
  obtain ⟨u1, u2, u3⟩ := u
  obtain ⟨v1, v2, v3⟩ := v
  simp only [Vec3.smul, Vec3.mk.injEq] at h2 ⊢
  refine ⟨?_, ?_, ?_⟩
  · exact mul_left_cancel₀ hdet h2.1
  · exact mul_left_cancel₀ hdet h2.2.1
  · exact mul_left_cancel₀ hdet h2.2.2
/-- The identity (unscaled). -/
def idm : Mat3 := sm 1 0 0 0 1 0 0 0 1

/-- Swap of the first two axes. -/
def swapXY : Mat3 := sm 0 1 0 1 0 0 0 0 1

/-- Mirror across the xy plane. -/
def zMirror : Mat3 := sm 1 0 0 0 1 0 0 0 (-1)

/-- Matrix multiplication is associative. -/
theorem mat_mul_assoc (a b c : Mat3) : (a.mul b).mul c = a.mul (b.mul c) := by
  simp only [Mat3.mul, Mat3.mk.injEq, Vec3.mk.injEq]
  and_intros <;> ring

/-- The identity matrix is a right unit. -/
theorem mat_mul_idm (a : Mat3) : a.mul idm = a := by
  simp only [Mat3.mul, idm, sm, Mat3.mk.injEq, Vec3.mk.injEq]
  and_intros <;> ring

/-- A finite matrix set closed under products and inverses has left
quotients: for `A`, `B` in the set some `C` in it satisfies `C*A = B`. -/
theorem closure_from (L : List Mat3)
    (hm : (L.all fun x => L.all fun y => L.any fun z => z == x.mul y) = true)
    (hi : (L.all fun x => L.any fun y =>
      (y.mul x == idm) && (x.mul y == idm)) = true) :
    ∀ A ∈ L, ∀ B ∈ L, ∃ C ∈ L, C.mul A = B := by
  intro A hA B hB
  rw [List.all_eq_true] at hm hi
  have hAi := hi A hA
  rw [List.any_eq_true] at hAi
  obtain ⟨iA, hiA, he⟩ := hAi
  rw [Bool.and_eq_true, beq_iff_eq, beq_iff_eq] at he
  have hBi := hm B hB
  rw [List.all_eq_true] at hBi
  have hz := hBi iA hiA
  rw [List.any_eq_true] at hz
  obtain ⟨z, hzmem, hzeq⟩ := hz
  rw [beq_iff_eq] at hzeq
  refine ⟨z, hzmem, ?_⟩
  rw [hzeq, mat_mul_assoc, he.1, mat_mul_idm]

set_option maxHeartbeats 3200000 in
theorem uniqStep0 : ∀ C ∈ canonSet0, ∀ u : Vec3,
    condVec 0 u = true → condVec 0 (C.apply u) = true → C.apply u = u := by
  intro C hC u h1 h2
  obtain ⟨a, b, c⟩ := u
  simp only [canonSet0, List.mem_cons, List.not_mem_nil, or_false] at hC
  simp only [condVec, asuCond, decide_eq_true_eq] at h1
  rcases hC with rfl|rfl <;>
      (simp only [Mat3.apply, sm, condVec, asuCond, decide_eq_true_eq,
        Vec3.mk.injEq] at h2 ⊢; omega)

set_option maxHeartbeats 3200000 in
theorem uniqStep1 : ∀ C ∈ canonSet1, ∀ u : Vec3,
    condVec 1 u = true → condVec 1 (C.apply u) = true → C.apply u = u := by
  intro C hC u h1 h2
  obtain ⟨a, b, c⟩ := u
  simp only [canonSet1, List.mem_cons, List.not_mem_nil, or_false] at hC
  simp only [condVec, asuCond, decide_eq_true_eq] at h1
  rcases hC with rfl|rfl|rfl|rfl <;>
      (simp only [Mat3.apply, sm, condVec, asuCond, decide_eq_true_eq,
        Vec3.mk.injEq] at h2 ⊢; omega)

set_option maxHeartbeats 3200000 in
theorem uniqStep2 : ∀ C ∈ canonSet2, ∀ u : Vec3,
    condVec 2 u = true → condVec 2 (C.apply u) = true → C.apply u = u := by
  intro C hC u h1 h2
  obtain ⟨a, b, c⟩ := u
  simp only [canonSet2, List.mem_cons, List.not_mem_nil, or_false] at hC
  simp only [condVec, asuCond, decide_eq_true_eq] at h1
  rcases hC with rfl|rfl|rfl|rfl|rfl|rfl|rfl|rfl <;>
      (simp only [Mat3.apply, sm, condVec, asuCond, decide_eq_true_eq,
        Vec3.mk.injEq] at h2 ⊢; omega)

set_option maxHeartbeats 3200000 in
theorem uniqStep3 : ∀ C ∈ canonSet3, ∀ u : Vec3,
    condVec 3 u = true → condVec 3 (C.apply u) = true → C.apply u = u := by
  intro C hC u h1 h2
  obtain ⟨a, b, c⟩ := u
  simp only [canonSet3, List.mem_cons, List.not_mem_nil, or_false] at hC
  simp only [condVec, asuCond, decide_eq_true_eq] at h1
  rcases hC with rfl|rfl|rfl|rfl|rfl|rfl|rfl|rfl <;>
      (simp only [Mat3.apply, sm, condVec, asuCond, decide_eq_true_eq,
        Vec3.mk.injEq] at h2 ⊢; omega)

set_option maxHeartbeats 3200000 in
theorem uniqStep4 : ∀ C ∈ canonSet4, ∀ u : Vec3,
    condVec 4 u = true → condVec 4 (C.apply u) = true → C.apply u = u := by
  intro C hC u h1 h2
  obtain ⟨a, b, c⟩ := u
  simp only [canonSet4, List.mem_cons, List.not_mem_nil, or_false] at hC
  simp only [condVec, asuCond, decide_eq_true_eq] at h1
  rcases hC with rfl|rfl|rfl|rfl|rfl|rfl|rfl|rfl|rfl|rfl|rfl|rfl|rfl|rfl|rfl|rfl <;>
      (simp only [Mat3.apply, sm, condVec, asuCond, decide_eq_true_eq,
        Vec3.mk.injEq] at h2 ⊢; omega)

set_option maxHeartbeats 3200000 in
theorem uniqStep5 : ∀ C ∈ canonSet5, ∀ u : Vec3,
    condVec 5 u = true → condVec 5 (C.apply u) = true → C.apply u = u := by
  intro C hC u h1 h2
  obtain ⟨a, b, c⟩ := u
  simp only [canonSet5, List.mem_cons, List.not_mem_nil, or_false] at hC
  simp only [condVec, asuCond, decide_eq_true_eq] at h1
  rcases hC with rfl|rfl|rfl|rfl|rfl|rfl <;>
      (simp only [Mat3.apply, sm, condVec, asuCond, decide_eq_true_eq,
        Vec3.mk.injEq] at h2 ⊢; omega)

set_option maxHeartbeats 3200000 in
theorem uniqStep7 : ∀ C ∈ canonSet7, ∀ u : Vec3,
    condVec 6 u = true → condVec 6 (C.apply u) = true → C.apply u = u := by
  intro C hC u h1 h2
  obtain ⟨a, b, c⟩ := u
  simp only [canonSet7, List.mem_cons, List.not_mem_nil, or_false] at hC
  simp only [condVec, asuCond, decide_eq_true_eq] at h1
  rcases hC with rfl|rfl|rfl|rfl|rfl|rfl|rfl|rfl|rfl|rfl|rfl|rfl <;>
      (simp only [Mat3.apply, sm, condVec, asuCond, decide_eq_true_eq,
        Vec3.mk.injEq] at h2 ⊢; omega)

set_option maxHeartbeats 3200000 in
theorem uniqStep8 : ∀ C ∈ canonSet8, ∀ u : Vec3,
    condVec 7 u = true → condVec 7 (C.apply u) = true → C.apply u = u := by
  intro C hC u h1 h2
  obtain ⟨a, b, c⟩ := u
  simp only [canonSet8, List.mem_cons, List.not_mem_nil, or_false] at hC
  simp only [condVec, asuCond, decide_eq_true_eq] at h1
  rcases hC with rfl|rfl|rfl|rfl|rfl|rfl|rfl|rfl|rfl|rfl|rfl|rfl <;>
      (simp only [Mat3.apply, sm, condVec, asuCond, decide_eq_true_eq,
        Vec3.mk.injEq] at h2 ⊢; omega)

set_option maxHeartbeats 3200000 in
theorem uniqStep10 : ∀ C ∈ canonSet10, ∀ u : Vec3,
    condVec 3 u = true → condVec 3 (C.apply u) = true → C.apply u = u := by
  intro C hC u h1 h2
  obtain ⟨a, b, c⟩ := u
  simp only [canonSet10, List.mem_cons, List.not_mem_nil, or_false] at hC
  simp only [condVec, asuCond, decide_eq_true_eq] at h1
  rcases hC with rfl|rfl|rfl|rfl|rfl|rfl|rfl|rfl|rfl|rfl|rfl|rfl <;>
      (simp only [Mat3.apply, sm, condVec, asuCond, decide_eq_true_eq,
        Vec3.mk.injEq] at h2 ⊢; omega)

set_option maxHeartbeats 3200000 in
theorem uniqStep11 : ∀ C ∈ canonSet11, ∀ u : Vec3,
    condVec 4 u = true → condVec 4 (C.apply u) = true → C.apply u = u := by
  intro C hC u h1 h2
  obtain ⟨a, b, c⟩ := u
  simp only [canonSet11, List.mem_cons, List.not_mem_nil, or_false] at hC
  simp only [condVec, asuCond, decide_eq_true_eq] at h1
  rcases hC with rfl|rfl|rfl|rfl|rfl|rfl|rfl|rfl|rfl|rfl|rfl|rfl|rfl|rfl|rfl|rfl|rfl|rfl|rfl|rfl|rfl|rfl|rfl|rfl <;>
      (simp only [Mat3.apply, sm, condVec, asuCond, decide_eq_true_eq,
        Vec3.mk.injEq] at h2 ⊢; omega)

set_option maxHeartbeats 3200000 in
theorem uniqStep12 : ∀ C ∈ canonSet12, ∀ u : Vec3,
    condVec 8 u = true → condVec 8 (C.apply u) = true → C.apply u = u := by
  intro C hC u h1 h2
  obtain ⟨a, b, c⟩ := u
  simp only [canonSet12, List.mem_cons, List.not_mem_nil, or_false] at hC
  simp only [condVec, asuCond, decide_eq_true_eq] at h1
  rcases hC with rfl|rfl|rfl|rfl|rfl|rfl|rfl|rfl|rfl|rfl|rfl|rfl|rfl|rfl|rfl|rfl|rfl|rfl|rfl|rfl|rfl|rfl|rfl|rfl <;>
      (simp only [Mat3.apply, sm, condVec, asuCond, decide_eq_true_eq,
        Vec3.mk.injEq] at h2 ⊢; omega)

set_option maxHeartbeats 3200000 in
theorem uniqStep13 : ∀ C ∈ canonSet13, ∀ u : Vec3,
    condVec 9 u = true → condVec 9 (C.apply u) = true → C.apply u = u := by
  intro C hC u h1 h2
  obtain ⟨a, b, c⟩ := u
  simp only [canonSet13, List.mem_cons, List.not_mem_nil, or_false] at hC
  simp only [condVec, asuCond, decide_eq_true_eq] at h1
  rcases hC with rfl|rfl|rfl|rfl|rfl|rfl|rfl|rfl|rfl|rfl|rfl|rfl|rfl|rfl|rfl|rfl|rfl|rfl|rfl|rfl|rfl|rfl|rfl|rfl|rfl|rfl|rfl|rfl|rfl|rfl|rfl|rfl|rfl|rfl|rfl|rfl|rfl|rfl|rfl|rfl|rfl|rfl|rfl|rfl|rfl|rfl|rfl|rfl <;>
      (simp only [Mat3.apply, sm, condVec, asuCond, decide_eq_true_eq,
        Vec3.mk.injEq] at h2 ⊢; omega)

set_option maxHeartbeats 3200000 in
theorem mulClosed0 :
    (canonSet0.all fun x => canonSet0.all fun y =>
      canonSet0.any fun z => z == x.mul y) = true := by
  decide

theorem invClosed0 :
    (canonSet0.all fun x => canonSet0.any fun y =>
      (y.mul x == idm) && (x.mul y == idm)) = true := by
  decide

set_option maxHeartbeats 3200000 in
theorem mulClosed1 :
    (canonSet1.all fun x => canonSet1.all fun y =>
      canonSet1.any fun z => z == x.mul y) = true := by
  decide

theorem invClosed1 :
    (canonSet1.all fun x => canonSet1.any fun y =>
      (y.mul x == idm) && (x.mul y == idm)) = true := by
  decide

set_option maxHeartbeats 3200000 in
theorem mulClosed2 :
    (canonSet2.all fun x => canonSet2.all fun y =>
      canonSet2.any fun z => z == x.mul y) = true := by
  decide

theorem invClosed2 :
    (canonSet2.all fun x => canonSet2.any fun y =>
      (y.mul x == idm) && (x.mul y == idm)) = true := by
  decide

set_option maxHeartbeats 3200000 in
theorem mulClosed3 :
    (canonSet3.all fun x => canonSet3.all fun y =>
      canonSet3.any fun z => z == x.mul y) = true := by
  decide

theorem invClosed3 :
    (canonSet3.all fun x => canonSet3.any fun y =>
      (y.mul x == idm) && (x.mul y == idm)) = true := by
  decide

set_option maxHeartbeats 3200000 in
theorem mulClosed4 :
    (canonSet4.all fun x => canonSet4.all fun y =>
      canonSet4.any fun z => z == x.mul y) = true := by
  decide

theorem invClosed4 :
    (canonSet4.all fun x => canonSet4.any fun y =>
      (y.mul x == idm) && (x.mul y == idm)) = true := by
  decide

set_option maxHeartbeats 3200000 in
theorem mulClosed5 :
    (canonSet5.all fun x => canonSet5.all fun y =>
      canonSet5.any fun z => z == x.mul y) = true := by
  decide

theorem invClosed5 :
    (canonSet5.all fun x => canonSet5.any fun y =>
      (y.mul x == idm) && (x.mul y == idm)) = true := by
  decide

set_option maxHeartbeats 3200000 in
theorem mulClosed7 :
    (canonSet7.all fun x => canonSet7.all fun y =>
      canonSet7.any fun z => z == x.mul y) = true := by
  decide

theorem invClosed7 :
    (canonSet7.all fun x => canonSet7.any fun y =>
      (y.mul x == idm) && (x.mul y == idm)) = true := by
  decide

set_option maxHeartbeats 3200000 in
theorem mulClosed8 :
    (canonSet8.all fun x => canonSet8.all fun y =>
      canonSet8.any fun z => z == x.mul y) = true := by
  decide

theorem invClosed8 :
    (canonSet8.all fun x => canonSet8.any fun y =>
      (y.mul x == idm) && (x.mul y == idm)) = true := by
  decide

set_option maxHeartbeats 3200000 in
theorem mulClosed10 :
    (canonSet10.all fun x => canonSet10.all fun y =>
      canonSet10.any fun z => z == x.mul y) = true := by
  decide

theorem invClosed10 :
    (canonSet10.all fun x => canonSet10.any fun y =>
      (y.mul x == idm) && (x.mul y == idm)) = true := by
  decide

set_option maxHeartbeats 3200000 in
theorem mulClosed11 :
    (canonSet11.all fun x => canonSet11.all fun y =>
      canonSet11.any fun z => z == x.mul y) = true := by
  decide

theorem invClosed11 :
    (canonSet11.all fun x => canonSet11.any fun y =>
      (y.mul x == idm) && (x.mul y == idm)) = true := by
  decide

set_option maxHeartbeats 3200000 in
theorem mulClosed12 :
    (canonSet12.all fun x => canonSet12.all fun y =>
      canonSet12.any fun z => z == x.mul y) = true := by
  decide

theorem invClosed12 :
    (canonSet12.all fun x => canonSet12.any fun y =>
      (y.mul x == idm) && (x.mul y == idm)) = true := by
  decide

set_option maxHeartbeats 3200000 in
theorem mulClosed13 :
    (canonSet13.all fun x => canonSet13.all fun y =>
      canonSet13.any fun z => z == x.mul y) = true := by
  decide

theorem invClosed13 :
    (canonSet13.all fun x => canonSet13.any fun y =>
      (y.mul x == idm) && (x.mul y == idm)) = true := by
  decide

set_option maxHeartbeats 3200000 in
theorem exSet0 : ∀ w : Vec3, ∃ C ∈ canonSet0, condVec 0 (C.apply w) = true := by
  intro w
  obtain ⟨a, b, c⟩ := w
  have h : ((-c) > 0 ∨ ((-c) = 0 ∧ ((-a) > 0 ∨ ((-a) = 0 ∧ (-b) ≥ 0)))) ∨
      ((c) > 0 ∨ ((c) = 0 ∧ ((a) > 0 ∨ ((a) = 0 ∧ (b) ≥ 0)))) := by omega
  rcases h with h|h
  · exact ⟨sm (-1) 0 0 0 (-1) 0 0 0 (-1), (show _ ∈ canonSet0 from List.mem_cons_self _ _), by
      simp only [Mat3.apply, sm, condVec, asuCond, decide_eq_true_eq]
      omega⟩
  · exact ⟨sm 1 0 0 0 1 0 0 0 1, (show _ ∈ canonSet0 from List.mem_cons_of_mem _ (List.mem_cons_self _ _)), by
      simp only [Mat3.apply, sm, condVec, asuCond, decide_eq_true_eq]
      omega⟩

set_option maxHeartbeats 3200000 in
theorem exSet1 : ∀ w : Vec3, ∃ C ∈ canonSet1, condVec 1 (C.apply w) = true := by
  intro w
  obtain ⟨a, b, c⟩ := w
  have h : ((-b) ≥ 0 ∧ ((-c) > 0 ∨ ((-c) = 0 ∧ (-a) ≥ 0))) ∨
      ((b) ≥ 0 ∧ ((-c) > 0 ∨ ((-c) = 0 ∧ (-a) ≥ 0))) ∨
      ((-b) ≥ 0 ∧ ((c) > 0 ∨ ((c) = 0 ∧ (a) ≥ 0))) ∨
      ((b) ≥ 0 ∧ ((c) > 0 ∨ ((c) = 0 ∧ (a) ≥ 0))) := by omega
  rcases h with h|h|h|h
  · exact ⟨sm (-1) 0 0 0 (-1) 0 0 0 (-1), (show _ ∈ canonSet1 from List.mem_cons_self _ _), by
      simp only [Mat3.apply, sm, condVec, asuCond, decide_eq_true_eq]
      omega⟩
  · exact ⟨sm (-1) 0 0 0 1 0 0 0 (-1), (show _ ∈ canonSet1 from List.mem_cons_of_mem _ (List.mem_cons_self _ _)), by
      simp only [Mat3.apply, sm, condVec, asuCond, decide_eq_true_eq]
      omega⟩
  · exact ⟨sm 1 0 0 0 (-1) 0 0 0 1, (show _ ∈ canonSet1 from List.mem_cons_of_mem _ (List.mem_cons_of_mem _ (List.mem_cons_self _ _))), by
      simp only [Mat3.apply, sm, condVec, asuCond, decide_eq_true_eq]
      omega⟩
  · exact ⟨sm 1 0 0 0 1 0 0 0 1, (show _ ∈ canonSet1 from List.mem_cons_of_mem _ (List.mem_cons_of_mem _ (List.mem_cons_of_mem _ (List.mem_cons_self _ _)))), by
      simp only [Mat3.apply, sm, condVec, asuCond, decide_eq_true_eq]
      omega⟩

set_option maxHeartbeats 3200000 in
theorem exSet5 : ∀ w : Vec3, ∃ C ∈ canonSet5, condVec 5 (C.apply w) = true := by
  intro w
  obtain ⟨a, b, c⟩ := w
  have h : (((-a - b) ≥ 0 ∧ (a) > 0) ∨ ((-a - b) = 0 ∧ (a) = 0 ∧ (c) ≥ 0)) ∨
      (((-a) ≥ 0 ∧ (-b) > 0) ∨ ((-a) = 0 ∧ (-b) = 0 ∧ (-c) ≥ 0)) ∨
      (((-b) ≥ 0 ∧ (a + b) > 0) ∨ ((-b) = 0 ∧ (a + b) = 0 ∧ (-c) ≥ 0)) ∨
      (((b) ≥ 0 ∧ (-a - b) > 0) ∨ ((b) = 0 ∧ (-a - b) = 0 ∧ (c) ≥ 0)) ∨
      (((a) ≥ 0 ∧ (b) > 0) ∨ ((a) = 0 ∧ (b) = 0 ∧ (c) ≥ 0)) ∨
      (((a + b) ≥ 0 ∧ (-a) > 0) ∨ ((a + b) = 0 ∧ (-a) = 0 ∧ (-c) ≥ 0)) := by omega
  rcases h with h|h|h|h|h|h
  · exact ⟨sm (-1) (-1) 0 1 0 0 0 0 1, (show _ ∈ canonSet5 from List.mem_cons_self _ _), by
      simp only [Mat3.apply, sm, condVec, asuCond, decide_eq_true_eq]
      omega⟩
  · exact ⟨sm (-1) 0 0 0 (-1) 0 0 0 (-1), (show _ ∈ canonSet5 from List.mem_cons_of_mem _ (List.mem_cons_self _ _)), by
      simp only [Mat3.apply, sm, condVec, asuCond, decide_eq_true_eq]
      omega⟩
  · exact ⟨sm 0 (-1) 0 1 1 0 0 0 (-1), (show _ ∈ canonSet5 from List.mem_cons_of_mem _ (List.mem_cons_of_mem _ (List.mem_cons_self _ _))), by
      simp only [Mat3.apply, sm, condVec, asuCond, decide_eq_true_eq]
      omega⟩
  · exact ⟨sm 0 1 0 (-1) (-1) 0 0 0 1, (show _ ∈ canonSet5 from List.mem_cons_of_mem _ (List.mem_cons_of_mem _ (List.mem_cons_of_mem _ (List.mem_cons_self _ _)))), by
      simp only [Mat3.apply, sm, condVec, asuCond, decide_eq_true_eq]
      omega⟩
  · exact ⟨sm 1 0 0 0 1 0 0 0 1, (show _ ∈ canonSet5 from List.mem_cons_of_mem _ (List.mem_cons_of_mem _ (List.mem_cons_of_mem _ (List.mem_cons_of_mem _ (List.mem_cons_self _ _))))), by
      simp only [Mat3.apply, sm, condVec, asuCond, decide_eq_true_eq]
      omega⟩
  · exact ⟨sm 1 1 0 (-1) 0 0 0 0 (-1), (show _ ∈ canonSet5 from List.mem_cons_of_mem _ (List.mem_cons_of_mem _ (List.mem_cons_of_mem _ (List.mem_cons_of_mem _ (List.mem_cons_of_mem _ (List.mem_cons_self _ _)))))), by
      simp only [Mat3.apply, sm, condVec, asuCond, decide_eq_true_eq]
      omega⟩

set_option maxHeartbeats 1600000 in
theorem exSet2 : ∀ w : Vec3, ∃ C ∈ canonSet2, condVec 2 (C.apply w) = true := by
  intro w
  obtain ⟨a, b, c⟩ := w
  rcases le_or_lt 0 c with hc | hc
  · have h : ((-a) ≥ 0 ∧ (-b) ≥ 0 ∧ (c) ≥ 0) ∨
        ((-a) ≥ 0 ∧ (b) ≥ 0 ∧ (c) ≥ 0) ∨
        ((a) ≥ 0 ∧ (-b) ≥ 0 ∧ (c) ≥ 0) ∨
        ((a) ≥ 0 ∧ (b) ≥ 0 ∧ (c) ≥ 0) := by omega
    rcases h with h|h|h|h
    · exact ⟨sm (-1) 0 0 0 (-1) 0 0 0 1, (show _ ∈ canonSet2 from List.mem_cons_of_mem _ (List.mem_cons_self _ _)), by
        simp only [Mat3.apply, sm, condVec, asuCond, decide_eq_true_eq]
        omega⟩
    · exact ⟨sm (-1) 0 0 0 1 0 0 0 1, (show _ ∈ canonSet2 from List.mem_cons_of_mem _ (List.mem_cons_of_mem _ (List.mem_cons_of_mem _ (List.mem_cons_self _ _)))), by
        simp only [Mat3.apply, sm, condVec, asuCond, decide_eq_true_eq]
        omega⟩
    · exact ⟨sm 1 0 0 0 (-1) 0 0 0 1, (show _ ∈ canonSet2 from List.mem_cons_of_mem _ (List.mem_cons_of_mem _ (List.mem_cons_of_mem _ (List.mem_cons_of_mem _ (List.mem_cons_of_mem _ (List.mem_cons_self _ _)))))), by
        simp only [Mat3.apply, sm, condVec, asuCond, decide_eq_true_eq]
        omega⟩
    · exact ⟨sm 1 0 0 0 1 0 0 0 1, (show _ ∈ canonSet2 from List.mem_cons_of_mem _ (List.mem_cons_of_mem _ (List.mem_cons_of_mem _ (List.mem_cons_of_mem _ (List.mem_cons_of_mem _ (List.mem_cons_of_mem _ (List.mem_cons_of_mem _ (List.mem_cons_self _ _)))))))), by
        simp only [Mat3.apply, sm, condVec, asuCond, decide_eq_true_eq]
        omega⟩
  · have h : ((-a) ≥ 0 ∧ (-b) ≥ 0 ∧ (-c) ≥ 0) ∨
        ((-a) ≥ 0 ∧ (b) ≥ 0 ∧ (-c) ≥ 0) ∨
        ((a) ≥ 0 ∧ (-b) ≥ 0 ∧ (-c) ≥ 0) ∨
        ((a) ≥ 0 ∧ (b) ≥ 0 ∧ (-c) ≥ 0) := by omega
    rcases h with h|h|h|h
    · exact ⟨sm (-1) 0 0 0 (-1) 0 0 0 (-1), (show _ ∈ canonSet2 from List.mem_cons_self _ _), by
        simp only [Mat3.apply, sm, condVec, asuCond, decide_eq_true_eq]
        omega⟩
    · exact ⟨sm (-1) 0 0 0 1 0 0 0 (-1), (show _ ∈ canonSet2 from List.mem_cons_of_mem _ (List.mem_cons_of_mem _ (List.mem_cons_self _ _))), by
        simp only [Mat3.apply, sm, condVec, asuCond, decide_eq_true_eq]
        omega⟩
    · exact ⟨sm 1 0 0 0 (-1) 0 0 0 (-1), (show _ ∈ canonSet2 from List.mem_cons_of_mem _ (List.mem_cons_of_mem _ (List.mem_cons_of_mem _ (List.mem_cons_of_mem _ (List.mem_cons_self _ _))))), by
        simp only [Mat3.apply, sm, condVec, asuCond, decide_eq_true_eq]
        omega⟩
    · exact ⟨sm 1 0 0 0 1 0 0 0 (-1), (show _ ∈ canonSet2 from List.mem_cons_of_mem _ (List.mem_cons_of_mem _ (List.mem_cons_of_mem _ (List.mem_cons_of_mem _ (List.mem_cons_of_mem _ (List.mem_cons_of_mem _ (List.mem_cons_self _ _))))))), by
        simp only [Mat3.apply, sm, condVec, asuCond, decide_eq_true_eq]
        omega⟩

set_option maxHeartbeats 1600000 in
theorem exSet3 : ∀ w : Vec3, ∃ C ∈ canonSet3, condVec 3 (C.apply w) = true := by
  intro w
  obtain ⟨a, b, c⟩ := w
  rcases le_or_lt 0 c with hc | hc
  · have h : ((c) ≥ 0 ∧ (((-a) ≥ 0 ∧ (-b) > 0) ∨ ((-a) = 0 ∧ (-b) = 0))) ∨
        ((c) ≥ 0 ∧ (((-b) ≥ 0 ∧ (a) > 0) ∨ ((-b) = 0 ∧ (a) = 0))) ∨
        ((c) ≥ 0 ∧ (((b) ≥ 0 ∧ (-a) > 0) ∨ ((b) = 0 ∧ (-a) = 0))) ∨
        ((c) ≥ 0 ∧ (((a) ≥ 0 ∧ (b) > 0) ∨ ((a) = 0 ∧ (b) = 0))) := by omega
    rcases h with h|h|h|h
    · exact ⟨sm (-1) 0 0 0 (-1) 0 0 0 1, (show _ ∈ canonSet3 from List.mem_cons_of_mem _ (List.mem_cons_self _ _)), by
        simp only [Mat3.apply, sm, condVec, asuCond, decide_eq_true_eq]
        omega⟩
    · exact ⟨sm 0 (-1) 0 1 0 0 0 0 1, (show _ ∈ canonSet3 from List.mem_cons_of_mem _ (List.mem_cons_of_mem _ (List.mem_cons_of_mem _ (List.mem_cons_self _ _)))), by
        simp only [Mat3.apply, sm, condVec, asuCond, decide_eq_true_eq]
        omega⟩
    · exact ⟨sm 0 1 0 (-1) 0 0 0 0 1, (show _ ∈ canonSet3 from List.mem_cons_of_mem _ (List.mem_cons_of_mem _ (List.mem_cons_of_mem _ (List.mem_cons_of_mem _ (List.mem_cons_of_mem _ (List.mem_cons_self _ _)))))), by
        simp only [Mat3.apply, sm, condVec, asuCond, decide_eq_true_eq]
        omega⟩
    · exact ⟨sm 1 0 0 0 1 0 0 0 1, (show _ ∈ canonSet3 from List.mem_cons_of_mem _ (List.mem_cons_of_mem _ (List.mem_cons_of_mem _ (List.mem_cons_of_mem _ (List.mem_cons_of_mem _ (List.mem_cons_of_mem _ (List.mem_cons_of_mem _ (List.mem_cons_self _ _)))))))), by
        simp only [Mat3.apply, sm, condVec, asuCond, decide_eq_true_eq]
        omega⟩
  · have h : ((-c) ≥ 0 ∧ (((-a) ≥ 0 ∧ (-b) > 0) ∨ ((-a) = 0 ∧ (-b) = 0))) ∨
        ((-c) ≥ 0 ∧ (((-b) ≥ 0 ∧ (a) > 0) ∨ ((-b) = 0 ∧ (a) = 0))) ∨
        ((-c) ≥ 0 ∧ (((b) ≥ 0 ∧ (-a) > 0) ∨ ((b) = 0 ∧ (-a) = 0))) ∨
        ((-c) ≥ 0 ∧ (((a) ≥ 0 ∧ (b) > 0) ∨ ((a) = 0 ∧ (b) = 0))) := by omega
    rcases h with h|h|h|h
    · exact ⟨sm (-1) 0 0 0 (-1) 0 0 0 (-1), (show _ ∈ canonSet3 from List.mem_cons_self _ _), by
        simp only [Mat3.apply, sm, condVec, asuCond, decide_eq_true_eq]
        omega⟩
    · exact ⟨sm 0 (-1) 0 1 0 0 0 0 (-1), (show _ ∈ canonSet3 from List.mem_cons_of_mem _ (List.mem_cons_of_mem _ (List.mem_cons_self _ _))), by
        simp only [Mat3.apply, sm, condVec, asuCond, decide_eq_true_eq]
        omega⟩
    · exact ⟨sm 0 1 0 (-1) 0 0 0 0 (-1), (show _ ∈ canonSet3 from List.mem_cons_of_mem _ (List.mem_cons_of_mem _ (List.mem_cons_of_mem _ (List.mem_cons_of_mem _ (List.mem_cons_self _ _))))), by
        simp only [Mat3.apply, sm, condVec, asuCond, decide_eq_true_eq]
        omega⟩
    · exact ⟨sm 1 0 0 0 1 0 0 0 (-1), (show _ ∈ canonSet3 from List.mem_cons_of_mem _ (List.mem_cons_of_mem _ (List.mem_cons_of_mem _ (List.mem_cons_of_mem _ (List.mem_cons_of_mem _ (List.mem_cons_of_mem _ (List.mem_cons_self _ _))))))), by
        simp only [Mat3.apply, sm, condVec, asuCond, decide_eq_true_eq]
        omega⟩

set_option maxHeartbeats 3200000 in
theorem exSet7 : ∀ w : Vec3, ∃ C ∈ canonSet7, condVec 6 (C.apply w) = true := by
  intro w
  obtain ⟨a, b, c⟩ := w
  have h : ((-a - b) ≥ (b) ∧ (b) ≥ 0 ∧ ((b) > 0 ∨ (c) ≥ 0)) ∨
      ((-a - b) ≥ (a) ∧ (a) ≥ 0 ∧ ((a) > 0 ∨ (c) ≥ 0)) ∨
      ((-a) ≥ (-b) ∧ (-b) ≥ 0 ∧ ((-b) > 0 ∨ (-c) ≥ 0)) ∨
      ((-a) ≥ (a + b) ∧ (a + b) ≥ 0 ∧ ((a + b) > 0 ∨ (-c) ≥ 0)) ∨
      ((-b) ≥ (-a) ∧ (-a) ≥ 0 ∧ ((-a) > 0 ∨ (-c) ≥ 0)) ∨
      ((-b) ≥ (a + b) ∧ (a + b) ≥ 0 ∧ ((a + b) > 0 ∨ (-c) ≥ 0)) ∨
      ((b) ≥ (-a - b) ∧ (-a - b) ≥ 0 ∧ ((-a - b) > 0 ∨ (c) ≥ 0)) ∨
      ((b) ≥ (a) ∧ (a) ≥ 0 ∧ ((a) > 0 ∨ (c) ≥ 0)) ∨
      ((a) ≥ (-a - b) ∧ (-a - b) ≥ 0 ∧ ((-a - b) > 0 ∨ (c) ≥ 0)) ∨
      ((a) ≥ (b) ∧ (b) ≥ 0 ∧ ((b) > 0 ∨ (c) ≥ 0)) ∨
      ((a + b) ≥ (-a) ∧ (-a) ≥ 0 ∧ ((-a) > 0 ∨ (-c) ≥ 0)) ∨
      ((a + b) ≥ (-b) ∧ (-b) ≥ 0 ∧ ((-b) > 0 ∨ (-c) ≥ 0)) := by omega
  rcases h with h|h|h|h|h|h|h|h|h|h|h|h
  · exact ⟨sm (-1) (-1) 0 0 1 0 0 0 1, (show _ ∈ canonSet7 from List.mem_cons_self _ _), by
      simp only [Mat3.apply, sm, condVec, asuCond, decide_eq_true_eq]
      omega⟩
  · exact ⟨sm (-1) (-1) 0 1 0 0 0 0 1, (show _ ∈ canonSet7 from List.mem_cons_of_mem _ (List.mem_cons_self _ _)), by
      simp only [Mat3.apply, sm, condVec, asuCond, decide_eq_true_eq]
      omega⟩
  · exact ⟨sm (-1) 0 0 0 (-1) 0 0 0 (-1), (show _ ∈ canonSet7 from List.mem_cons_of_mem _ (List.mem_cons_of_mem _ (List.mem_cons_self _ _))), by
      simp only [Mat3.apply, sm, condVec, asuCond, decide_eq_true_eq]
      omega⟩
  · exact ⟨sm (-1) 0 0 1 1 0 0 0 (-1), (show _ ∈ canonSet7 from List.mem_cons_of_mem _ (List.mem_cons_of_mem _ (List.mem_cons_of_mem _ (List.mem_cons_self _ _)))), by
      simp only [Mat3.apply, sm, condVec, asuCond, decide_eq_true_eq]
      omega⟩
  · exact ⟨sm 0 (-1) 0 (-1) 0 0 0 0 (-1), (show _ ∈ canonSet7 from List.mem_cons_of_mem _ (List.mem_cons_of_mem _ (List.mem_cons_of_mem _ (List.mem_cons_of_mem _ (List.mem_cons_self _ _))))), by
      simp only [Mat3.apply, sm, condVec, asuCond, decide_eq_true_eq]
      omega⟩
  · exact ⟨sm 0 (-1) 0 1 1 0 0 0 (-1), (show _ ∈ canonSet7 from List.mem_cons_of_mem _ (List.mem_cons_of_mem _ (List.mem_cons_of_mem _ (List.mem_cons_of_mem _ (List.mem_cons_of_mem _ (List.mem_cons_self _ _)))))), by
      simp only [Mat3.apply, sm, condVec, asuCond, decide_eq_true_eq]
      omega⟩
  · exact ⟨sm 0 1 0 (-1) (-1) 0 0 0 1, (show _ ∈ canonSet7 from List.mem_cons_of_mem _ (List.mem_cons_of_mem _ (List.mem_cons_of_mem _ (List.mem_cons_of_mem _ (List.mem_cons_of_mem _ (List.mem_cons_of_mem _ (List.mem_cons_self _ _))))))), by
      simp only [Mat3.apply, sm, condVec, asuCond, decide_eq_true_eq]
      omega⟩
  · exact ⟨sm 0 1 0 1 0 0 0 0 1, (show _ ∈ canonSet7 from List.mem_cons_of_mem _ (List.mem_cons_of_mem _ (List.mem_cons_of_mem _ (List.mem_cons_of_mem _ (List.mem_cons_of_mem _ (List.mem_cons_of_mem _ (List.mem_cons_of_mem _ (List.mem_cons_self _ _)))))))), by
      simp only [Mat3.apply, sm, condVec, asuCond, decide_eq_true_eq]
      omega⟩
  · exact ⟨sm 1 0 0 (-1) (-1) 0 0 0 1, (show _ ∈ canonSet7 from List.mem_cons_of_mem _ (List.mem_cons_of_mem _ (List.mem_cons_of_mem _ (List.mem_cons_of_mem _ (List.mem_cons_of_mem _ (List.mem_cons_of_mem _ (List.mem_cons_of_mem _ (List.mem_cons_of_mem _ (List.mem_cons_self _ _))))))))), by
      simp only [Mat3.apply, sm, condVec, asuCond, decide_eq_true_eq]
      omega⟩
  · exact ⟨sm 1 0 0 0 1 0 0 0 1, (show _ ∈ canonSet7 from List.mem_cons_of_mem _ (List.mem_cons_of_mem _ (List.mem_cons_of_mem _ (List.mem_cons_of_mem _ (List.mem_cons_of_mem _ (List.mem_cons_of_mem _ (List.mem_cons_of_mem _ (List.mem_cons_of_mem _ (List.mem_cons_of_mem _ (List.mem_cons_self _ _)))))))))), by
      simp only [Mat3.apply, sm, condVec, asuCond, decide_eq_true_eq]
      omega⟩
  · exact ⟨sm 1 1 0 (-1) 0 0 0 0 (-1), (show _ ∈ canonSet7 from List.mem_cons_of_mem _ (List.mem_cons_of_mem _ (List.mem_cons_of_mem _ (List.mem_cons_of_mem _ (List.mem_cons_of_mem _ (List.mem_cons_of_mem _ (List.mem_cons_of_mem _ (List.mem_cons_of_mem _ (List.mem_cons_of_mem _ (List.mem_cons_of_mem _ (List.mem_cons_self _ _))))))))))), by
      simp only [Mat3.apply, sm, condVec, asuCond, decide_eq_true_eq]
      omega⟩
  · exact ⟨sm 1 1 0 0 (-1) 0 0 0 (-1), (show _ ∈ canonSet7 from List.mem_cons_of_mem _ (List.mem_cons_of_mem _ (List.mem_cons_of_mem _ (List.mem_cons_of_mem _ (List.mem_cons_of_mem _ (List.mem_cons_of_mem _ (List.mem_cons_of_mem _ (List.mem_cons_of_mem _ (List.mem_cons_of_mem _ (List.mem_cons_of_mem _ (List.mem_cons_of_mem _ (List.mem_cons_self _ _)))))))))))), by
      simp only [Mat3.apply, sm, condVec, asuCond, decide_eq_true_eq]
      omega⟩

set_option maxHeartbeats 3200000 in
theorem exSet8 : ∀ w : Vec3, ∃ C ∈ canonSet8, condVec 7 (C.apply w) = true := by
  intro w
  obtain ⟨a, b, c⟩ := w
  have h : ((-a - b) ≥ (b) ∧ (b) ≥ 0 ∧ ((-a - b) > (b) ∨ (-c) ≥ 0)) ∨
      ((-a - b) ≥ (a) ∧ (a) ≥ 0 ∧ ((-a - b) > (a) ∨ (c) ≥ 0)) ∨
      ((-a) ≥ (-b) ∧ (-b) ≥ 0 ∧ ((-a) > (-b) ∨ (-c) ≥ 0)) ∨
      ((-a) ≥ (a + b) ∧ (a + b) ≥ 0 ∧ ((-a) > (a + b) ∨ (c) ≥ 0)) ∨
      ((-b) ≥ (-a) ∧ (-a) ≥ 0 ∧ ((-b) > (-a) ∨ (c) ≥ 0)) ∨
      ((-b) ≥ (a + b) ∧ (a + b) ≥ 0 ∧ ((-b) > (a + b) ∨ (-c) ≥ 0)) ∨
      ((b) ≥ (-a - b) ∧ (-a - b) ≥ 0 ∧ ((b) > (-a - b) ∨ (c) ≥ 0)) ∨
      ((b) ≥ (a) ∧ (a) ≥ 0 ∧ ((b) > (a) ∨ (-c) ≥ 0)) ∨
      ((a) ≥ (-a - b) ∧ (-a - b) ≥ 0 ∧ ((a) > (-a - b) ∨ (-c) ≥ 0)) ∨
      ((a) ≥ (b) ∧ (b) ≥ 0 ∧ ((a) > (b) ∨ (c) ≥ 0)) ∨
      ((a + b) ≥ (-a) ∧ (-a) ≥ 0 ∧ ((a + b) > (-a) ∨ (-c) ≥ 0)) ∨
      ((a + b) ≥ (-b) ∧ (-b) ≥ 0 ∧ ((a + b) > (-b) ∨ (c) ≥ 0)) := by omega
  rcases h with h|h|h|h|h|h|h|h|h|h|h|h
  · exact ⟨sm (-1) (-1) 0 0 1 0 0 0 (-1), (show _ ∈ canonSet8 from List.mem_cons_self _ _), by
      simp only [Mat3.apply, sm, condVec, asuCond, decide_eq_true_eq]
      omega⟩
  · exact ⟨sm (-1) (-1) 0 1 0 0 0 0 1, (show _ ∈ canonSet8 from List.mem_cons_of_mem _ (List.mem_cons_self _ _)), by
      simp only [Mat3.apply, sm, condVec, asuCond, decide_eq_true_eq]
      omega⟩
  · exact ⟨sm (-1) 0 0 0 (-1) 0 0 0 (-1), (show _ ∈ canonSet8 from List.mem_cons_of_mem _ (List.mem_cons_of_mem _ (List.mem_cons_self _ _))), by
      simp only [Mat3.apply, sm, condVec, asuCond, decide_eq_true_eq]
      omega⟩
  · exact ⟨sm (-1) 0 0 1 1 0 0 0 1, (show _ ∈ canonSet8 from List.mem_cons_of_mem _ (List.mem_cons_of_mem _ (List.mem_cons_of_mem _ (List.mem_cons_self _ _)))), by
      simp only [Mat3.apply, sm, condVec, asuCond, decide_eq_true_eq]
      omega⟩
  · exact ⟨sm 0 (-1) 0 (-1) 0 0 0 0 1, (show _ ∈ canonSet8 from List.mem_cons_of_mem _ (List.mem_cons_of_mem _ (List.mem_cons_of_mem _ (List.mem_cons_of_mem _ (List.mem_cons_self _ _))))), by
      simp only [Mat3.apply, sm, condVec, asuCond, decide_eq_true_eq]
      omega⟩
  · exact ⟨sm 0 (-1) 0 1 1 0 0 0 (-1), (show _ ∈ canonSet8 from List.mem_cons_of_mem _ (List.mem_cons_of_mem _ (List.mem_cons_of_mem _ (List.mem_cons_of_mem _ (List.mem_cons_of_mem _ (List.mem_cons_self _ _)))))), by
      simp only [Mat3.apply, sm, condVec, asuCond, decide_eq_true_eq]
      omega⟩
  · exact ⟨sm 0 1 0 (-1) (-1) 0 0 0 1, (show _ ∈ canonSet8 from List.mem_cons_of_mem _ (List.mem_cons_of_mem _ (List.mem_cons_of_mem _ (List.mem_cons_of_mem _ (List.mem_cons_of_mem _ (List.mem_cons_of_mem _ (List.mem_cons_self _ _))))))), by
      simp only [Mat3.apply, sm, condVec, asuCond, decide_eq_true_eq]
      omega⟩
  · exact ⟨sm 0 1 0 1 0 0 0 0 (-1), (show _ ∈ canonSet8 from List.mem_cons_of_mem _ (List.mem_cons_of_mem _ (List.mem_cons_of_mem _ (List.mem_cons_of_mem _ (List.mem_cons_of_mem _ (List.mem_cons_of_mem _ (List.mem_cons_of_mem _ (List.mem_cons_self _ _)))))))), by
      simp only [Mat3.apply, sm, condVec, asuCond, decide_eq_true_eq]
      omega⟩
  · exact ⟨sm 1 0 0 (-1) (-1) 0 0 0 (-1), (show _ ∈ canonSet8 from List.mem_cons_of_mem _ (List.mem_cons_of_mem _ (List.mem_cons_of_mem _ (List.mem_cons_of_mem _ (List.mem_cons_of_mem _ (List.mem_cons_of_mem _ (List.mem_cons_of_mem _ (List.mem_cons_of_mem _ (List.mem_cons_self _ _))))))))), by
      simp only [Mat3.apply, sm, condVec, asuCond, decide_eq_true_eq]
      omega⟩
  · exact ⟨sm 1 0 0 0 1 0 0 0 1, (show _ ∈ canonSet8 from List.mem_cons_of_mem _ (List.mem_cons_of_mem _ (List.mem_cons_of_mem _ (List.mem_cons_of_mem _ (List.mem_cons_of_mem _ (List.mem_cons_of_mem _ (List.mem_cons_of_mem _ (List.mem_cons_of_mem _ (List.mem_cons_of_mem _ (List.mem_cons_self _ _)))))))))), by
      simp only [Mat3.apply, sm, condVec, asuCond, decide_eq_true_eq]
      omega⟩
  · exact ⟨sm 1 1 0 (-1) 0 0 0 0 (-1), (show _ ∈ canonSet8 from List.mem_cons_of_mem _ (List.mem_cons_of_mem _ (List.mem_cons_of_mem _ (List.mem_cons_of_mem _ (List.mem_cons_of_mem _ (List.mem_cons_of_mem _ (List.mem_cons_of_mem _ (List.mem_cons_of_mem _ (List.mem_cons_of_mem _ (List.mem_cons_of_mem _ (List.mem_cons_self _ _))))))))))), by
      simp only [Mat3.apply, sm, condVec, asuCond, decide_eq_true_eq]
      omega⟩
  · exact ⟨sm 1 1 0 0 (-1) 0 0 0 1, (show _ ∈ canonSet8 from List.mem_cons_of_mem _ (List.mem_cons_of_mem _ (List.mem_cons_of_mem _ (List.mem_cons_of_mem _ (List.mem_cons_of_mem _ (List.mem_cons_of_mem _ (List.mem_cons_of_mem _ (List.mem_cons_of_mem _ (List.mem_cons_of_mem _ (List.mem_cons_of_mem _ (List.mem_cons_of_mem _ (List.mem_cons_self _ _)))))))))))), by
      simp only [Mat3.apply, sm, condVec, asuCond, decide_eq_true_eq]
      omega⟩

/-- Cyclic axis permutations. -/
def cycA : Mat3 := sm 0 1 0 0 0 1 1 0 0

/-- The other cyclic axis permutation. -/
def cycB : Mat3 := sm 0 0 1 1 0 0 0 1 0

/-- Generic existence through a two-stage composition. -/
theorem compose_ex (i : Nat) (L A B : List Mat3) (INV : Vec3 → Prop)
    (hAB : ∀ a ∈ A, ∀ b ∈ B, a.mul b ∈ L)
    (h1 : ∀ w, ∃ b ∈ B, INV (b.apply w))
    (h2 : ∀ v, INV v → ∃ a ∈ A, condVec i (a.apply v) = true) :
    ∀ w, ∃ C ∈ L, condVec i (C.apply w) = true := by
  intro w
  obtain ⟨b, hb, hi⟩ := h1 w
  obtain ⟨a, ha, hc⟩ := h2 (b.apply w) hi
  refine ⟨a.mul b, hAB a ha b hb, ?_⟩
  rw [mul_apply]
  exact hc

/-- Either the identity or the z-mirror gives a nonnegative last
component. -/
theorem ex_zflip : ∀ w : Vec3, ∃ b ∈ [idm, zMirror], 0 ≤ (b.apply w).vc := by
  intro w
  obtain ⟨a, b, c⟩ := w
  rcases le_or_lt 0 c with hc | hc
  · exact ⟨idm, List.mem_cons_self _ _, by simp only [idm, sm, Mat3.apply]; omega⟩
  · exact ⟨zMirror, List.mem_cons_of_mem _ (List.mem_cons_self _ _), by
      simp only [zMirror, sm, Mat3.apply]; omega⟩

/-- Stage-two set for the 4/mmm existence proof. -/
def h2s4A : List Mat3 :=
  [sm 1 0 0 0 1 0 0 0 1,
   sm 0 1 0 1 0 0 0 0 1]

/-- Stage-two set for the m-3 existence proof. -/
def h2s12A : List Mat3 :=
  [sm 1 0 0 0 1 0 0 0 1,
   sm 0 1 0 0 0 1 1 0 0,
   sm 0 0 1 1 0 0 0 1 0]

/-- Stage-two set for the m-3m existence proof. -/
def h2s13A : List Mat3 :=
  [sm 1 0 0 0 1 0 0 0 1,
   sm 0 1 0 0 0 1 1 0 0,
   sm 0 0 1 1 0 0 0 1 0,
   sm 0 1 0 1 0 0 0 0 1,
   sm 1 0 0 0 0 1 0 1 0,
   sm 0 0 1 0 1 0 1 0 0]

/-- Stage-two set for the 6/m existence proof. -/
def h2s10A : List Mat3 :=
  [sm (-1) (-1) 0 1 0 0 0 0 1,
   sm (-1) 0 0 0 (-1) 0 0 0 1,
   sm 0 (-1) 0 1 1 0 0 0 1,
   sm 0 1 0 (-1) (-1) 0 0 0 1,
   sm 1 0 0 0 1 0 0 0 1,
   sm 1 1 0 (-1) 0 0 0 0 1]

/-- Stage-two set for the 6/mmm existence proof. -/
def h2s11A : List Mat3 :=
  [sm (-1) (-1) 0 0 1 0 0 0 1,
   sm (-1) (-1) 0 1 0 0 0 0 1,
   sm (-1) 0 0 0 (-1) 0 0 0 1,
   sm (-1) 0 0 1 1 0 0 0 1,
   sm 0 (-1) 0 (-1) 0 0 0 0 1,
   sm 0 (-1) 0 1 1 0 0 0 1,
   sm 0 1 0 (-1) (-1) 0 0 0 1,
   sm 0 1 0 1 0 0 0 0 1,
   sm 1 0 0 (-1) (-1) 0 0 0 1,
   sm 1 0 0 0 1 0 0 0 1,
   sm 1 1 0 (-1) 0 0 0 0 1,
   sm 1 1 0 0 (-1) 0 0 0 1]

set_option maxHeartbeats 1600000 in
theorem h2s4 : ∀ v : Vec3, condVec 2 v = true → ∃ a ∈ h2s4A, condVec 4 (a.apply v) = true := by
  intro v hv
  obtain ⟨a, b, c⟩ := v
  simp only [condVec, asuCond, decide_eq_true_eq] at hv
  have h : ((a) ≥ (b) ∧ (b) ≥ 0 ∧ (c) ≥ 0) ∨
      ((b) ≥ (a) ∧ (a) ≥ 0 ∧ (c) ≥ 0) := by omega
  rcases h with h|h
  · exact ⟨sm 1 0 0 0 1 0 0 0 1, (show _ ∈ h2s4A from List.mem_cons_self _ _), by
      simp only [Mat3.apply, sm, condVec, asuCond, decide_eq_true_eq]
      omega⟩
  · exact ⟨sm 0 1 0 1 0 0 0 0 1, (show _ ∈ h2s4A from List.mem_cons_of_mem _ (List.mem_cons_self _ _)), by
      simp only [Mat3.apply, sm, condVec, asuCond, decide_eq_true_eq]
      omega⟩

set_option maxHeartbeats 1600000 in
theorem h2s12 : ∀ v : Vec3, condVec 2 v = true → ∃ a ∈ h2s12A, condVec 8 (a.apply v) = true := by
  intro v hv
  obtain ⟨a, b, c⟩ := v
  simp only [condVec, asuCond, decide_eq_true_eq] at hv
  have h : ((a) ≥ 0 ∧ (((c) ≥ (a) ∧ (b) > (a)) ∨ ((c) = (a) ∧ (b) = (a)))) ∨
      ((b) ≥ 0 ∧ (((a) ≥ (b) ∧ (c) > (b)) ∨ ((a) = (b) ∧ (c) = (b)))) ∨
      ((c) ≥ 0 ∧ (((b) ≥ (c) ∧ (a) > (c)) ∨ ((b) = (c) ∧ (a) = (c)))) := by omega
  rcases h with h|h|h
  · exact ⟨sm 1 0 0 0 1 0 0 0 1, (show _ ∈ h2s12A from List.mem_cons_self _ _), by
      simp only [Mat3.apply, sm, condVec, asuCond, decide_eq_true_eq]
      omega⟩
  · exact ⟨sm 0 1 0 0 0 1 1 0 0, (show _ ∈ h2s12A from List.mem_cons_of_mem _ (List.mem_cons_self _ _)), by
      simp only [Mat3.apply, sm, condVec, asuCond, decide_eq_true_eq]
      omega⟩
  · exact ⟨sm 0 0 1 1 0 0 0 1 0, (show _ ∈ h2s12A from List.mem_cons_of_mem _ (List.mem_cons_of_mem _ (List.mem_cons_self _ _))), by
      simp only [Mat3.apply, sm, condVec, asuCond, decide_eq_true_eq]
      omega⟩

set_option maxHeartbeats 1600000 in
theorem h2s13 : ∀ v : Vec3, condVec 2 v = true → ∃ a ∈ h2s13A, condVec 9 (a.apply v) = true := by
  intro v hv
  obtain ⟨a, b, c⟩ := v
  simp only [condVec, asuCond, decide_eq_true_eq] at hv
  have h : ((b) ≥ (c) ∧ (c) ≥ (a) ∧ (a) ≥ 0) ∨
      ((c) ≥ (a) ∧ (a) ≥ (b) ∧ (b) ≥ 0) ∨
      ((a) ≥ (b) ∧ (b) ≥ (c) ∧ (c) ≥ 0) ∨
      ((a) ≥ (c) ∧ (c) ≥ (b) ∧ (b) ≥ 0) ∨
      ((c) ≥ (b) ∧ (b) ≥ (a) ∧ (a) ≥ 0) ∨
      ((b) ≥ (a) ∧ (a) ≥ (c) ∧ (c) ≥ 0) := by omega
  rcases h with h|h|h|h|h|h
  · exact ⟨sm 1 0 0 0 1 0 0 0 1, (show _ ∈ h2s13A from List.mem_cons_self _ _), by
      simp only [Mat3.apply, sm, condVec, asuCond, decide_eq_true_eq]
      omega⟩
  · exact ⟨sm 0 1 0 0 0 1 1 0 0, (show _ ∈ h2s13A from List.mem_cons_of_mem _ (List.mem_cons_self _ _)), by
      simp only [Mat3.apply, sm, condVec, asuCond, decide_eq_true_eq]
      omega⟩
  · exact ⟨sm 0 0 1 1 0 0 0 1 0, (show _ ∈ h2s13A from List.mem_cons_of_mem _ (List.mem_cons_of_mem _ (List.mem_cons_self _ _))), by
      simp only [Mat3.apply, sm, condVec, asuCond, decide_eq_true_eq]
      omega⟩
  · exact ⟨sm 0 1 0 1 0 0 0 0 1, (show _ ∈ h2s13A from List.mem_cons_of_mem _ (List.mem_cons_of_mem _ (List.mem_cons_of_mem _ (List.mem_cons_self _ _)))), by
      simp only [Mat3.apply, sm, condVec, asuCond, decide_eq_true_eq]
      omega⟩
  · exact ⟨sm 1 0 0 0 0 1 0 1 0, (show _ ∈ h2s13A from List.mem_cons_of_mem _ (List.mem_cons_of_mem _ (List.mem_cons_of_mem _ (List.mem_cons_of_mem _ (List.mem_cons_self _ _))))), by
      simp only [Mat3.apply, sm, condVec, asuCond, decide_eq_true_eq]
      omega⟩
  · exact ⟨sm 0 0 1 0 1 0 1 0 0, (show _ ∈ h2s13A from List.mem_cons_of_mem _ (List.mem_cons_of_mem _ (List.mem_cons_of_mem _ (List.mem_cons_of_mem _ (List.mem_cons_of_mem _ (List.mem_cons_self _ _)))))), by
      simp only [Mat3.apply, sm, condVec, asuCond, decide_eq_true_eq]
      omega⟩

set_option maxHeartbeats 1600000 in
theorem h2s10 : ∀ v : Vec3, 0 ≤ v.vc → ∃ a ∈ h2s10A, condVec 3 (a.apply v) = true := by
  intro v hv
  obtain ⟨a, b, c⟩ := v
  simp only [] at hv
  have h : ((c) ≥ 0 ∧ (((-a - b) ≥ 0 ∧ (a) > 0) ∨ ((-a - b) = 0 ∧ (a) = 0))) ∨
      ((c) ≥ 0 ∧ (((-a) ≥ 0 ∧ (-b) > 0) ∨ ((-a) = 0 ∧ (-b) = 0))) ∨
      ((c) ≥ 0 ∧ (((-b) ≥ 0 ∧ (a + b) > 0) ∨ ((-b) = 0 ∧ (a + b) = 0))) ∨
      ((c) ≥ 0 ∧ (((b) ≥ 0 ∧ (-a - b) > 0) ∨ ((b) = 0 ∧ (-a - b) = 0))) ∨
      ((c) ≥ 0 ∧ (((a) ≥ 0 ∧ (b) > 0) ∨ ((a) = 0 ∧ (b) = 0))) ∨
      ((c) ≥ 0 ∧ (((a + b) ≥ 0 ∧ (-a) > 0) ∨ ((a + b) = 0 ∧ (-a) = 0))) := by omega
  rcases h with h|h|h|h|h|h
  · exact ⟨sm (-1) (-1) 0 1 0 0 0 0 1, (show _ ∈ h2s10A from List.mem_cons_self _ _), by
      simp only [Mat3.apply, sm, condVec, asuCond, decide_eq_true_eq]
      omega⟩
  · exact ⟨sm (-1) 0 0 0 (-1) 0 0 0 1, (show _ ∈ h2s10A from List.mem_cons_of_mem _ (List.mem_cons_self _ _)), by
      simp only [Mat3.apply, sm, condVec, asuCond, decide_eq_true_eq]
      omega⟩
  · exact ⟨sm 0 (-1) 0 1 1 0 0 0 1, (show _ ∈ h2s10A from List.mem_cons_of_mem _ (List.mem_cons_of_mem _ (List.mem_cons_self _ _))), by
      simp only [Mat3.apply, sm, condVec, asuCond, decide_eq_true_eq]
      omega⟩
  · exact ⟨sm 0 1 0 (-1) (-1) 0 0 0 1, (show _ ∈ h2s10A from List.mem_cons_of_mem _ (List.mem_cons_of_mem _ (List.mem_cons_of_mem _ (List.mem_cons_self _ _)))), by
      simp only [Mat3.apply, sm, condVec, asuCond, decide_eq_true_eq]
      omega⟩
  · exact ⟨sm 1 0 0 0 1 0 0 0 1, (show _ ∈ h2s10A from List.mem_cons_of_mem _ (List.mem_cons_of_mem _ (List.mem_cons_of_mem _ (List.mem_cons_of_mem _ (List.mem_cons_self _ _))))), by
      simp only [Mat3.apply, sm, condVec, asuCond, decide_eq_true_eq]
      omega⟩
  · exact ⟨sm 1 1 0 (-1) 0 0 0 0 1, (show _ ∈ h2s10A from List.mem_cons_of_mem _ (List.mem_cons_of_mem _ (List.mem_cons_of_mem _ (List.mem_cons_of_mem _ (List.mem_cons_of_mem _ (List.mem_cons_self _ _)))))), by
      simp only [Mat3.apply, sm, condVec, asuCond, decide_eq_true_eq]
      omega⟩

set_option maxHeartbeats 1600000 in
theorem h2s11 : ∀ v : Vec3, 0 ≤ v.vc → ∃ a ∈ h2s11A, condVec 4 (a.apply v) = true := by
  intro v hv
  obtain ⟨a, b, c⟩ := v
  simp only [] at hv
  have h : ((-a - b) ≥ (b) ∧ (b) ≥ 0 ∧ (c) ≥ 0) ∨
      ((-a - b) ≥ (a) ∧ (a) ≥ 0 ∧ (c) ≥ 0) ∨
      ((-a) ≥ (-b) ∧ (-b) ≥ 0 ∧ (c) ≥ 0) ∨
      ((-a) ≥ (a + b) ∧ (a + b) ≥ 0 ∧ (c) ≥ 0) ∨
      ((-b) ≥ (-a) ∧ (-a) ≥ 0 ∧ (c) ≥ 0) ∨
      ((-b) ≥ (a + b) ∧ (a + b) ≥ 0 ∧ (c) ≥ 0) ∨
      ((b) ≥ (-a - b) ∧ (-a - b) ≥ 0 ∧ (c) ≥ 0) ∨
      ((b) ≥ (a) ∧ (a) ≥ 0 ∧ (c) ≥ 0) ∨
      ((a) ≥ (-a - b) ∧ (-a - b) ≥ 0 ∧ (c) ≥ 0) ∨
      ((a) ≥ (b) ∧ (b) ≥ 0 ∧ (c) ≥ 0) ∨
      ((a + b) ≥ (-a) ∧ (-a) ≥ 0 ∧ (c) ≥ 0) ∨
      ((a + b) ≥ (-b) ∧ (-b) ≥ 0 ∧ (c) ≥ 0) := by omega
  rcases h with h|h|h|h|h|h|h|h|h|h|h|h
  · exact ⟨sm (-1) (-1) 0 0 1 0 0 0 1, (show _ ∈ h2s11A from List.mem_cons_self _ _), by
      simp only [Mat3.apply, sm, condVec, asuCond, decide_eq_true_eq]
      omega⟩
  · exact ⟨sm (-1) (-1) 0 1 0 0 0 0 1, (show _ ∈ h2s11A from List.mem_cons_of_mem _ (List.mem_cons_self _ _)), by
      simp only [Mat3.apply, sm, condVec, asuCond, decide_eq_true_eq]
      omega⟩
  · exact ⟨sm (-1) 0 0 0 (-1) 0 0 0 1, (show _ ∈ h2s11A from List.mem_cons_of_mem _ (List.mem_cons_of_mem _ (List.mem_cons_self _ _))), by
      simp only [Mat3.apply, sm, condVec, asuCond, decide_eq_true_eq]
      omega⟩
  · exact ⟨sm (-1) 0 0 1 1 0 0 0 1, (show _ ∈ h2s11A from List.mem_cons_of_mem _ (List.mem_cons_of_mem _ (List.mem_cons_of_mem _ (List.mem_cons_self _ _)))), by
      simp only [Mat3.apply, sm, condVec, asuCond, decide_eq_true_eq]
      omega⟩
  · exact ⟨sm 0 (-1) 0 (-1) 0 0 0 0 1, (show _ ∈ h2s11A from List.mem_cons_of_mem _ (List.mem_cons_of_mem _ (List.mem_cons_of_mem _ (List.mem_cons_of_mem _ (List.mem_cons_self _ _))))), by
      simp only [Mat3.apply, sm, condVec, asuCond, decide_eq_true_eq]
      omega⟩
  · exact ⟨sm 0 (-1) 0 1 1 0 0 0 1, (show _ ∈ h2s11A from List.mem_cons_of_mem _ (List.mem_cons_of_mem _ (List.mem_cons_of_mem _ (List.mem_cons_of_mem _ (List.mem_cons_of_mem _ (List.mem_cons_self _ _)))))), by
      simp only [Mat3.apply, sm, condVec, asuCond, decide_eq_true_eq]
      omega⟩
  · exact ⟨sm 0 1 0 (-1) (-1) 0 0 0 1, (show _ ∈ h2s11A from List.mem_cons_of_mem _ (List.mem_cons_of_mem _ (List.mem_cons_of_mem _ (List.mem_cons_of_mem _ (List.mem_cons_of_mem _ (List.mem_cons_of_mem _ (List.mem_cons_self _ _))))))), by
      simp only [Mat3.apply, sm, condVec, asuCond, decide_eq_true_eq]
      omega⟩
  · exact ⟨sm 0 1 0 1 0 0 0 0 1, (show _ ∈ h2s11A from List.mem_cons_of_mem _ (List.mem_cons_of_mem _ (List.mem_cons_of_mem _ (List.mem_cons_of_mem _ (List.mem_cons_of_mem _ (List.mem_cons_of_mem _ (List.mem_cons_of_mem _ (List.mem_cons_self _ _)))))))), by
      simp only [Mat3.apply, sm, condVec, asuCond, decide_eq_true_eq]
      omega⟩
  · exact ⟨sm 1 0 0 (-1) (-1) 0 0 0 1, (show _ ∈ h2s11A from List.mem_cons_of_mem _ (List.mem_cons_of_mem _ (List.mem_cons_of_mem _ (List.mem_cons_of_mem _ (List.mem_cons_of_mem _ (List.mem_cons_of_mem _ (List.mem_cons_of_mem _ (List.mem_cons_of_mem _ (List.mem_cons_self _ _))))))))), by
      simp only [Mat3.apply, sm, condVec, asuCond, decide_eq_true_eq]
      omega⟩
  · exact ⟨sm 1 0 0 0 1 0 0 0 1, (show _ ∈ h2s11A from List.mem_cons_of_mem _ (List.mem_cons_of_mem _ (List.mem_cons_of_mem _ (List.mem_cons_of_mem _ (List.mem_cons_of_mem _ (List.mem_cons_of_mem _ (List.mem_cons_of_mem _ (List.mem_cons_of_mem _ (List.mem_cons_of_mem _ (List.mem_cons_self _ _)))))))))), by
      simp only [Mat3.apply, sm, condVec, asuCond, decide_eq_true_eq]
      omega⟩
  · exact ⟨sm 1 1 0 (-1) 0 0 0 0 1, (show _ ∈ h2s11A from List.mem_cons_of_mem _ (List.mem_cons_of_mem _ (List.mem_cons_of_mem _ (List.mem_cons_of_mem _ (List.mem_cons_of_mem _ (List.mem_cons_of_mem _ (List.mem_cons_of_mem _ (List.mem_cons_of_mem _ (List.mem_cons_of_mem _ (List.mem_cons_of_mem _ (List.mem_cons_self _ _))))))))))), by
      simp only [Mat3.apply, sm, condVec, asuCond, decide_eq_true_eq]
      omega⟩
  · exact ⟨sm 1 1 0 0 (-1) 0 0 0 1, (show _ ∈ h2s11A from List.mem_cons_of_mem _ (List.mem_cons_of_mem _ (List.mem_cons_of_mem _ (List.mem_cons_of_mem _ (List.mem_cons_of_mem _ (List.mem_cons_of_mem _ (List.mem_cons_of_mem _ (List.mem_cons_of_mem _ (List.mem_cons_of_mem _ (List.mem_cons_of_mem _ (List.mem_cons_of_mem _ (List.mem_cons_self _ _)))))))))))), by
      simp only [Mat3.apply, sm, condVec, asuCond, decide_eq_true_eq]
      omega⟩

theorem exSet4 : ∀ w : Vec3, ∃ C ∈ canonSet4, condVec 4 (C.apply w) = true :=
  compose_ex 4 canonSet4 h2s4A canonSet2 (fun v => condVec 2 v = true)
    (by decide) exSet2 h2s4

theorem exSet12 : ∀ w : Vec3, ∃ C ∈ canonSet12, condVec 8 (C.apply w) = true :=
  compose_ex 8 canonSet12 h2s12A canonSet2 (fun v => condVec 2 v = true)
    (by decide) exSet2 h2s12

theorem exSet13 : ∀ w : Vec3, ∃ C ∈ canonSet13, condVec 9 (C.apply w) = true :=
  compose_ex 9 canonSet13 h2s13A canonSet2 (fun v => condVec 2 v = true)
    (by decide) exSet2 h2s13

theorem exSet10 : ∀ w : Vec3, ∃ C ∈ canonSet10, condVec 3 (C.apply w) = true :=
  compose_ex 3 canonSet10 h2s10A [idm, zMirror] (fun v => 0 ≤ v.vc)
    (by decide) ex_zflip h2s10

theorem exSet11 : ∀ w : Vec3, ∃ C ∈ canonSet11, condVec 4 (C.apply w) = true :=
  compose_ex 4 canonSet11 h2s11A [idm, zMirror] (fun v => 0 ≤ v.vc)
    (by decide) ex_zflip h2s11

/-- The three facts needed of a canonical set: it is an exact
transversal provider (existence), a uniqueness step holds, and the set
has left quotients. -/
def CanonOK (i : Nat) (L : List Mat3) : Prop :=
  (∀ w, ∃ C ∈ L, condVec i (C.apply w) = true) ∧
  (∀ C ∈ L, ∀ u, condVec i u = true → condVec i (C.apply u) = true →
    C.apply u = u) ∧
  (∀ A ∈ L, ∀ B ∈ L, ∃ C ∈ L, C.mul A = B)

theorem canonOK0 : CanonOK 0 canonSet0 :=
  ⟨exSet0, uniqStep0, closure_from canonSet0 mulClosed0 invClosed0⟩

theorem canonOK1 : CanonOK 1 canonSet1 :=
  ⟨exSet1, uniqStep1, closure_from canonSet1 mulClosed1 invClosed1⟩

theorem canonOK2 : CanonOK 2 canonSet2 :=
  ⟨exSet2, uniqStep2, closure_from canonSet2 mulClosed2 invClosed2⟩

theorem canonOK3 : CanonOK 3 canonSet3 :=
  ⟨exSet3, uniqStep3, closure_from canonSet3 mulClosed3 invClosed3⟩

theorem canonOK4 : CanonOK 4 canonSet4 :=
  ⟨exSet4, uniqStep4, closure_from canonSet4 mulClosed4 invClosed4⟩

theorem canonOK5 : CanonOK 5 canonSet5 :=
  ⟨exSet5, uniqStep5, closure_from canonSet5 mulClosed5 invClosed5⟩

theorem canonOK7 : CanonOK 6 canonSet7 :=
  ⟨exSet7, uniqStep7, closure_from canonSet7 mulClosed7 invClosed7⟩

theorem canonOK8 : CanonOK 7 canonSet8 :=
  ⟨exSet8, uniqStep8, closure_from canonSet8 mulClosed8 invClosed8⟩

theorem canonOK10 : CanonOK 3 canonSet10 :=
  ⟨exSet10, uniqStep10, closure_from canonSet10 mulClosed10 invClosed10⟩

theorem canonOK11 : CanonOK 4 canonSet11 :=
  ⟨exSet11, uniqStep11, closure_from canonSet11 mulClosed11 invClosed11⟩

theorem canonOK12 : CanonOK 8 canonSet12 :=
  ⟨exSet12, uniqStep12, closure_from canonSet12 mulClosed12 invClosed12⟩

theorem canonOK13 : CanonOK 9 canonSet13 :=
  ⟨exSet13, uniqStep13, closure_from canonSet13 mulClosed13 invClosed13⟩

/-- Every candidate canonical set is sound for its condition index. -/
theorem canonVariants_ok : ∀ i, ∀ L ∈ canonVariants i, CanonOK i L := by
  intro i L hL
  match i with
  | 0 => simp only [canonVariants, List.mem_cons, List.not_mem_nil, or_false] at hL; subst hL; exact canonOK0
  | 1 => simp only [canonVariants, List.mem_cons, List.not_mem_nil, or_false] at hL; subst hL; exact canonOK1
  | 2 => simp only [canonVariants, List.mem_cons, List.not_mem_nil, or_false] at hL; subst hL; exact canonOK2
  | 3 =>
    simp only [canonVariants, List.mem_cons, List.not_mem_nil, or_false] at hL
    rcases hL with rfl | rfl
    · exact canonOK3
    · exact canonOK10
  | 4 =>
    simp only [canonVariants, List.mem_cons, List.not_mem_nil, or_false] at hL
    rcases hL with rfl | rfl
    · exact canonOK4
    · exact canonOK11
  | 5 => simp only [canonVariants, List.mem_cons, List.not_mem_nil, or_false] at hL; subst hL; exact canonOK5
  | 6 => simp only [canonVariants, List.mem_cons, List.not_mem_nil, or_false] at hL; subst hL; exact canonOK7
  | 7 => simp only [canonVariants, List.mem_cons, List.not_mem_nil, or_false] at hL; subst hL; exact canonOK8
  | 8 => simp only [canonVariants, List.mem_cons, List.not_mem_nil, or_false] at hL; subst hL; exact canonOK12
  | 9 => simp only [canonVariants, List.mem_cons, List.not_mem_nil, or_false] at hL; subst hL; exact canonOK13
  | (n + 10) => simp only [canonVariants, List.not_mem_nil] at hL

/-! ## Claim C1: per-entry checks and the transfer to orbits -/

/-- A `DEN`-scaled rotation entry is one of -24, 0, 24. -/
def entrySmall (x : Int) : Bool := x == -24 || x == 0 || x == 24

/-- All nine entries of a scaled rotation are in {-24, 0, 24}. -/
def rotSmall (m : Mat3) : Bool :=
  entrySmall m.r0.va && entrySmall m.r0.vb && entrySmall m.r0.vc &&
  entrySmall m.r1.va && entrySmall m.r1.vb && entrySmall m.r1.vc &&
  entrySmall m.r2.va && entrySmall m.r2.vb && entrySmall m.r2.vc

/-- The unscaled transpose of a scaled rotation: the matrix that
`apply_to_hkl` multiplies by. -/
def smallT (m : Mat3) : Mat3 := (Mat3.unscale m).transpose

/-- Truncating division by 24 of a 24-multiple combination. -/
theorem tdiv24_lin (x y z h k l : Int) :
    (24 * x * h + 24 * y * k + 24 * z * l).tdiv 24 = x * h + y * k + z * l := by
  rw [show 24 * x * h + 24 * y * k + 24 * z * l = 24 * (x * h + y * k + z * l)
    from by ring]
  exact Int.mul_tdiv_cancel_left _ (by decide)

/-- An entry in {-24, 0, 24} is 24 times its own truncated quotient. -/
theorem entrySmall_eq (x : Int) (hx : entrySmall x = true) : x = 24 * x.tdiv 24 := by
  simp only [entrySmall, Bool.or_eq_true, beq_iff_eq] at hx
  rcases hx with (h | h) | h <;> subst h <;> decide

/-- `apply_to_hkl` agrees with the plain action of the unscaled
transpose whenever the rotation entries are ±DEN or 0 (as they are
throughout the table). -/
theorem applyToHkl_eq_smallT (o : Op) (h : rotSmall o.rot = true) (v : Vec3) :
    o.applyToHkl v = (smallT o.rot).apply v := by
  simp only [rotSmall, Bool.and_eq_true] at h
  obtain ⟨⟨⟨⟨⟨⟨⟨⟨h00, h01⟩, h02⟩, h10⟩, h11⟩, h12⟩, h20⟩, h21⟩, h22⟩ := h
  simp only [Op.applyToHkl, smallT, Mat3.unscale, Mat3.transpose, Mat3.apply,
    DEN, Vec3.mk.injEq]
  refine ⟨?_, ?_, ?_⟩
  · rw [show o.rot.r0.va * v.va + o.rot.r1.va * v.vb + o.rot.r2.va * v.vc =
      24 * (o.rot.r0.va.tdiv 24) * v.va + 24 * (o.rot.r1.va.tdiv 24) * v.vb +
      24 * (o.rot.r2.va.tdiv 24) * v.vc from by
        rw [← entrySmall_eq _ h00, ← entrySmall_eq _ h10, ← entrySmall_eq _ h20]]
    exact tdiv24_lin _ _ _ _ _ _
  · rw [show o.rot.r0.vb * v.va + o.rot.r1.vb * v.vb + o.rot.r2.vb * v.vc =
      24 * (o.rot.r0.vb.tdiv 24) * v.va + 24 * (o.rot.r1.vb.tdiv 24) * v.vb +
      24 * (o.rot.r2.vb.tdiv 24) * v.vc from by
        rw [← entrySmall_eq _ h01, ← entrySmall_eq _ h11, ← entrySmall_eq _ h21]]
    exact tdiv24_lin _ _ _ _ _ _
  · rw [show o.rot.r0.vc * v.va + o.rot.r1.vc * v.vb + o.rot.r2.vc * v.vc =
      24 * (o.rot.r0.vc.tdiv 24) * v.va + 24 * (o.rot.r1.vc.tdiv 24) * v.vb +
      24 * (o.rot.r2.vc.tdiv 24) * v.vc from by
        rw [← entrySmall_eq _ h02, ← entrySmall_eq _ h12, ← entrySmall_eq _ h22]]
    exact tdiv24_lin _ _ _ _ _ _

/-- `is_in` of the checker is the reference condition applied to the
basis-rotated indices. -/
theorem isIn_eq_condVec (ch : HklAsuChecker) (u : Vec3) :
    ch.isIn u.va u.vb u.vc = condVec ch.idx (ch.rot.apply u) := by
  rfl

/-- The exactly-one transfer: if the (Friedel-extended, unscaled,
transposed) rotation set `S` of a group matches a canonical set `L`
through the basis rotation `mp` (`mp*S = L*mp` as sets), and `mp` is
injective, then every `S`-orbit carries exactly one point satisfying
the ASU condition behind `mp`. -/
theorem exactly_one_transfer (i : Nat) (L : List Mat3) (hok : CanonOK i L)
    (mp : Mat3) (hdet : detM mp ≠ 0)
    (S : List Mat3)
    (hS1 : ∀ s ∈ S, ∃ c ∈ L, mp.mul s = c.mul mp)
    (hS2 : ∀ c ∈ L, ∃ s ∈ S, c.mul mp = mp.mul s)
    (v : Vec3) :
    ∃ s ∈ S, condVec i (mp.apply (s.apply v)) = true ∧
      ∀ s' ∈ S, condVec i (mp.apply (s'.apply v)) = true →
        s'.apply v = s.apply v := by
  obtain ⟨hex, hstep, hclo⟩ := hok
  obtain ⟨C, hC, hcond⟩ := hex (mp.apply v)
  obtain ⟨s, hs, hcs⟩ := hS2 C hC
  have key : ∀ s' ∈ S, ∀ c ∈ L, mp.mul s' = c.mul mp →
      mp.apply (s'.apply v) = c.apply (mp.apply v) := by
    intro s' _ c _ he
    rw [← mul_apply, he, mul_apply]
  refine ⟨s, hs, ?_, ?_⟩
  · rw [key s hs C hC hcs.symm]
    exact hcond
  · intro s' hs' hcond'
    obtain ⟨c', hc', hcs'⟩ := hS1 s' hs'
    have h1 : condVec i (c'.apply (mp.apply v)) = true := by
      rw [← key s' hs' c' hc' hcs']
      exact hcond'
    have h2 : condVec i (C.apply (mp.apply v)) = true := by
      rw [← key s hs C hC hcs.symm]
      rw [key s hs C hC hcs.symm]
      exact hcond
    -- c' (mp v) = C (mp v) via the left-quotient and the step lemma
    obtain ⟨D, hD, hDq⟩ := hclo C hC c' hc'
    have h3 : condVec i (D.apply (C.apply (mp.apply v))) = true := by
      rw [← mul_apply, hDq]
      exact h1
    have h4 := hstep D hD (C.apply (mp.apply v)) h2 h3
    have h5 : c'.apply (mp.apply v) = C.apply (mp.apply v) := by
      rw [← hDq, mul_apply, h4]
    have h6 : mp.apply (s'.apply v) = mp.apply (s.apply v) := by
      rw [key s' hs' c' hc' hcs', key s hs C hC hcs.symm, h5]
    exact apply_injective mp hdet h6

/-- The Friedel-extended unscaled transposed rotation set of a group. -/
def sallOf (g : GroupOps) : List Mat3 :=
  (g.symOps.map fun o => smallT o.rot) ++
  (g.symOps.map fun o => smallT o.rot).map Mat3.negated

/-- The orbit of a Miller triple under the full operation set. -/
def hklOrbit (g : GroupOps) (v : Vec3) : List Vec3 :=
  g.fullOps.map fun o => o.applyToHkl v

/-- The orbit extended by the Friedel mates. -/
def friedelOrbit (g : GroupOps) (v : Vec3) : List Vec3 :=
  hklOrbit g v ++ (hklOrbit g v).map Vec3.neg

/-- Lexicographic comparison of two integer matrices. -/
def Mat3.leB (a b : Mat3) : Bool :=
  if a.r0.va ≠ b.r0.va then a.r0.va < b.r0.va else
  if a.r0.vb ≠ b.r0.vb then a.r0.vb < b.r0.vb else
  if a.r0.vc ≠ b.r0.vc then a.r0.vc < b.r0.vc else
  if a.r1.va ≠ b.r1.va then a.r1.va < b.r1.va else
  if a.r1.vb ≠ b.r1.vb then a.r1.vb < b.r1.vb else
  if a.r1.vc ≠ b.r1.vc then a.r1.vc < b.r1.vc else
  if a.r2.va ≠ b.r2.va then a.r2.va < b.r2.va else
  if a.r2.vb ≠ b.r2.vb then a.r2.vb < b.r2.vb else
  a.r2.vc ≤ b.r2.vc

/-- Ordered insertion skipping duplicates. -/
def insertM (x : Mat3) (l : List Mat3) : List Mat3 :=
  match l with
  | [] => [x]
  | y :: ys => if x == y then y :: ys
               else if Mat3.leB x y then x :: y :: ys
               else y :: insertM x ys

/-- Sort a matrix list, removing duplicates. -/
def sortDedupM (l : List Mat3) : List Mat3 := l.foldr insertM []

/-- The decidable per-entry check shared by the round-trip and ASU
claims: the group expands, all rotations have entries in {-DEN,0,DEN},
centering vectors exist and, except for the rhombohedral-axes settings,
the Friedel-extended rotation set matches a canonical ASU set through
the basis rotation. -/
def entryCheck (sg : SpaceGroup) : Bool :=
  match symopsFromHall sg.hall with
  | .error _ => false
  | .ok g =>
    (g.symOps.all fun o => rotSmall o.rot) &&
    !g.cenOps.isEmpty &&
    (sg.ext == 'R' ||
      match mkHklAsuChecker sg with
      | .error _ => false
      | .ok ch =>
        decide (detM ch.rot ≠ 0) &&
        ((canonVariants ch.idx).any fun L =>
          sortDedupM ((sallOf g).map fun s => ch.rot.mul s) ==
            sortDedupM (L.map fun c => c.mul ch.rot)))
